import Mathlib

/-
Shallow embedding of the AGT-Bidding-competition repository.

The repository consists of twelve Python bidding-agent classes (directories
src/teams and src/teams_bench), all implementing the same interface:
a constructor, a bidding_function, and update_after_each_round.  Python
floats are modelled as rationals, Python dicts as association lists,
Python sets as lists used only through membership, and a Python method
that can raise KeyError is modelled as a function into Except carrying
the partially mutated object state (a Python object keeps the mutations
performed before the raise).  Each agent namespace mirrors one source
file; definitions follow the source line by line.
-/

namespace AGT

/-- Python d.get(k, d0) on a dict of rationals. -/
def dget (l : List (String × ℚ)) (k : String) (d : ℚ) : ℚ :=
  (List.lookup k l).getD d

/-- Python dict update of the value stored at an existing key. -/
def dmodg {α : Type} (l : List (String × α)) (k : String) (f : α → α) :
    List (String × α) :=
  l.map fun p => if p.1 = k then (p.1, f p.2) else p

/-- Python d[k] = v on an integer-valued dict: update in place when the key
exists and append otherwise (insertion order). -/
def dsetz (l : List (String × ℤ)) (k : String) (v : ℤ) : List (String × ℤ) :=
  if (List.lookup k l).isSome then l.map (fun p => if p.1 = k then (p.1, v) else p)
  else l ++ [(k, v)]

/-- Python d[k] = v on a rational-valued dict: update in place when the key
exists and append otherwise (insertion order). -/
def dsetq (l : List (String × ℚ)) (k : String) (v : ℚ) : List (String × ℚ) :=
  if (List.lookup k l).isSome then l.map (fun p => if p.1 = k then (p.1, v) else p)
  else l ++ [(k, v)]

/-- Python d[k] = v on a string-valued dict: update in place when the key
exists and append otherwise (insertion order). -/
def dsets (l : List (String × String)) (k : String) (v : String) :
    List (String × String) :=
  if (List.lookup k l).isSome then l.map (fun p => if p.1 = k then (p.1, v) else p)
  else l ++ [(k, v)]

/-- Python d.values() of a rational-valued dict. -/
def dvalues (l : List (String × ℚ)) : List ℚ := l.map Prod.snd

/-- Python max of a list of floats; the sources only apply it to nonempty
lists, and the empty case is given the junk value 0. -/
def pymax : List ℚ → ℚ
  | [] => 0
  | x :: xs => xs.foldl max x

/-- Python min of a list of floats; only applied to nonempty lists. -/
def pymin : List ℚ → ℚ
  | [] => 0
  | x :: xs => xs.foldl min x

/-- Python sorted on a list of floats. -/
def pysorted (l : List ℚ) : List ℚ := l.insertionSort (· ≤ ·)

/-- Result of one auction round as broadcast to every agent: the arguments
of update_after_each_round. -/
structure Round where
  item_id : String
  winning_team : String
  price_paid : ℚ

/-- State reached by a Python method call, .error when the call raised
(carrying the partially mutated state), .ok when it completed. -/
def exSt {σ : Type} : Except σ σ → σ
  | .ok s => s
  | .error s => s

/-- Whether a Python method call completed without raising. -/
def exOk {σ : Type} : Except σ σ → Bool
  | .ok _ => true
  | .error _ => false

/-- Sum of the prices paid over exactly the rounds won by the given team. -/
def wonSum (team : String) : List Round → ℚ
  | [] => 0
  | r :: rs => (if r.winning_team = team then r.price_paid else 0) + wonSum team rs

/-- Sum of valuation minus price over exactly the rounds won by the given
team, the valuation read from the given valuation vector (0 if absent). -/
def utilSum (team : String) (vv : List (String × ℚ)) : List Round → ℚ
  | [] => 0
  | r :: rs =>
      (if r.winning_team = team then dget vv r.item_id 0 - r.price_paid else 0) +
        utilSum team vv rs

/-- Every round that the agent wins is charged no more than the budget the
agent holds when that round is settled (the engine guarantee: a winning bid
is capped at the remaining budget and the price never exceeds the bid). -/
def FeasibleFrom {σ : Type} (upd : σ → Round → σ) (bud : σ → ℚ)
    (team : σ → String) : σ → List Round → Prop
  | _, [] => True
  | s, r :: rs =>
      (r.winning_team = team s → r.price_paid ≤ bud s) ∧
        FeasibleFrom upd bud team (upd s r) rs

/-- Bid sequence produced by running an agent over a fixed sequence of round
outcomes: each round the agent is asked to bid on the item, records the bid
(where the source stores it in my_bids), then receives the outcome. -/
def runBids {σ : Type} (bidF : σ → String → ℚ) (rec : σ → String → ℚ → σ)
    (upd : σ → Round → σ) : σ → List Round → List ℚ
  | _, [] => []
  | s, r :: rs =>
      bidF s r.item_id ::
        runBids bidF rec upd (upd (rec s r.item_id (bidF s r.item_id)) r) rs

/-! ## src/teams_bench/team_example_5: the truthful bidder -/

namespace ExFive

structure State where
  team_id : String
  valuation_vector : List (String × ℚ)
  budget : ℚ
  initial_budget : ℚ
  opponent_teams : List String
  utility : ℚ
  items_won : List String

def init (team_id : String) (vv : List (String × ℚ)) (budget : ℚ)
    (opps : List String) : State :=
  { team_id := team_id, valuation_vector := vv, budget := budget,
    initial_budget := budget, opponent_teams := opps, utility := 0,
    items_won := [] }

def updateBudget (s : State) (r : Round) : State :=
  if r.winning_team = s.team_id then
    { s with budget := s.budget - r.price_paid,
             items_won := s.items_won ++ [r.item_id] }
  else s

def update (s : State) (r : Round) : Except State State :=
  let s1 := updateBudget s r
  if r.winning_team = s1.team_id then
    match List.lookup r.item_id s1.valuation_vector with
    | none => .error s1
    | some v => .ok { s1 with utility := s1.utility + (v - r.price_paid) }
  else .ok s1

def step (s : State) (r : Round) : State := exSt (update s r)

def bid (s : State) (item_id : String) : ℚ :=
  let valuation := dget s.valuation_vector item_id 0
  min valuation s.budget

end ExFive

/-! ## src/teams_bench/team_example_2: the random bidder

The source seeds the global random generator from system entropy in the
constructor and draws random.uniform(0, 1) in bidding_function; the draw is
modelled as an extra input fraction of the bidding function. -/

namespace ExTwo

structure State where
  team_id : String
  valuation_vector : List (String × ℚ)
  budget : ℚ
  initial_budget : ℚ
  opponent_teams : List String
  utility : ℚ
  items_won : List String

def init (team_id : String) (vv : List (String × ℚ)) (budget : ℚ)
    (opps : List String) : State :=
  { team_id := team_id, valuation_vector := vv, budget := budget,
    initial_budget := budget, opponent_teams := opps, utility := 0,
    items_won := [] }

def updateBudget (s : State) (r : Round) : State :=
  if r.winning_team = s.team_id then
    { s with budget := s.budget - r.price_paid,
             items_won := s.items_won ++ [r.item_id] }
  else s

def update (s : State) (r : Round) : Except State State :=
  let s1 := updateBudget s r
  if r.winning_team = s1.team_id then
    match List.lookup r.item_id s1.valuation_vector with
    | none => .error s1
    | some v => .ok { s1 with utility := s1.utility + (v - r.price_paid) }
  else .ok s1

def step (s : State) (r : Round) : State := exSt (update s r)

def bid (s : State) (item_id : String) (fraction : ℚ) : ℚ :=
  let valuation := dget s.valuation_vector item_id 0
  min (valuation * fraction) s.budget

end ExTwo

/-! ## src/teams_bench/team_example_3: the budget-aware bidder -/

namespace ExThree

structure State where
  team_id : String
  valuation_vector : List (String × ℚ)
  budget : ℚ
  initial_budget : ℚ
  opponent_teams : List String
  utility : ℚ
  items_won : List String
  rounds_completed : ℤ
  total_rounds : ℤ

def init (team_id : String) (vv : List (String × ℚ)) (budget : ℚ)
    (opps : List String) : State :=
  { team_id := team_id, valuation_vector := vv, budget := budget,
    initial_budget := budget, opponent_teams := opps, utility := 0,
    items_won := [], rounds_completed := 0, total_rounds := 15 }

def updateBudget (s : State) (r : Round) : State :=
  if r.winning_team = s.team_id then
    { s with budget := s.budget - r.price_paid,
             items_won := s.items_won ++ [r.item_id] }
  else s

def update (s : State) (r : Round) : Except State State :=
  let s1 := updateBudget s r
  match (if r.winning_team = s1.team_id then
           match List.lookup r.item_id s1.valuation_vector with
           | none => none
           | some v => some { s1 with utility := s1.utility + (v - r.price_paid) }
         else some s1) with
  | none => .error s1
  | some s2 => .ok { s2 with rounds_completed := s2.rounds_completed + 1 }

def step (s : State) (r : Round) : State := exSt (update s r)

def bid (s : State) (item_id : String) : ℚ :=
  let valuation := dget s.valuation_vector item_id 0
  let rounds_remaining := s.total_rounds - s.rounds_completed
  if rounds_remaining = 0 then 0
  else
    let progress := (s.rounds_completed : ℚ) / (s.total_rounds : ℚ)
    let aggressiveness := 0.7 + 0.3 * progress
    max 0 (min (valuation * aggressiveness) (min s.budget valuation))

end ExThree

/-! ## src/teams_bench/team_example_4: the strategic bidder with simple
opponent modeling (numpy mean and max are the exact mean and max) -/

namespace ExFour

structure State where
  team_id : String
  valuation_vector : List (String × ℚ)
  budget : ℚ
  initial_budget : ℚ
  opponent_teams : List String
  utility : ℚ
  items_won : List String
  rounds_completed : ℤ
  observed_prices : List ℚ
  opponent_wins : List (String × ℤ)

def init (team_id : String) (vv : List (String × ℚ)) (budget : ℚ)
    (opps : List String) : State :=
  { team_id := team_id, valuation_vector := vv, budget := budget,
    initial_budget := budget, opponent_teams := opps, utility := 0,
    items_won := [], rounds_completed := 0, observed_prices := [],
    opponent_wins := [] }

def updateBudget (s : State) (r : Round) : State :=
  if r.winning_team = s.team_id then
    { s with budget := s.budget - r.price_paid,
             items_won := s.items_won ++ [r.item_id] }
  else s

def update (s : State) (r : Round) : Except State State :=
  let s1 := updateBudget s r
  match (if r.winning_team = s1.team_id then
           match List.lookup r.item_id s1.valuation_vector with
           | none => none
           | some v => some { s1 with utility := s1.utility + (v - r.price_paid) }
         else some s1) with
  | none => .error s1
  | some s2 =>
      let s3 := if r.winning_team ≠ "" ∧ 0 < r.price_paid then
          { s2 with observed_prices := s2.observed_prices ++ [r.price_paid],
                    opponent_wins := dsetz s2.opponent_wins r.winning_team
                      ((List.lookup r.winning_team s2.opponent_wins).getD 0 + 1) }
        else s2
      .ok { s3 with rounds_completed := s3.rounds_completed + 1 }

def step (s : State) (r : Round) : State := exSt (update s r)

def bid (s : State) (item_id : String) : ℚ :=
  let valuation := dget s.valuation_vector item_id 0
  if s.budget ≤ 0 then 0
  else
    let avg_price := if s.observed_prices ≠ [] then
        s.observed_prices.sum / (s.observed_prices.length : ℚ) else 5
    let max_price := if s.observed_prices ≠ [] then pymax s.observed_prices else 10
    let total_rounds : ℤ := 15
    let rounds_remaining := total_rounds - s.rounds_completed
    if rounds_remaining = 0 then 0
    else
      let bid_fraction : ℚ :=
        if max_price < valuation then 0.9
        else if avg_price < valuation then 0.7 else 0.5
      let b0 := valuation * bid_fraction
      let b1 := min b0 s.budget
      let b2 := if 3 < rounds_remaining then min b1 (s.budget * 0.5) else b1
      max 0 b2

end ExFour

/-! ## src/teams/team_ayelet: the pacing shadow-price bidder -/

namespace Ay

structure State where
  team_id : String
  valuation_vector : List (String × ℚ)
  budget : ℚ
  initial_budget : ℚ
  opponent_teams : List String
  utility : ℚ
  items_won : List String
  rounds_completed : ℤ
  total_rounds : ℤ
  price_history : List ℚ
  opponent_win_count : List (String × ℤ)
  alpha_max : ℚ
  alpha_min : ℚ
  lambda_shadow : ℚ
  k_lambda : ℚ
  endgame_rounds : ℤ
  burn_gamma : ℚ
  spent_so_far : ℚ
  value_safety : ℚ

def init (team_id : String) (vv : List (String × ℚ)) (budget : ℚ)
    (opps : List String) : State :=
  { team_id := team_id, valuation_vector := vv, budget := budget,
    initial_budget := budget, opponent_teams := opps, utility := 0,
    items_won := [], rounds_completed := 0, total_rounds := 15,
    price_history := [], opponent_win_count := opps.map (fun o => (o, 0)),
    alpha_max := 1.85, alpha_min := 1.05, lambda_shadow := 0,
    k_lambda := 1.10, endgame_rounds := 3, burn_gamma := 1.45,
    spent_so_far := 0, value_safety := 0 }

def updateBudget (s : State) (r : Round) : State :=
  if r.winning_team = s.team_id then
    { s with budget := s.budget - r.price_paid,
             items_won := s.items_won ++ [r.item_id] }
  else s

/-- Linear decay from alpha_max to alpha_min over the game. -/
def alphaBase (s : State) : ℚ :=
  if s.total_rounds ≤ 1 then s.alpha_min
  else
    let frac := (s.rounds_completed : ℚ) / ((s.total_rounds : ℚ) - 1)
    s.alpha_max - (s.alpha_max - s.alpha_min) * frac

/-- Average and median of the observed prices; (0, 0) when none. -/
def avgAndMedianPrice (s : State) : ℚ × ℚ :=
  if s.price_history = [] then (0, 0)
  else
    let avg := s.price_history.sum / (s.price_history.length : ℚ)
    let xs := pysorted s.price_history
    let n := xs.length
    let mid := n / 2
    let med := if n % 2 = 1 then xs.getD mid 0
      else 0.5 * (xs.getD (mid - 1) 0 + xs.getD mid 0)
    (avg, med)

/-- Budget update and the winner-only utility and spend credit: the lines of
update_after_each_round up to and including the possible KeyError. -/
def settle (s : State) (r : Round) : Except State State :=
  let s1 := updateBudget s r
  if r.winning_team = s1.team_id then
    match List.lookup r.item_id s1.valuation_vector with
    | none => .error s1
    | some v => .ok { s1 with utility := s1.utility + (v - r.price_paid),
                              spent_so_far := s1.spent_so_far + r.price_paid }
  else .ok s1

def stageRounds (s : State) : State :=
  { s with rounds_completed := s.rounds_completed + 1 }

def stagePriceHist (s : State) (r : Round) : State :=
  if 0 < r.price_paid then
    { s with price_history := s.price_history ++ [r.price_paid] } else s

def stageOppCount (s : State) (r : Round) : State :=
  if r.winning_team ≠ "" ∧ r.winning_team ≠ s.team_id ∧
      (List.lookup r.winning_team s.opponent_win_count).isSome then
    { s with opponent_win_count :=
        dmodg s.opponent_win_count r.winning_team (fun n => n + 1) }
  else s

/-- Pacing update: compare actual spend to planned spend, move the shadow
price, and clamp it at 0 from below. -/
def stagePacing (s : State) : State :=
  let planned := s.initial_budget * ((s.rounds_completed : ℚ) / (s.total_rounds : ℚ))
  let err := planned - s.spent_so_far
  let lam := s.lambda_shadow - s.k_lambda * (err / max 1e-9 s.initial_budget)
  { s with lambda_shadow := if lam < 0 then 0 else lam }

/-- Learning part of update_after_each_round, run when no KeyError was
raised: round counter, price history, opponent wins, pacing. -/
def learn (t : State) (r : Round) : State :=
  stagePacing (stageOppCount (stagePriceHist (stageRounds t) r) r)

def update (s : State) (r : Round) : Except State State :=
  match settle s r with
  | .error t => .error t
  | .ok t => .ok (learn t r)

def step (s : State) (r : Round) : State := exSt (update s r)

/-- Base bid, market nudge, safety cap and endgame burn: the body of
bidding_function after its guards and before its final clamps. -/
def rawBid (s : State) (my_valuation : ℚ) (rounds_remaining : ℤ) : ℚ :=
  let alpha := alphaBase s
  let base0 := alpha * my_valuation / (1 + s.lambda_shadow)
  let base1 := if s.budget < base0 then s.budget else base0
  let base_bid := if base1 < 0 then 0 else base1
  let med_p := (avgAndMedianPrice s).2
  let bid1 := if 0 < med_p then
      (let market_target := med_p * 1.10
       let mt := if market_target < 0 then 0 else market_target
       let w : ℚ := if 1.3 * med_p ≤ my_valuation then 0.75
         else if 1.0 * med_p ≤ my_valuation then 0.60 else 0.40
       w * base_bid + (1 - w) * mt)
    else base_bid
  let bid2 := if 0 < med_p ∧ my_valuation - s.value_safety < med_p then
      (if s.endgame_rounds < rounds_remaining then
         min bid1 (max 0 (my_valuation - s.value_safety)) else bid1)
    else bid1
  if rounds_remaining ≤ s.endgame_rounds then
    (let floor_bid := s.burn_gamma * (s.budget / (rounds_remaining : ℚ))
     if bid2 < floor_bid then floor_bid else bid2)
  else bid2

def bid (s : State) (item_id : String) : ℚ :=
  let my_valuation := dget s.valuation_vector item_id 0
  if my_valuation ≤ 0 ∨ s.budget ≤ 0 then 0
  else
    let rounds_remaining := s.total_rounds - s.rounds_completed
    if rounds_remaining ≤ 0 then 0
    else
      let b := rawBid s my_valuation rounds_remaining
      let b1 := if b < 0 then 0 else b
      let b2 := if s.budget < b1 then s.budget else b1
      min b2 (max 0 (my_valuation - 0.25))

end Ay

/-! ## src/teams/team_ayelet_simple: the simple pacer -/

namespace AySimple

structure State where
  team_id : String
  valuation_vector : List (String × ℚ)
  budget : ℚ
  initial_budget : ℚ
  opponent_teams : List String
  utility : ℚ
  items_won : List String
  rounds_completed : ℤ
  total_rounds : ℤ
  alpha_max : ℚ
  alpha_min : ℚ
  alpha_feedback : ℚ
  k_feedback : ℚ
  feedback_clip : ℚ
  spent_so_far : ℚ
  endgame_rounds : ℤ
  burn_gamma : ℚ
  cap_at_value : Bool
  value_margin : ℚ

def init (team_id : String) (vv : List (String × ℚ)) (budget : ℚ)
    (opps : List String) : State :=
  { team_id := team_id, valuation_vector := vv, budget := budget,
    initial_budget := budget, opponent_teams := opps, utility := 0,
    items_won := [], rounds_completed := 0, total_rounds := 15,
    alpha_max := 1.80, alpha_min := 1.05, alpha_feedback := 0,
    k_feedback := 0.90, feedback_clip := 0.60, spent_so_far := 0,
    endgame_rounds := 3, burn_gamma := 1.35, cap_at_value := true,
    value_margin := 0 }

def updateBudget (s : State) (r : Round) : State :=
  if r.winning_team = s.team_id then
    { s with budget := s.budget - r.price_paid,
             items_won := s.items_won ++ [r.item_id] }
  else s

/-- Budget update and the winner-only utility and spend credit: the lines of
update_after_each_round up to and including the possible KeyError. -/
def settle (s : State) (r : Round) : Except State State :=
  let s1 := updateBudget s r
  if r.winning_team = s1.team_id then
    match List.lookup r.item_id s1.valuation_vector with
    | none => .error s1
    | some v => .ok { s1 with utility := s1.utility + (v - r.price_paid),
                              spent_so_far := s1.spent_so_far + r.price_paid }
  else .ok s1

def stageRounds (s : State) : State :=
  { s with rounds_completed := s.rounds_completed + 1 }

/-- Feedback pacing update with clipping. -/
def stageFeedback (s : State) : State :=
  let planned := s.initial_budget * ((s.rounds_completed : ℚ) / (s.total_rounds : ℚ))
  let err := planned - s.spent_so_far
  let adj := s.k_feedback * (err / max 1e-9 s.initial_budget)
  let af := s.alpha_feedback + adj
  let af1 := if s.feedback_clip < af then s.feedback_clip
    else if af < -s.feedback_clip then -s.feedback_clip else af
  { s with alpha_feedback := af1 }

/-- Learning part of update_after_each_round: round counter and feedback. -/
def learn (t : State) : State := stageFeedback (stageRounds t)

def update (s : State) (r : Round) : Except State State :=
  match settle s r with
  | .error t => .error t
  | .ok t => .ok (learn t)

def step (s : State) (r : Round) : State := exSt (update s r)

def alphaBase (s : State) : ℚ :=
  if s.total_rounds ≤ 1 then s.alpha_min
  else
    let frac := (s.rounds_completed : ℚ) / ((s.total_rounds : ℚ) - 1)
    s.alpha_max - (s.alpha_max - s.alpha_min) * frac

/-- Aggression times value, endgame burn floor, and the optional cap at
value: the body of bidding_function before its final clamps. -/
def rawBid (s : State) (my_valuation : ℚ) (rounds_remaining : ℤ) : ℚ :=
  let alpha_t0 := alphaBase s + s.alpha_feedback
  let a1 := if alpha_t0 < 0.10 then 0.10 else alpha_t0
  let alpha_t := if 2.50 < a1 then 2.50 else a1
  let bid0 := alpha_t * my_valuation
  let bid1 := if rounds_remaining ≤ s.endgame_rounds then
      (let floor_bid := s.burn_gamma * (s.budget / (rounds_remaining : ℚ))
       if bid0 < floor_bid then floor_bid else bid0)
    else bid0
  if s.cap_at_value then
    (let cap0 := my_valuation - s.value_margin
     let cap := if cap0 < 0 then 0 else cap0
     if cap < bid1 then cap else bid1)
  else bid1

def bid (s : State) (item_id : String) : ℚ :=
  let my_valuation := dget s.valuation_vector item_id 0
  if my_valuation ≤ 0 ∨ s.budget ≤ 0 then 0
  else
    let rounds_remaining := s.total_rounds - s.rounds_completed
    if rounds_remaining ≤ 0 then 0
    else
      let b := rawBid s my_valuation rounds_remaining
      let b1 := if b < 0 then 0 else b
      if s.budget < b1 then s.budget else b1

end AySimple

/-! ## src/teams_bench/team_ayelet_aggresive: the aggressive pacer with a
capped shadow price -/

namespace AyAggr

structure State where
  team_id : String
  valuation_vector : List (String × ℚ)
  budget : ℚ
  initial_budget : ℚ
  opponent_teams : List String
  utility : ℚ
  items_won : List String
  rounds_completed : ℤ
  total_rounds : ℤ
  price_history : List ℚ
  opponent_win_count : List (String × ℤ)
  alpha_max : ℚ
  alpha_min : ℚ
  lambda_shadow : ℚ
  k_lambda : ℚ
  lambda_cap : ℚ
  endgame_rounds : ℤ
  burn_gamma : ℚ
  spent_so_far : ℚ
  safe_early : Bool
  safe_early_rounds : ℤ
  value_margin : ℚ

def init (team_id : String) (vv : List (String × ℚ)) (budget : ℚ)
    (opps : List String) : State :=
  { team_id := team_id, valuation_vector := vv, budget := budget,
    initial_budget := budget, opponent_teams := opps, utility := 0,
    items_won := [], rounds_completed := 0, total_rounds := 15,
    price_history := [], opponent_win_count := opps.map (fun o => (o, 0)),
    alpha_max := 2.40, alpha_min := 1.20, lambda_shadow := 0,
    k_lambda := 2.20, lambda_cap := 6.0, endgame_rounds := 5,
    burn_gamma := 2.20, spent_so_far := 0, safe_early := true,
    safe_early_rounds := 10, value_margin := 0.25 }

def updateBudget (s : State) (r : Round) : State :=
  if r.winning_team = s.team_id then
    { s with budget := s.budget - r.price_paid,
             items_won := s.items_won ++ [r.item_id] }
  else s

def alphaBase (s : State) : ℚ :=
  if s.total_rounds ≤ 1 then s.alpha_min
  else
    let frac := (s.rounds_completed : ℚ) / ((s.total_rounds : ℚ) - 1)
    s.alpha_max - (s.alpha_max - s.alpha_min) * frac

def avgAndMedianPrice (s : State) : ℚ × ℚ :=
  if s.price_history = [] then (0, 0)
  else
    let avg := s.price_history.sum / (s.price_history.length : ℚ)
    let xs := pysorted s.price_history
    let n := xs.length
    let mid := n / 2
    let med := if n % 2 = 1 then xs.getD mid 0
      else 0.5 * (xs.getD (mid - 1) 0 + xs.getD mid 0)
    (avg, med)

/-- Budget update and the winner-only utility and spend credit: the lines of
update_after_each_round up to and including the possible KeyError. -/
def settle (s : State) (r : Round) : Except State State :=
  let s1 := updateBudget s r
  if r.winning_team = s1.team_id then
    match List.lookup r.item_id s1.valuation_vector with
    | none => .error s1
    | some v => .ok { s1 with utility := s1.utility + (v - r.price_paid),
                              spent_so_far := s1.spent_so_far + r.price_paid }
  else .ok s1

def stageRounds (s : State) : State :=
  { s with rounds_completed := s.rounds_completed + 1 }

def stagePriceHist (s : State) (r : Round) : State :=
  if 0 < r.price_paid then
    { s with price_history := s.price_history ++ [r.price_paid] } else s

def stageOppCount (s : State) (r : Round) : State :=
  if r.winning_team ≠ "" ∧ r.winning_team ≠ s.team_id ∧
      (List.lookup r.winning_team s.opponent_win_count).isSome then
    { s with opponent_win_count :=
        dmodg s.opponent_win_count r.winning_team (fun n => n + 1) }
  else s

/-- Front-loaded pacing update; the shadow price is clamped below at 0 and
above at lambda_cap. -/
def stagePacing (s : State) : State :=
  let progress := (s.rounds_completed : ℚ) / (s.total_rounds : ℚ)
  let frontload := 0.10 * (1 - progress)
  let planned0 := s.initial_budget * (progress + frontload)
  let planned := if s.initial_budget < planned0 then s.initial_budget else planned0
  let err := planned - s.spent_so_far
  let lam0 := s.lambda_shadow - s.k_lambda * (err / max 1e-9 s.initial_budget)
  let lam1 := if lam0 < 0 then 0 else lam0
  let lam2 := if s.lambda_cap < lam1 then s.lambda_cap else lam1
  { s with lambda_shadow := lam2 }

/-- Learning part of update_after_each_round: round counter, price history,
opponent wins, capped pacing. -/
def learn (t : State) (r : Round) : State :=
  stagePacing (stageOppCount (stagePriceHist (stageRounds t) r) r)

def update (s : State) (r : Round) : Except State State :=
  match settle s r with
  | .error t => .error t
  | .ok t => .ok (learn t r)

def step (s : State) (r : Round) : State := exSt (update s r)

/-- Base bid, market nudge, endgame burn and early-round safety cap: the
body of bidding_function before its final clamps. -/
def rawBid (s : State) (v : ℚ) (rounds_remaining : ℤ) : ℚ :=
  let alpha := alphaBase s
  let base0 := alpha * v / (1 + s.lambda_shadow)
  let base1 := if s.budget < base0 then s.budget else base0
  let base_bid := if base1 < 0 then 0 else base1
  let med_p := (avgAndMedianPrice s).2
  let bid1 := if 0 < med_p then
      (let mt0 := med_p * 1.35
       let pace := s.budget / ((max 1 rounds_remaining : ℤ) : ℚ)
       let market_target := if mt0 < 0.8 * pace then 0.8 * pace else mt0
       let w : ℚ := if 1.2 * med_p ≤ v then 0.55 else 0.35
       w * base_bid + (1 - w) * market_target)
    else base_bid
  let bid2 := if rounds_remaining ≤ s.endgame_rounds then
      (let floor_bid := s.burn_gamma * (s.budget / (rounds_remaining : ℚ))
       if bid1 < floor_bid then floor_bid else bid1)
    else bid1
  if s.safe_early ∧ s.rounds_completed < s.safe_early_rounds then
    (let cap0 := v - s.value_margin
     let cap := if cap0 < 0 then 0 else cap0
     if cap < bid2 then cap else bid2)
  else bid2

def bid (s : State) (item_id : String) : ℚ :=
  let v := dget s.valuation_vector item_id 0
  if v ≤ 0 ∨ s.budget ≤ 0 then 0
  else
    let rounds_remaining := s.total_rounds - s.rounds_completed
    if rounds_remaining ≤ 0 then 0
    else
      let b := rawBid s v rounds_remaining
      let b1 := if b < 0 then 0 else b
      let b2 := if s.budget < b1 then s.budget else b1
      min b2 (max 0 (v - 0.25))

end AyAggr

/-! ## src/teams/team_RAY: the adaptive template agent

Its update_after_each_round reads valuation_vector[item_id] with plain
indexing both in the winner branch (utility update) and unconditionally
afterwards (item_val), so a missing item raises KeyError on every path;
its bidding_function returns my_valuation without any budget cap on the
early low-value path (my_valuation below 3 with more than 3 rounds left). -/

namespace RAY

structure State where
  team_id : String
  valuation_vector : List (String × ℚ)
  budget : ℚ
  initial_budget : ℚ
  opponent_teams : List String
  utility : ℚ
  items_won : List String
  rounds_completed : ℤ
  total_rounds : ℤ
  remaining_vals : List ℚ
  opponents_budgets : List (String × ℚ)
  high_items_seen : ℤ
  market_aggressiveness : ℚ

def init (team_id : String) (vv : List (String × ℚ)) (budget : ℚ)
    (opps : List String) : State :=
  { team_id := team_id, valuation_vector := vv, budget := budget,
    initial_budget := budget, opponent_teams := opps, utility := 0,
    items_won := [], rounds_completed := 0, total_rounds := 15,
    remaining_vals := dvalues vv,
    opponents_budgets := opps.map (fun o => (o, 60)),
    high_items_seen := 0, market_aggressiveness := 1 }

def updateBudget (s : State) (r : Round) : State :=
  if r.winning_team = s.team_id then
    { s with budget := s.budget - r.price_paid,
             items_won := s.items_won ++ [r.item_id] }
  else s

/-- Lines of update_after_each_round following the utility update: round
counter, opponent budget tracking, and the unconditional
valuation_vector[item_id] read that raises on a missing item. -/
def stageRounds (s : State) : State :=
  { s with rounds_completed := s.rounds_completed + 1 }

def stageOppBudgets (s : State) (r : Round) : State :=
  if (List.lookup r.winning_team s.opponents_budgets).isSome then
    { s with opponents_budgets :=
        dmodg s.opponents_budgets r.winning_team (fun b => max 0 (b - r.price_paid)) }
  else s

def stageRemaining (s : State) (item_val : ℚ) : State :=
  if item_val ∈ s.remaining_vals then
    { s with remaining_vals := s.remaining_vals.erase item_val } else s

def stageHigh (s : State) (r : Round) : State :=
  if 11 < r.price_paid then
    { s with high_items_seen := s.high_items_seen + 1 } else s

def stageMarket (s : State) (item_val : ℚ) (r : Round) : State :=
  if 0 < item_val then
    (let pov := r.price_paid / item_val
     if 0.85 < pov then { s with market_aggressiveness := 1.2 }
     else if pov < 0.4 then { s with market_aggressiveness := 0.8 }
     else s)
  else s

/-- Stages of update_after_each_round before the unconditional
valuation_vector[item_id] read. -/
def learnA (s : State) (r : Round) : State := stageOppBudgets (stageRounds s) r

/-- Stages of update_after_each_round after the valuation read succeeded. -/
def learnB (s : State) (item_val : ℚ) (r : Round) : State :=
  stageMarket (stageHigh (stageRemaining s item_val) r) item_val r

def afterUtility (s : State) (r : Round) : Except State State :=
  let s4 := learnA s r
  match List.lookup r.item_id s4.valuation_vector with
  | none => .error s4
  | some item_val => .ok (learnB s4 item_val r)

def update (s : State) (r : Round) : Except State State :=
  let s1 := updateBudget s r
  if r.winning_team = s1.team_id then
    match List.lookup r.item_id s1.valuation_vector with
    | none => .error s1
    | some v => afterUtility { s1 with utility := s1.utility + (v - r.price_paid) } r
  else afterUtility s1 r

def step (s : State) (r : Round) : State := exSt (update s r)

/-- Strategy body of bidding_function after the early returns: opportunity
classification, opponent budget cap, and the endgame override, before the
final clamp. -/
def rawBid (s : State) (my_valuation : ℚ) (rounds_remaining : ℤ) : ℚ :=
  let avg_future := if s.remaining_vals ≠ [] then
      s.remaining_vals.sum / (s.remaining_vals.length : ℚ) else 5
  let is_good_opportunity := avg_future < my_valuation
  let likely_common_high := 14 < my_valuation ∧ s.high_items_seen < 6
  let bid0 : ℚ :=
    if likely_common_high then my_valuation * 0.55
    else if is_good_opportunity then
      (if s.market_aggressiveness < 1 then my_valuation * 0.75
       else my_valuation * 0.85)
    else my_valuation * 0.4
  let bid1 := if s.opponents_budgets ≠ [] then
      min bid0 (pymax (dvalues s.opponents_budgets) + 1.1) else bid0
  let bid2 := min bid1 s.budget
  let bid3 := min bid2 my_valuation
  if rounds_remaining ≤ 3 then
    (if my_valuation ≤ s.budget then my_valuation else s.budget)
  else bid3

def bid (s : State) (item_id : String) : ℚ :=
  let my_valuation := dget s.valuation_vector item_id 0
  if my_valuation ≤ 0 ∨ s.budget ≤ 0 then 0
  else
    let rounds_remaining := s.total_rounds - s.rounds_completed
    if rounds_remaining ≤ 0 then 0
    else if my_valuation < 3 ∧ 3 < rounds_remaining then my_valuation
    else max 0 (min (rawBid s my_valuation rounds_remaining) s.budget)

end RAY

/-! ## src/teams/team_yuvi_v1: the adaptive Bayesian agent

Its update_after_each_round never touches the utility attribute set to 0 in
the constructor; every valuation read uses .get with default 0, so no call
raises on a missing item. -/

namespace YuviOne

structure OppData where
  estimated_budget : ℚ
  items_won : ℤ
  total_spent : ℚ
  win_prices : List ℚ
  p_aggressive : ℚ
  p_truthful : ℚ
  p_passive : ℚ
  deriving DecidableEq

structure State where
  team_id : String
  valuation_vector : List (String × ℚ)
  budget : ℚ
  initial_budget : ℚ
  opponent_teams : List String
  utility : ℚ
  items_won : List String
  rounds_completed : ℤ
  total_rounds : ℤ
  opponent_data : List (String × OppData)
  price_history : List ℚ
  my_bids : List (String × ℚ)
  auction_results : List (String × String × ℚ × ℚ × ℚ × Bool)
  items_seen : List String
  high_competition_count : ℤ
  low_competition_count : ℤ
  sorted_values : List ℚ
  avg_value : ℚ
  median_value : ℚ
  total_value : ℚ
  top_tier_threshold : ℚ

def updateBudget (s : State) (r : Round) : State :=
  if r.winning_team = s.team_id then
    { s with budget := s.budget - r.price_paid,
             items_won := s.items_won ++ [r.item_id] }
  else s

def normalizeBeliefs (d : OppData) : OppData :=
  let total := d.p_aggressive + d.p_truthful + d.p_passive
  if 0 < total then
    { d with p_aggressive := d.p_aggressive / total,
             p_truthful := d.p_truthful / total,
             p_passive := d.p_passive / total }
  else d

/-- The belief revision of _bayesian_update applied to the opponent map. -/
def bayesianUpdate (s : State) (winning_team : String) (price_paid my_bid : ℚ) :
    List (String × OppData) :=
  let avg_price := if s.price_history ≠ [] then
      s.price_history.sum / (s.price_history.length : ℚ) else 10
  if winning_team = "" ∨ winning_team = s.team_id then
    s.opponent_data.map (fun p =>
      (p.1, normalizeBeliefs { p.2 with p_passive := min 0.7 (p.2.p_passive + 0.02) }))
  else if (List.lookup winning_team s.opponent_data).isNone then s.opponent_data
  else
    dmodg s.opponent_data winning_team (fun d =>
      let d1 := if avg_price * 1.2 < price_paid then
          { d with p_aggressive := min 0.85 (d.p_aggressive * 1.3),
                   p_passive := d.p_passive * 0.8 }
        else if price_paid < avg_price * 0.7 then
          { d with p_passive := min 0.7 (d.p_passive * 1.2) }
        else { d with p_truthful := min 0.7 (d.p_truthful * 1.15) }
      let d2 := if 0 < my_bid ∧ my_bid < price_paid then
          { d1 with p_aggressive := min 0.85 (d1.p_aggressive * 1.2) }
        else d1
      normalizeBeliefs d2)

def stageRounds (s : State) : State :=
  { s with rounds_completed := s.rounds_completed + 1 }

/-- Record price, result tuple and the seen item. -/
def stageHist (s : State) (r : Round) : State :=
  let my_val := dget s.valuation_vector r.item_id 0
  let my_bid := dget s.my_bids r.item_id 0
  let did_win := decide (r.winning_team = s.team_id)
  { s with price_history := s.price_history ++ [r.price_paid],
           auction_results := s.auction_results ++
             [(r.item_id, r.winning_team, r.price_paid, my_bid, my_val, did_win)],
           items_seen := s.items_seen.insert r.item_id }

def stageComp (s : State) (r : Round) : State :=
  if 12 < r.price_paid then
    { s with high_competition_count := s.high_competition_count + 1 }
  else if r.price_paid < 6 then
    { s with low_competition_count := s.low_competition_count + 1 }
  else s

def stageOpp (s : State) (r : Round) : State :=
  if r.winning_team ≠ "" ∧ r.winning_team ≠ s.team_id ∧
      (List.lookup r.winning_team s.opponent_data).isSome then
    { s with opponent_data := dmodg s.opponent_data r.winning_team (fun d =>
        { d with estimated_budget := d.estimated_budget - r.price_paid,
                 items_won := d.items_won + 1,
                 total_spent := d.total_spent + r.price_paid,
                 win_prices := d.win_prices ++ [r.price_paid] }) }
  else s

def stageBayes (s : State) (r : Round) : State :=
  { s with opponent_data :=
      bayesianUpdate s r.winning_team r.price_paid (dget s.my_bids r.item_id 0) }

/-- Learning part of update_after_each_round (never raises: all valuation
reads use .get). -/
def learn (t : State) (r : Round) : State :=
  stageBayes (stageOpp (stageComp (stageHist (stageRounds t) r) r) r) r

def update (s : State) (r : Round) : Except State State :=
  .ok (learn (updateBudget s r) r)

def step (s : State) (r : Round) : State := exSt (update s r)

def recordBid (s : State) (item_id : String) (b : ℚ) : State :=
  { s with my_bids := dsetq s.my_bids item_id b }

def activeOpps (s : State) : ℤ :=
  ((s.opponent_data.filter (fun p => 5 < p.2.estimated_budget)).length : ℤ)

def maxOppBudget (s : State) : ℚ :=
  if s.opponent_data = [] then 60
  else pymax (s.opponent_data.map (fun p => p.2.estimated_budget))

def avgOppAggression (s : State) : ℚ :=
  let active := s.opponent_data.filter (fun p => 5 < p.2.estimated_budget)
  if active = [] then 0.3
  else (active.map (fun p => p.2.p_aggressive)).sum / (active.length : ℚ)

def remainingValues (s : State) : List ℚ :=
  (s.valuation_vector.filter (fun p => p.1 ∉ s.items_seen)).map Prod.snd

def isLikelyCompetitiveItem (s : State) (my_valuation : ℚ) : Bool :=
  if 14 < my_valuation then true
  else if s.low_competition_count + 2 < s.high_competition_count then
    decide (10 < my_valuation)
  else false

def getTargetSpend (s : State) (rounds_left : ℤ) (current_val : ℚ)
    (remaining_values : List ℚ) : ℚ :=
  if rounds_left ≤ 0 then s.budget
  else
    let base_rate := s.budget / (rounds_left : ℚ)
    let quality_mult := if remaining_values ≠ [] then
        (let avg_remaining := remaining_values.sum / (remaining_values.length : ℚ)
         if avg_remaining < current_val then min 1.5 (current_val / avg_remaining)
         else max 0.7 (current_val / avg_remaining))
      else 1
    let urgency : ℚ := if rounds_left ≤ 3 then 1.3
      else if rounds_left ≤ 5 then 1.15 else 1
    base_rate * quality_mult * urgency

/-- Phases 1 to 6 of _calculate_bid, before the final constraints. -/
def preBid (s : State) (my_valuation : ℚ) (rounds_left : ℤ) : ℚ :=
  let active_opps := activeOpps s
  let max_opp_budget := maxOppBudget s
  let avg_aggression := avgOppAggression s
  let is_competitive := isLikelyCompetitiveItem s my_valuation
  let remaining_values := remainingValues s
  let min_spend_rate := s.budget / (rounds_left : ℚ)
  let shade : ℚ := if s.top_tier_threshold ≤ my_valuation then 0.92
    else if s.avg_value ≤ my_valuation then 0.88
    else if s.avg_value * 0.5 ≤ my_valuation then 0.82
    else 0.75
  let b0 := my_valuation * shade
  let b1 := if is_competitive then min (my_valuation * 0.95) (b0 * 1.1) else b0
  let b2 := if 0.5 < avg_aggression then b1 * 1.05
    else if avg_aggression < 0.25 then b1 * 0.95 else b1
  let b3 := if active_opps ≤ 1 then b2 * 0.92 else b2
  let b4 := if max_opp_budget < 20 then min b3 (max_opp_budget + 5) else b3
  let b5 := if max_opp_budget < 10 then min b4 (max_opp_budget + 2) else b4
  let target_spend := getTargetSpend s rounds_left my_valuation remaining_values
  let b6 := if b5 < target_spend ∧ target_spend * 0.8 < my_valuation then
      max b5 target_spend else b5
  let b7 := if rounds_left ≤ 6 then
      (let min_bid := min_spend_rate * 0.7
       if min_bid < my_valuation then max b6 min_bid else b6)
    else b6
  let b8 := if rounds_left ≤ 4 ∧ 0 < my_valuation then
      max b7 (min (s.budget / (rounds_left : ℚ)) my_valuation) else b7
  let b9 := if rounds_left ≤ 2 ∧ 0 < my_valuation then
      max b8 (min (s.budget * 0.4) my_valuation) else b8
  let b10 := if rounds_left = 1 then min my_valuation s.budget else b9
  if remaining_values ≠ [] then
    (let expected_future_avg := remaining_values.sum / (remaining_values.length : ℚ)
     if expected_future_avg * 1.3 < my_valuation then
       min (b10 * 1.1) (my_valuation * 0.98) else b10)
  else b10

def calculateBid (s : State) (my_valuation : ℚ) (rounds_left : ℤ) : ℚ :=
  max 0 (min (preBid s my_valuation rounds_left) (min s.budget my_valuation))

def bid (s : State) (item_id : String) : ℚ :=
  let my_valuation := dget s.valuation_vector item_id 0
  let rounds_left := s.total_rounds - s.rounds_completed
  if my_valuation ≤ 0 then 0
  else if s.budget ≤ 0.01 then 0
  else if rounds_left ≤ 0 then 0
  else calculateBid s my_valuation rounds_left

end YuviOne

/-! ## src/teams/team_yuvi_v3: the margin-maximizing agent

The class has no utility attribute at all; all valuation reads use .get. -/

namespace YuviThree

structure OppData where
  budget : ℚ
  items_won : ℤ
  total_spent : ℚ
  avg_win_price : ℚ
  aggression : ℚ
  deriving DecidableEq

structure State where
  team_id : String
  valuation_vector : List (String × ℚ)
  budget : ℚ
  initial_budget : ℚ
  opponent_teams : List String
  items_won : List String
  rounds_completed : ℤ
  total_rounds : ℤ
  opponent_data : List (String × OppData)
  price_history : List ℚ
  my_bids : List (String × ℚ)
  items_seen : List String
  margin_history : List (ℚ × ℚ × ℚ)
  high_value_high_price_count : ℤ
  high_value_low_price_count : ℤ
  sorted_values : List ℚ
  avg_value : ℚ
  total_value : ℚ
  top_25_pct : ℚ
  top_50_pct : ℚ

def updateBudget (s : State) (r : Round) : State :=
  if r.winning_team = s.team_id then
    { s with budget := s.budget - r.price_paid,
             items_won := s.items_won ++ [r.item_id] }
  else s

def stageRounds (s : State) : State :=
  { s with rounds_completed := s.rounds_completed + 1 }

/-- Record price, margin tuple and the seen item. -/
def stageHist (s : State) (r : Round) : State :=
  let my_val := dget s.valuation_vector r.item_id 0
  let margin := my_val - r.price_paid
  { s with price_history := s.price_history ++ [r.price_paid],
           margin_history := s.margin_history ++ [(my_val, r.price_paid, margin)],
           items_seen := s.items_seen.insert r.item_id }

def stageComp (s : State) (r : Round) : State :=
  let my_val := dget s.valuation_vector r.item_id 0
  if 12 < my_val then
    (if 10 < r.price_paid then
       { s with high_value_high_price_count := s.high_value_high_price_count + 1 }
     else
       { s with high_value_low_price_count := s.high_value_low_price_count + 1 })
  else s

def stageOpp (s : State) (r : Round) : State :=
  if r.winning_team ≠ "" ∧ r.winning_team ≠ s.team_id ∧
      (List.lookup r.winning_team s.opponent_data).isSome then
    { s with opponent_data := dmodg s.opponent_data r.winning_team (fun d =>
        let d1 := { d with budget := d.budget - r.price_paid,
                           items_won := d.items_won + 1,
                           total_spent := d.total_spent + r.price_paid }
        let avg_price := s.price_history.sum / (s.price_history.length : ℚ)
        if avg_price * 1.2 < r.price_paid then
          { d1 with aggression := min 1 (d1.aggression + 0.1) }
        else if r.price_paid < avg_price * 0.8 then
          { d1 with aggression := max 0 (d1.aggression - 0.05) }
        else d1) }
  else s

/-- Learning part of update_after_each_round (never raises). -/
def learn (t : State) (r : Round) : State :=
  stageOpp (stageComp (stageHist (stageRounds t) r) r) r

def update (s : State) (r : Round) : Except State State :=
  .ok (learn (updateBudget s r) r)

def step (s : State) (r : Round) : State := exSt (update s r)

def recordBid (s : State) (item_id : String) (b : ℚ) : State :=
  { s with my_bids := dsetq s.my_bids item_id b }

def activeOpps (s : State) : ℤ :=
  ((s.opponent_data.filter (fun p => 5 < p.2.budget)).length : ℤ)

def maxOppBudget (s : State) : ℚ :=
  if s.opponent_data = [] then 60
  else pymax (s.opponent_data.map (fun p => p.2.budget))

def minOppBudget (s : State) : ℚ :=
  if s.opponent_data = [] then 60
  else pymin (s.opponent_data.map (fun p => p.2.budget))

def avgOppAggression (s : State) : ℚ :=
  let active := s.opponent_data.filter (fun p => 5 < p.2.budget)
  if active = [] then 0.5
  else (active.map (fun p => p.2.aggression)).sum / (active.length : ℚ)

def remainingValues (s : State) : List ℚ :=
  (s.valuation_vector.filter (fun p => p.1 ∉ s.items_seen)).map Prod.snd

def estimateCompetition (s : State) (my_value : ℚ) : String :=
  if s.rounds_completed < 3 then
    (if 15 < my_value then "high" else if my_value < 6 then "low" else "medium")
  else if s.high_value_low_price_count + 2 < s.high_value_high_price_count then
    (if 14 < my_value then "high" else if 8 < my_value then "medium" else "low")
  else if s.high_value_high_price_count < s.high_value_low_price_count then
    (if 12 < my_value then "low" else "medium")
  else
    (if 15 < my_value then "high" else if 7 < my_value then "medium" else "low")

def estimatePrice (my_value : ℚ) (competition : String) : ℚ :=
  if competition = "high" then my_value * 0.75
  else if competition = "low" then my_value * 0.35
  else my_value * 0.55

def estimateMargin (s : State) (my_value : ℚ) : ℚ × String :=
  let competition := estimateCompetition s my_value
  (my_value - estimatePrice my_value competition, competition)

/-- Phases 1 to 7 of _calculate_ultimate_bid, before the final constraints. -/
def preBid (s : State) (my_value : ℚ) (rounds_left : ℤ) : ℚ :=
  let em := estimateMargin s my_value
  let expected_margin := em.1
  let competition := em.2
  let max_opp_budget := maxOppBudget s
  let avg_aggression := avgOppAggression s
  let remaining_values := remainingValues s
  let active_opps := activeOpps s
  let budget_per_round := s.budget / (rounds_left : ℚ)
  let spent_so_far := s.initial_budget - s.budget
  let rounds_done := s.total_rounds - rounds_left
  let expected_spent := ((rounds_done : ℚ) / (s.total_rounds : ℚ)) * s.initial_budget
  let budget_status : String := if spent_so_far < expected_spent * 0.8 then "under"
    else if expected_spent * 1.2 < spent_so_far then "over" else "on_track"
  let shade : ℚ := if 5 < expected_margin then 0.92
    else if 3 < expected_margin then 0.88
    else if 1 < expected_margin then 0.82
    else 0.70
  let b0 := my_value * shade
  let b1 := if competition = "high" then
      (let x := if 10 < rounds_left then min b0 (my_value * 0.75)
         else if 5 < rounds_left then min b0 (my_value * 0.85)
         else b0
       if 3 ≤ (s.items_won.length : ℤ) then x * 0.90 else x)
    else b0
  let b2 := if competition = "low" ∧ 10 < my_value then max b1 (my_value * 0.80) else b1
  let b3 := if max_opp_budget < 20 then min b2 (max_opp_budget + 4) else b2
  let b4 := if max_opp_budget < 12 then min b3 (max_opp_budget + 2) else b3
  let b5 := if max_opp_budget < 6 then min b4 (max_opp_budget + 1) else b4
  let b6 := if active_opps ≤ 1 then b5 * 0.90 else b5
  let b7 := if 0.7 < avg_aggression then b6 * 1.05
    else if avg_aggression < 0.3 then b6 * 0.92 else b6
  let min_reasonable_spend := budget_per_round * 0.6
  let b8 := if min_reasonable_spend < my_value then max b7 min_reasonable_spend else b7
  let b9 := if budget_status = "under" ∧ 5 < my_value then
      b8 * min 1.15 (1 + (expected_spent - spent_so_far) / 30) else b8
  let b10 := if rounds_left ≤ 5 then
      (let min_late_spend := budget_per_round * 0.7
       if min_late_spend * 0.8 < my_value then max b9 min_late_spend else b9)
    else b9
  let b11 := if rounds_left ≤ 3 then
      (let force_spend := s.budget / (rounds_left : ℚ) * 0.8
       if force_spend * 0.7 < my_value then max b10 (min force_spend my_value) else b10)
    else b10
  let b12 := if rounds_left ≤ 2 then max b11 (min (s.budget * 0.45) my_value) else b11
  let b13 := if rounds_left = 1 then min my_value s.budget else b12
  if remaining_values ≠ [] then
    (let avg_remaining := remaining_values.sum / (remaining_values.length : ℚ)
     let max_remaining := pymax remaining_values
     let x := if avg_remaining * 1.4 < my_value then
         min (b13 * 1.12) (my_value * 0.95) else b13
     if max_remaining * 0.95 ≤ my_value then min (x * 1.08) (my_value * 0.96) else x)
  else b13

def calculateUltimateBid (s : State) (my_value : ℚ) (rounds_left : ℤ) : ℚ :=
  max 0 (min (preBid s my_value rounds_left) (min s.budget my_value))

def bid (s : State) (item_id : String) : ℚ :=
  let my_value := dget s.valuation_vector item_id 0
  let rounds_left := s.total_rounds - s.rounds_completed
  if my_value ≤ 0 ∨ s.budget ≤ 0.01 ∨ rounds_left ≤ 0 then 0
  else calculateUltimateBid s my_value rounds_left

end YuviThree

/-! ## src/teams/team_yuvi_v4: the dominator agent

The class has no utility attribute at all; all valuation reads use .get. -/

namespace YuviFour

structure OppData where
  budget : ℚ
  items_won : ℤ
  total_spent : ℚ
  is_aggressive : Bool
  is_passive : Bool
  threat_level : ℚ
  deriving DecidableEq

structure State where
  team_id : String
  valuation_vector : List (String × ℚ)
  budget : ℚ
  initial_budget : ℚ
  opponent_teams : List String
  items_won : List String
  rounds_completed : ℤ
  total_rounds : ℤ
  opponent_data : List (String × OppData)
  price_history : List ℚ
  my_bids : List (String × ℚ)
  items_seen : List String
  wins_at_high_price : ℤ
  wins_at_low_price : ℤ
  sorted_values : List ℚ
  avg_value : ℚ
  high_value_threshold : ℚ

def updateBudget (s : State) (r : Round) : State :=
  if r.winning_team = s.team_id then
    let s1 := { s with budget := s.budget - r.price_paid,
                       items_won := s.items_won ++ [r.item_id] }
    if 12 < r.price_paid then
      { s1 with wins_at_high_price := s1.wins_at_high_price + 1 }
    else if r.price_paid < 8 then
      { s1 with wins_at_low_price := s1.wins_at_low_price + 1 }
    else s1
  else s

def stageRounds (s : State) : State :=
  { s with rounds_completed := s.rounds_completed + 1 }

def stageHist (s : State) (r : Round) : State :=
  { s with price_history := s.price_history ++ [r.price_paid],
           items_seen := s.items_seen.insert r.item_id }

def stageOpp (s : State) (r : Round) : State :=
  if r.winning_team ≠ "" ∧ r.winning_team ≠ s.team_id ∧
      (List.lookup r.winning_team s.opponent_data).isSome then
    { s with opponent_data := dmodg s.opponent_data r.winning_team (fun d =>
        let d1 := { d with budget := d.budget - r.price_paid,
                           items_won := d.items_won + 1,
                           total_spent := d.total_spent + r.price_paid }
        let avg_price := if s.price_history ≠ [] then
            s.price_history.sum / (s.price_history.length : ℚ) else 10
        let d2 := if avg_price * 1.3 < r.price_paid then
            { d1 with is_aggressive := true,
                      threat_level := min 2 (d1.threat_level + 0.2) }
          else if r.price_paid < avg_price * 0.6 then
            { d1 with is_passive := true,
                      threat_level := max 0.3 (d1.threat_level - 0.1) }
          else d1
        let d3 := if d2.budget < 20 then
            { d2 with threat_level := d2.threat_level * 0.7 } else d2
        if d3.budget < 10 then
          { d3 with threat_level := d3.threat_level * 0.5 } else d3) }
  else s

/-- Learning part of update_after_each_round (never raises). -/
def learn (t : State) (r : Round) : State :=
  stageOpp (stageHist (stageRounds t) r) r

def update (s : State) (r : Round) : Except State State :=
  .ok (learn (updateBudget s r) r)

def step (s : State) (r : Round) : State := exSt (update s r)

def recordBid (s : State) (item_id : String) (b : ℚ) : State :=
  { s with my_bids := dsetq s.my_bids item_id b }

def remainingValues (s : State) : List ℚ :=
  (s.valuation_vector.filter (fun p => p.1 ∉ s.items_seen)).map Prod.snd

def getMaxThreatBudget (s : State) : ℚ :=
  if s.opponent_data = [] then 60
  else
    pymax (s.opponent_data.map (fun p => p.2.budget * p.2.threat_level)) /
      pymax (s.opponent_data.map (fun p => p.2.threat_level))

def countActiveThreats (s : State) : ℤ :=
  ((s.opponent_data.filter
      (fun p => 8 < p.2.budget ∧ 0.5 < p.2.threat_level)).length : ℤ)

def getTargetSpend (s : State) (rounds_left : ℤ) (my_value : ℚ)
    (remaining_values : List ℚ) : ℚ :=
  if rounds_left ≤ 0 then s.budget
  else
    let base_rate := s.budget / (rounds_left : ℚ)
    let quality_mult := if remaining_values ≠ [] then
        (let avg_remaining := remaining_values.sum / (remaining_values.length : ℚ)
         if avg_remaining < my_value then min 1.5 (my_value / avg_remaining)
         else max 0.7 (my_value / avg_remaining))
      else 1
    let urgency : ℚ := if rounds_left ≤ 3 then 1.3
      else if rounds_left ≤ 5 then 1.15 else 1
    base_rate * quality_mult * urgency

/-- Phases 1 to 6 of _dominator_bid, before the final constraints. -/
def preBid (s : State) (my_value : ℚ) (rounds_left : ℤ) : ℚ :=
  let remaining_values := remainingValues s
  let active_threats := countActiveThreats s
  let max_opp_budget := getMaxThreatBudget s
  let min_spend_rate := s.budget / (rounds_left : ℚ)
  let shade : ℚ := if s.high_value_threshold ≤ my_value then 0.92
    else if s.avg_value ≤ my_value then 0.88
    else if s.avg_value * 0.5 ≤ my_value then 0.82
    else 0.75
  let b0 := my_value * shade
  let b1 := if 14 < my_value then min (my_value * 0.95) (b0 * 1.1) else b0
  let b2 := if max_opp_budget < 10 then min b1 (max_opp_budget + 3) else b1
  let b3 := if active_threats ≤ 1 then b2 * 0.95 else b2
  let target_spend := getTargetSpend s rounds_left my_value remaining_values
  let b4 := if b3 < target_spend ∧ target_spend * 0.8 < my_value then
      max b3 target_spend else b3
  let b5 := if rounds_left ≤ 6 then
      (let min_bid := min_spend_rate * 0.7
       if min_bid < my_value then max b4 min_bid else b4)
    else b4
  let b6 := if rounds_left ≤ 4 ∧ 0 < my_value then
      max b5 (min (s.budget / (rounds_left : ℚ)) my_value) else b5
  let b7 := if rounds_left ≤ 2 ∧ 0 < my_value then
      max b6 (min (s.budget * 0.4) my_value) else b6
  let b8 := if rounds_left = 1 then min my_value s.budget else b7
  if remaining_values ≠ [] then
    (let expected_future_avg := remaining_values.sum / (remaining_values.length : ℚ)
     if expected_future_avg * 1.3 < my_value then
       min (b8 * 1.1) (my_value * 0.98) else b8)
  else b8

def dominatorBid (s : State) (my_value : ℚ) (rounds_left : ℤ) : ℚ :=
  max 0 (min (preBid s my_value rounds_left) (min s.budget my_value))

def bid (s : State) (item_id : String) : ℚ :=
  let my_value := dget s.valuation_vector item_id 0
  let rounds_left := s.total_rounds - s.rounds_completed
  if my_value ≤ 0 ∨ s.budget ≤ 0.01 ∨ rounds_left ≤ 0 then 0
  else dominatorBid s my_value rounds_left

end YuviFour

/-! ## src/teams_bench/team_yuvi_v2: the category-aware agent

All valuation reads use .get, so update_after_each_round never raises.
One modelling note: when no unseen items remain, the source method
_estimate_remaining_value_stats returns a dict under the keys avg, max and
expected_competitive, while _calculate_bid later reads the key
expected_competitive_items; the embedding identifies the two keys (giving
the intended value 5), where the Python code would raise KeyError on that
branch of bidding_function. -/

namespace YuviTwo

structure OppData where
  estimated_budget : ℚ
  items_won : ℤ
  total_spent : ℚ
  win_prices : List ℚ
  p_aggressive : ℚ
  p_truthful : ℚ
  p_passive : ℚ
  deriving DecidableEq

structure CatCounts where
  high_for_all : ℤ
  low_for_all : ℤ
  mixed_competitive : ℤ
  mixed_cheap : ℤ
  deriving DecidableEq

structure State where
  team_id : String
  valuation_vector : List (String × ℚ)
  budget : ℚ
  initial_budget : ℚ
  opponent_teams : List String
  utility : ℚ
  items_won : List String
  rounds_completed : ℤ
  total_rounds : ℤ
  opponent_data : List (String × OppData)
  price_history : List ℚ
  my_bids : List (String × ℚ)
  auction_results : List (String × String × ℚ × ℚ × ℚ × String)
  items_seen : List String
  category_counts : CatCounts
  item_categories : List (String × String)
  unique_value_wins : ℤ
  sorted_values : List ℚ
  avg_value : ℚ
  median_value : ℚ
  total_value : ℚ
  top_tier_threshold : ℚ

def updateBudget (s : State) (r : Round) : State :=
  if r.winning_team = s.team_id then
    { s with budget := s.budget - r.price_paid,
             items_won := s.items_won ++ [r.item_id] }
  else s

def inferCategory (my_val price_paid : ℚ) : String :=
  if 10 < my_val ∧ 10 < price_paid then "high_for_all"
  else if my_val < 8 ∧ price_paid < 7 then "low_for_all"
  else if 12 < my_val ∧ price_paid < 8 then "mixed_unique_to_us"
  else if my_val < 8 ∧ 10 < price_paid then "mixed_unique_to_others"
  else "mixed_neutral"

def normalizeBeliefs (d : OppData) : OppData :=
  let total := d.p_aggressive + d.p_truthful + d.p_passive
  if 0 < total then
    { d with p_aggressive := d.p_aggressive / total,
             p_truthful := d.p_truthful / total,
             p_passive := d.p_passive / total }
  else d

def bayesianUpdate (s : State) (winning_team : String) (price_paid my_bid : ℚ) :
    List (String × OppData) :=
  let avg_price := if s.price_history ≠ [] then
      s.price_history.sum / (s.price_history.length : ℚ) else 10
  if winning_team = "" ∨ winning_team = s.team_id then
    s.opponent_data.map (fun p =>
      (p.1, normalizeBeliefs { p.2 with p_passive := min 0.7 (p.2.p_passive + 0.02) }))
  else if (List.lookup winning_team s.opponent_data).isNone then s.opponent_data
  else
    dmodg s.opponent_data winning_team (fun d =>
      let d1 := if avg_price * 1.2 < price_paid then
          { d with p_aggressive := min 0.85 (d.p_aggressive * 1.3),
                   p_passive := d.p_passive * 0.8 }
        else if price_paid < avg_price * 0.7 then
          { d with p_passive := min 0.7 (d.p_passive * 1.2) }
        else { d with p_truthful := min 0.7 (d.p_truthful * 1.15) }
      let d2 := if 0 < my_bid ∧ my_bid < price_paid then
          { d1 with p_aggressive := min 0.85 (d1.p_aggressive * 1.2) }
        else d1
      normalizeBeliefs d2)

def stageRounds (s : State) : State :=
  { s with rounds_completed := s.rounds_completed + 1 }

/-- Category inference: records the inferred category of the item and bumps
the matching category counter (and the unique-value win counter). -/
def stageCats (s : State) (r : Round) : State :=
  let my_val := dget s.valuation_vector r.item_id 0
  let i_won := r.winning_team = s.team_id
  let inferred_cat := inferCategory my_val r.price_paid
  let s3 := { s with item_categories := dsets s.item_categories r.item_id inferred_cat }
  if inferred_cat = "high_for_all" then
    { s3 with category_counts :=
        { s3.category_counts with high_for_all := s3.category_counts.high_for_all + 1 } }
  else if inferred_cat = "low_for_all" then
    { s3 with category_counts :=
        { s3.category_counts with low_for_all := s3.category_counts.low_for_all + 1 } }
  else if inferred_cat = "mixed_unique_to_us" then
    (let x := { s3 with category_counts :=
        { s3.category_counts with mixed_cheap := s3.category_counts.mixed_cheap + 1 } }
     if i_won then { x with unique_value_wins := x.unique_value_wins + 1 } else x)
  else
    { s3 with category_counts :=
        { s3.category_counts with mixed_competitive := s3.category_counts.mixed_competitive + 1 } }

/-- Record price, result tuple and the seen item. -/
def stageHist (s : State) (r : Round) : State :=
  let my_val := dget s.valuation_vector r.item_id 0
  let my_bid := dget s.my_bids r.item_id 0
  let inferred_cat := inferCategory my_val r.price_paid
  { s with price_history := s.price_history ++ [r.price_paid],
           auction_results := s.auction_results ++
             [(r.item_id, r.winning_team, r.price_paid, my_bid, my_val, inferred_cat)],
           items_seen := s.items_seen.insert r.item_id }

def stageOpp (s : State) (r : Round) : State :=
  if r.winning_team ≠ "" ∧ r.winning_team ≠ s.team_id ∧
      (List.lookup r.winning_team s.opponent_data).isSome then
    { s with opponent_data := dmodg s.opponent_data r.winning_team (fun d =>
        { d with estimated_budget := d.estimated_budget - r.price_paid,
                 items_won := d.items_won + 1,
                 total_spent := d.total_spent + r.price_paid,
                 win_prices := d.win_prices ++ [r.price_paid] }) }
  else s

def stageBayes (s : State) (r : Round) : State :=
  { s with opponent_data :=
      bayesianUpdate s r.winning_team r.price_paid (dget s.my_bids r.item_id 0) }

/-- Learning part of update_after_each_round (never raises). -/
def learn (t : State) (r : Round) : State :=
  stageBayes (stageOpp (stageHist (stageCats (stageRounds t) r) r) r) r

def update (s : State) (r : Round) : Except State State :=
  .ok (learn (updateBudget s r) r)

def step (s : State) (r : Round) : State := exSt (update s r)

def recordBid (s : State) (item_id : String) (b : ℚ) : State :=
  { s with my_bids := dsetq s.my_bids item_id b }

def activeOpps (s : State) : ℤ :=
  ((s.opponent_data.filter (fun p => 5 < p.2.estimated_budget)).length : ℤ)

def maxOppBudget (s : State) : ℚ :=
  if s.opponent_data = [] then 60
  else pymax (s.opponent_data.map (fun p => p.2.estimated_budget))

def avgOppAggression (s : State) : ℚ :=
  let active := s.opponent_data.filter (fun p => 5 < p.2.estimated_budget)
  if active = [] then 0.3
  else (active.map (fun p => p.2.p_aggressive)).sum / (active.length : ℚ)

def remainingValues (s : State) : List ℚ :=
  (s.valuation_vector.filter (fun p => p.1 ∉ s.items_seen)).map Prod.snd

structure RemCats where
  high_for_all : ℤ
  low_for_all : ℤ
  mixed : ℤ
  expected_remaining : ℤ
  prob_next_high : ℚ
  prob_next_low : ℚ
  prob_next_mixed : ℚ

def estimateRemainingCategories (s : State) : RemCats :=
  let seen_high := s.category_counts.high_for_all
  let seen_low := s.category_counts.low_for_all
  let seen_mixed := s.category_counts.mixed_cheap + s.category_counts.mixed_competitive
  let remaining_high := max 0 (6 - seen_high)
  let remaining_low := max 0 (4 - seen_low)
  let remaining_mixed := max 0 (10 - seen_mixed)
  let total_remaining := s.total_rounds - s.rounds_completed
  let total_unseen := remaining_high + remaining_low + remaining_mixed
  if 0 < total_unseen then
    { high_for_all := remaining_high, low_for_all := remaining_low,
      mixed := remaining_mixed, expected_remaining := total_remaining,
      prob_next_high := (remaining_high : ℚ) / (total_unseen : ℚ),
      prob_next_low := (remaining_low : ℚ) / (total_unseen : ℚ),
      prob_next_mixed := (remaining_mixed : ℚ) / (total_unseen : ℚ) }
  else
    { high_for_all := remaining_high, low_for_all := remaining_low,
      mixed := remaining_mixed, expected_remaining := total_remaining,
      prob_next_high := 0.33, prob_next_low := 0.33, prob_next_mixed := 0.33 }

structure RemStats where
  our_avg : ℚ
  our_max : ℚ
  expected_competitive_items : ℚ
  expected_low_competition_items : ℚ

def estimateRemainingValueStats (s : State) : RemStats :=
  let remaining_cats := estimateRemainingCategories s
  let remaining_own_values := remainingValues s
  if remaining_own_values = [] then
    { our_avg := 10, our_max := 15, expected_competitive_items := 5,
      expected_low_competition_items := 0 }
  else
    let our_remaining_avg := remaining_own_values.sum / (remaining_own_values.length : ℚ)
    let our_remaining_max := pymax remaining_own_values
    let expected_competitive := (remaining_cats.high_for_all : ℚ) +
      (remaining_cats.mixed : ℚ) * 0.3
    { our_avg := our_remaining_avg, our_max := our_remaining_max,
      expected_competitive_items := expected_competitive,
      expected_low_competition_items := (remaining_cats.low_for_all : ℚ) +
        (remaining_cats.mixed : ℚ) * 0.5 }

def predictItemCategory (s : State) (my_valuation : ℚ) : String :=
  let remaining := estimateRemainingCategories s
  if 15 ≤ my_valuation then
    (if 2 ≤ remaining.high_for_all then "likely_high_for_all" else "likely_mixed")
  else if my_valuation ≤ 5 then
    (if 2 ≤ remaining.low_for_all then "likely_low_for_all" else "likely_mixed")
  else "likely_mixed"

def isLikelyUniqueOpportunity (s : State) (my_valuation : ℚ) : Bool :=
  if 14 ≤ my_valuation then
    (if 4 ≤ s.category_counts.high_for_all then true
     else if 1 ≤ s.unique_value_wins then true
     else false)
  else false

/-- Phases 1 to 7 of _calculate_bid, before the final constraints. -/
def preBid (s : State) (my_valuation : ℚ) (rounds_left : ℤ) : ℚ :=
  let active_opps := activeOpps s
  let max_opp_budget := maxOppBudget s
  let avg_aggression := avgOppAggression s
  let remaining_values := remainingValues s
  let remaining_cats := estimateRemainingCategories s
  let remaining_stats := estimateRemainingValueStats s
  let is_unique_opportunity := isLikelyUniqueOpportunity s my_valuation
  let predicted_category := predictItemCategory s my_valuation
  let budget_per_round_target := s.budget / (rounds_left : ℚ)
  let spent_so_far := s.initial_budget - s.budget
  let rounds_done := s.total_rounds - rounds_left
  let expected_spent := ((rounds_done : ℚ) / (s.total_rounds : ℚ)) * s.initial_budget
  let budget_surplus := expected_spent - spent_so_far
  let max_round_spend := if 8 < rounds_left then 6 + max 0 (budget_surplus * 0.3)
    else if 4 < rounds_left then 8 + max 0 (budget_surplus * 0.5)
    else budget_per_round_target * 1.5
  let shade : ℚ := if s.top_tier_threshold ≤ my_valuation then 0.88
    else if s.avg_value ≤ my_valuation then 0.84
    else if s.avg_value * 0.5 ≤ my_valuation then 0.78
    else 0.70
  let b0 := my_valuation * shade
  let b1 := if is_unique_opportunity then my_valuation * 0.85
    else if predicted_category = "likely_high_for_all" then
      (let x := min (my_valuation * 0.80) b0
       if 2 ≤ (s.items_won.length : ℤ) then x * 0.85 else x)
    else if predicted_category = "likely_low_for_all" then
      min (my_valuation * 0.75) b0
    else b0
  let b2 := if remaining_cats.high_for_all ≤ 1 ∧ 12 < my_valuation then
      max b1 (my_valuation * 0.85) else b1
  let b3 := if 4 < remaining_stats.expected_competitive_items then
      min b2 (my_valuation * 0.80) else b2
  let b4 := if 0.5 < avg_aggression then b3 * 1.03
    else if avg_aggression < 0.25 then b3 * 0.95 else b3
  let b5 := if active_opps ≤ 1 then b4 * 0.90 else b4
  let b6 := if max_opp_budget < 15 then min b5 (max_opp_budget + 3) else b5
  let b7 := if max_opp_budget < 8 then min b6 (max_opp_budget + 1) else b6
  let b8 := if 4 < rounds_left then min b7 max_round_spend else b7
  let b9 := if rounds_left ≤ 4 then
      (let min_spend := s.budget / (rounds_left : ℚ) * 0.7
       if min_spend < my_valuation then max b8 (min min_spend my_valuation) else b8)
    else b8
  let b10 := if rounds_left ≤ 2 ∧ 0 < my_valuation then
      max b9 (min (s.budget * 0.45) my_valuation) else b9
  let b11 := if rounds_left = 1 then min my_valuation s.budget else b10
  if remaining_values ≠ [] then
    (let expected_future_avg := remaining_values.sum / (remaining_values.length : ℚ)
     if expected_future_avg * 1.3 < my_valuation then
       min (b11 * 1.1) (my_valuation * 0.98) else b11)
  else b11

def calculateBid (s : State) (my_valuation : ℚ) (rounds_left : ℤ) : ℚ :=
  max 0 (min (preBid s my_valuation rounds_left) (min s.budget my_valuation))

def bid (s : State) (item_id : String) : ℚ :=
  let my_valuation := dget s.valuation_vector item_id 0
  let rounds_left := s.total_rounds - s.rounds_completed
  if my_valuation ≤ 0 ∨ s.budget ≤ 0.01 ∨ rounds_left ≤ 0 then 0
  else calculateBid s my_valuation rounds_left

end YuviTwo

/-! ## The auction resolver

No resolver code is present under src (only the agent classes are); the
resolver is therefore modelled from the spec. -/

/-- Modelled from the spec: the Auction Resolver of section 4.3, missing
from src.  Filter to the strictly positive bids; if none remain the outcome
is no winner at price 0; otherwise the winner is the bidder with the
maximal bid, ties broken deterministically in favour of the
first-registered bidder, and the price is the second-highest positive bid,
or the winning bid itself when it is the only positive one. -/
def resolve (bids : List (String × ℚ)) : Option String × ℚ :=
  let pos := bids.filter (fun x => 0 < x.2)
  match pos with
  | [] => (none, 0)
  | b :: rest =>
      let w := rest.foldl (fun acc x => if acc.2 < x.2 then x else acc) b
      let others := (b :: rest).erase w
      if others = [] then (some w.1, w.2)
      else (some w.1, pymax (others.map Prod.snd))

/-! ## Named literals and sample states used by witness theorems -/

def itemA : String := "item_0"

def itemB : String := "item_1"

def teamA : String := "A"

def teamB : String := "B"

def teamC : String := "C"

/-- Empty string: the no-winner sentinel of winning_team. -/
def noTeam : String := ""

def vvA : List (String × ℚ) := [(itemA, 8)]

def sEx5 : ExFive.State := ExFive.init teamA vvA 60 [teamB]

def sEx2 : ExTwo.State := ExTwo.init teamA vvA 60 [teamB]

def sEx3 : ExThree.State := ExThree.init teamA vvA 60 [teamB]

def sEx4 : ExFour.State := ExFour.init teamA vvA 60 [teamB]

def sAy : Ay.State := Ay.init teamA vvA 60 [teamB]

def sAySimple : AySimple.State := AySimple.init teamA vvA 60 [teamB]

def sAyAggr : AyAggr.State := AyAggr.init teamA vvA 60 [teamB]

def sRay : RAY.State := RAY.init teamA vvA 60 [teamB]

/-- A team_RAY state exhibiting the uncapped early return of
bidding_function: valuation 2 (below 3), budget 1, start of the game. -/
def sRayCx : RAY.State := RAY.init teamA [(itemA, 2)] 1 [teamB]

def dY1 : YuviOne.OppData :=
  { estimated_budget := 60, items_won := 0, total_spent := 0, win_prices := [],
    p_aggressive := 0.33, p_truthful := 0.34, p_passive := 0.33 }

def sY1 : YuviOne.State :=
  { team_id := teamA, valuation_vector := vvA, budget := 60,
    initial_budget := 60, opponent_teams := [teamB], utility := 0,
    items_won := [], rounds_completed := 0, total_rounds := 15,
    opponent_data := [(teamB, dY1)], price_history := [], my_bids := [],
    auction_results := [], items_seen := [], high_competition_count := 0,
    low_competition_count := 0, sorted_values := [8], avg_value := 8,
    median_value := 8, total_value := 8, top_tier_threshold := 8 }

def dY2 : YuviTwo.OppData :=
  { estimated_budget := 60, items_won := 0, total_spent := 0, win_prices := [],
    p_aggressive := 0.33, p_truthful := 0.34, p_passive := 0.33 }

def sY2 : YuviTwo.State :=
  { team_id := teamA, valuation_vector := vvA, budget := 60,
    initial_budget := 60, opponent_teams := [teamB], utility := 0,
    items_won := [], rounds_completed := 0, total_rounds := 15,
    opponent_data := [(teamB, dY2)], price_history := [], my_bids := [],
    auction_results := [], items_seen := [],
    category_counts := { high_for_all := 0, low_for_all := 0,
                         mixed_competitive := 0, mixed_cheap := 0 },
    item_categories := [], unique_value_wins := 0, sorted_values := [8],
    avg_value := 8, median_value := 8, total_value := 8,
    top_tier_threshold := 8 }

def dY3 : YuviThree.OppData :=
  { budget := 60, items_won := 0, total_spent := 0, avg_win_price := 0,
    aggression := 0.5 }

def sY3 : YuviThree.State :=
  { team_id := teamA, valuation_vector := vvA, budget := 60,
    initial_budget := 60, opponent_teams := [teamB], items_won := [],
    rounds_completed := 0, total_rounds := 15, opponent_data := [(teamB, dY3)],
    price_history := [], my_bids := [], items_seen := [], margin_history := [],
    high_value_high_price_count := 0, high_value_low_price_count := 0,
    sorted_values := [8], avg_value := 8, total_value := 8, top_25_pct := 8,
    top_50_pct := 8 }

def dY4 : YuviFour.OppData :=
  { budget := 60, items_won := 0, total_spent := 0, is_aggressive := false,
    is_passive := false, threat_level := 1 }

def sY4 : YuviFour.State :=
  { team_id := teamA, valuation_vector := vvA, budget := 60,
    initial_budget := 60, opponent_teams := [teamB], items_won := [],
    rounds_completed := 0, total_rounds := 15, opponent_data := [(teamB, dY4)],
    price_history := [], my_bids := [], items_seen := [],
    wins_at_high_price := 0, wins_at_low_price := 0, sorted_values := [8],
    avg_value := 8, high_value_threshold := 8 }

/-- A round won by team A at price 3 on the known item. -/
def rWin : Round := { item_id := itemA, winning_team := teamA, price_paid := 3 }

/-- A round won by team B (not team A). -/
def rLose : Round := { item_id := itemA, winning_team := teamB, price_paid := 4 }

/-- A round won by team A at a price above the whole initial budget. -/
def rBig : Round := { item_id := itemA, winning_team := teamA, price_paid := 100 }

/-- A round whose item is absent from the sample valuation vectors. -/
def rMissing : Round := { item_id := itemB, winning_team := teamA, price_paid := 1 }

/-- A no-winner round with the empty-string sentinel. -/
def rNone : Round := { item_id := itemA, winning_team := noTeam, price_paid := 0 }

/-- A round with a missing item, won by a team other than the sample agent. -/
def rMissLose : Round := { item_id := itemB, winning_team := teamB, price_paid := 1 }

/-- A team_ayelet state that has observed the prices 3, 1 and 2. -/
def sAyPH : Ay.State := { sAy with price_history := [3, 1, 2] }

/-- An aggressive-pacer state that has observed the prices 3, 1, 2 and 4. -/
def sAgPH : AyAggr.State := { sAyAggr with price_history := [3, 1, 2, 4] }


/-! ## Generic lemmas about dicts, folds and clamps -/

theorem lookup_mem {l : List (String × ℚ)} {k : String} {v : ℚ}
    (h : List.lookup k l = some v) : (k, v) ∈ l := by
  induction l with
  | nil => simp [List.lookup] at h
  | cons p t ih =>
      obtain ⟨a, b⟩ := p
      rw [List.lookup] at h
      by_cases hk : k == a
      · simp at hk
        simp [hk] at h
        simp [hk, h]
      · simp [hk] at h
        exact List.mem_cons_of_mem _ (ih h)

theorem dget_nonneg {l : List (String × ℚ)} (k : String)
    (h : ∀ p ∈ l, 0 ≤ p.2) : 0 ≤ dget l k 0 := by
  unfold dget
  cases hl : List.lookup k l with
  | none => simp
  | some v => simpa using h _ (lookup_mem hl)

theorem exSt_ok {σ : Type} (s : σ) : exSt (Except.ok s) = s := rfl

theorem exSt_error {σ : Type} (s : σ) : exSt (Except.error s) = s := rfl

theorem exOk_ok {σ : Type} (s : σ) : exOk (Except.ok s : Except σ σ) = true := rfl

theorem exOk_error {σ : Type} (s : σ) : exOk (Except.error s : Except σ σ) = false := rfl

/-- A state component that every step preserves is preserved by any run. -/
theorem fold_pres {σ β : Type} (upd : σ → Round → σ) (f : σ → β)
    (h : ∀ s r, f (upd s r) = f s) :
    ∀ (rs : List Round) (s : σ), f (rs.foldl upd s) = f s := by
  intro rs
  induction rs with
  | nil => intro s; rfl
  | cons r rs ih => intro s; rw [List.foldl_cons, ih, h]

/-- Budget bookkeeping over a run: if each step charges the price exactly on
the won rounds, a run subtracts the won-round total. -/
theorem fold_budget {σ : Type} (upd : σ → Round → σ) (bud : σ → ℚ)
    (team : σ → String) (hteam : ∀ s r, team (upd s r) = team s)
    (hbud : ∀ s r, bud (upd s r) =
      bud s - (if r.winning_team = team s then r.price_paid else 0)) :
    ∀ (rs : List Round) (s : σ), bud (rs.foldl upd s) = bud s - wonSum (team s) rs := by
  intro rs
  induction rs with
  | nil => intro s; simp [wonSum]
  | cons r rs ih =>
      intro s
      rw [List.foldl_cons, ih, hbud, hteam, wonSum]
      ring

/-- Budget nonnegativity over a run, given that every won round is feasible
when it is settled. -/
theorem fold_budget_nonneg {σ : Type} (upd : σ → Round → σ) (bud : σ → ℚ)
    (team : σ → String) (hteam : ∀ s r, team (upd s r) = team s)
    (hbud : ∀ s r, bud (upd s r) =
      bud s - (if r.winning_team = team s then r.price_paid else 0)) :
    ∀ (rs : List Round) (s : σ), 0 ≤ bud s → FeasibleFrom upd bud team s rs →
      0 ≤ bud (rs.foldl upd s) := by
  intro rs
  induction rs with
  | nil => intro s h _; simpa using h
  | cons r rs ih =>
      intro s h hf
      simp only [FeasibleFrom] at hf
      obtain ⟨h1, h2⟩ := hf
      rw [List.foldl_cons]
      refine ih (upd s r) ?_ h2
      rw [hbud]
      by_cases hw : r.winning_team = team s
      · have := h1 hw
        simp [hw]
        linarith
      · simp [hw]
        exact h

/-- Utility bookkeeping over a run: if each step credits valuation minus
price exactly on the won rounds (when the item is present), a run adds the
won-round utility total. -/
theorem fold_util {σ : Type} (upd : σ → Round → σ) (util : σ → ℚ)
    (team : σ → String) (vvf : σ → List (String × ℚ))
    (hteam : ∀ s r, team (upd s r) = team s)
    (hvv : ∀ s r, vvf (upd s r) = vvf s)
    (hutil : ∀ s r,
      (r.winning_team = team s → (List.lookup r.item_id (vvf s)).isSome = true) →
      util (upd s r) = util s +
        (if r.winning_team = team s then dget (vvf s) r.item_id 0 - r.price_paid else 0)) :
    ∀ (rs : List Round) (s : σ),
      (∀ r ∈ rs, r.winning_team = team s → (List.lookup r.item_id (vvf s)).isSome = true) →
      util (rs.foldl upd s) = util s + utilSum (team s) (vvf s) rs := by
  intro rs
  induction rs with
  | nil => intro s _; simp [utilSum]
  | cons r rs ih =>
      intro s hall
      have hrest : ∀ x ∈ rs, x.winning_team = team (upd s r) →
          (List.lookup x.item_id (vvf (upd s r))).isSome = true := by
        intro x hx
        rw [hteam, hvv]
        exact hall x (List.mem_cons_of_mem _ hx)
      rw [List.foldl_cons, ih (upd s r) hrest,
        hutil s r (hall r (List.mem_cons_self r rs)), hteam, hvv, utilSum]
      ring

/-- An invariant preserved by every step holds after any run. -/
theorem fold_inv {σ : Type} (upd : σ → Round → σ) (P : σ → Prop)
    (hstep : ∀ s r, P s → P (upd s r)) :
    ∀ (rs : List Round) (s : σ), P s → P (rs.foldl upd s) := by
  intro rs
  induction rs with
  | nil => intro s h; exact h
  | cons r rs ih => intro s h; exact ih (upd s r) (hstep s r h)

theorem foldl_max_init_le : ∀ (xs : List ℚ) (x : ℚ), x ≤ xs.foldl max x := by
  intro xs
  induction xs with
  | nil => intro x; exact le_refl x
  | cons a xs ih => intro x; exact (le_max_left x a).trans (ih (max x a))

theorem foldl_max_mem_le : ∀ (xs : List ℚ) (x y : ℚ), y ∈ xs → y ≤ xs.foldl max x := by
  intro xs
  induction xs with
  | nil => intro x y h; simp at h
  | cons a xs ih =>
      intro x y h
      rcases List.mem_cons.1 h with h | h
      · subst h
        exact (le_max_right x y).trans (foldl_max_init_le xs (max x y))
      · exact ih (max x a) y h

theorem foldl_max_cases : ∀ (xs : List ℚ) (x : ℚ),
    xs.foldl max x = x ∨ xs.foldl max x ∈ xs := by
  intro xs
  induction xs with
  | nil => intro x; left; rfl
  | cons a xs ih =>
      intro x
      rcases ih (max x a) with h | h
      · rw [List.foldl_cons, h]
        rcases max_choice x a with h2 | h2
        · left; exact h2
        · right; rw [h2]; exact List.mem_cons_self a xs
      · right
        rw [List.foldl_cons]
        exact List.mem_cons_of_mem _ h

theorem pymax_mem {l : List ℚ} (h : l ≠ []) : pymax l ∈ l := by
  cases l with
  | nil => exact absurd rfl h
  | cons x xs =>
      rw [pymax]
      rcases foldl_max_cases xs x with h2 | h2
      · rw [h2]; exact List.mem_cons_self x xs
      · exact List.mem_cons_of_mem _ h2

theorem pymax_ub {l : List ℚ} {y : ℚ} (h : y ∈ l) : y ≤ pymax l := by
  cases l with
  | nil => simp at h
  | cons x xs =>
      rw [pymax]
      rcases List.mem_cons.1 h with h2 | h2
      · subst h2; exact foldl_max_init_le xs y
      · exact foldl_max_mem_le xs x y h2

theorem clamp0_nonneg (x : ℚ) : 0 ≤ if x < 0 then 0 else x := by
  split_ifs with hx
  · exact le_refl 0
  · linarith

theorem clamp0cap_range (cap x : ℚ) (hc : 0 ≤ cap) :
    0 ≤ (if cap < (if x < 0 then 0 else x) then cap else (if x < 0 then 0 else x)) ∧
    (if cap < (if x < 0 then 0 else x) then cap else (if x < 0 then 0 else x)) ≤ cap := by
  constructor <;> split_ifs <;> first | exact hc | exact le_refl cap | linarith

/-- The running clamp max 0 (min x (min b v)) lands in [0, b]. -/
theorem clamp_range (b v x : ℚ) (hb : 0 ≤ b) :
    0 ≤ max 0 (min x (min b v)) ∧ max 0 (min x (min b v)) ≤ b :=
  ⟨le_max_left 0 _, max_le hb ((min_le_right x _).trans (min_le_left b v))⟩

/-! ## Step lemmas for the truthful bidder (team_example_5) -/

theorem ex5_pres (s : ExFive.State) (r : Round) :
    (ExFive.step s r).team_id = s.team_id ∧
    (ExFive.step s r).initial_budget = s.initial_budget ∧
    (ExFive.step s r).valuation_vector = s.valuation_vector := by
  unfold ExFive.step ExFive.update ExFive.updateBudget
  by_cases hw : r.winning_team = s.team_id <;>
    simp only [hw, if_true, if_false] <;>
    [skip; simp [exSt]]
  cases hl : List.lookup r.item_id s.valuation_vector <;> simp [hl, exSt]

theorem ex5_budget_step (s : ExFive.State) (r : Round) :
    (ExFive.step s r).budget =
      s.budget - (if r.winning_team = s.team_id then r.price_paid else 0) := by
  unfold ExFive.step ExFive.update ExFive.updateBudget
  by_cases hw : r.winning_team = s.team_id <;>
    simp only [hw, if_true, if_false] <;>
    [skip; simp [exSt]]
  cases hl : List.lookup r.item_id s.valuation_vector <;> simp [hl, exSt]

theorem ex5_util_step (s : ExFive.State) (r : Round)
    (hp : r.winning_team = s.team_id →
      (List.lookup r.item_id s.valuation_vector).isSome = true) :
    (ExFive.step s r).utility = s.utility +
      (if r.winning_team = s.team_id then
         dget s.valuation_vector r.item_id 0 - r.price_paid else 0) := by
  unfold ExFive.step ExFive.update ExFive.updateBudget
  by_cases hw : r.winning_team = s.team_id <;>
    simp only [hw, if_true, if_false] <;>
    [skip; simp [exSt]]
  cases hl : List.lookup r.item_id s.valuation_vector with
  | none => simp [hl] at hp; exact absurd (hp hw) (by simp)
  | some v => simp [hl, exSt, dget]

theorem ex5_frame (s : ExFive.State) (r : Round)
    (h : r.winning_team ≠ s.team_id) :
    (ExFive.step s r).budget = s.budget ∧
    (ExFive.step s r).items_won = s.items_won ∧
    (ExFive.step s r).utility = s.utility := by
  unfold ExFive.step ExFive.update ExFive.updateBudget
  simp [h, exSt]

theorem ex5_ok (s : ExFive.State) (r : Round) :
    exOk (ExFive.update s r) = true ↔
      (r.winning_team = s.team_id →
        (List.lookup r.item_id s.valuation_vector).isSome = true) := by
  unfold ExFive.update ExFive.updateBudget
  by_cases hw : r.winning_team = s.team_id <;>
    simp only [hw, if_true, if_false] <;>
    [skip; simp [exOk]]
  cases hl : List.lookup r.item_id s.valuation_vector <;> simp [hl, exOk]

/-! ## Step lemmas for the random bidder (team_example_2) -/

theorem ex2_pres (s : ExTwo.State) (r : Round) :
    (ExTwo.step s r).team_id = s.team_id ∧
    (ExTwo.step s r).initial_budget = s.initial_budget ∧
    (ExTwo.step s r).valuation_vector = s.valuation_vector := by
  unfold ExTwo.step ExTwo.update ExTwo.updateBudget
  by_cases hw : r.winning_team = s.team_id
  · cases hl : List.lookup r.item_id s.valuation_vector <;> simp [hw, hl, exSt]
  · simp [hw, exSt]

theorem ex2_budget_step (s : ExTwo.State) (r : Round) :
    (ExTwo.step s r).budget =
      s.budget - (if r.winning_team = s.team_id then r.price_paid else 0) := by
  unfold ExTwo.step ExTwo.update ExTwo.updateBudget
  by_cases hw : r.winning_team = s.team_id
  · cases hl : List.lookup r.item_id s.valuation_vector <;> simp [hw, hl, exSt]
  · simp [hw, exSt]

theorem ex2_util_step (s : ExTwo.State) (r : Round)
    (hp : r.winning_team = s.team_id →
      (List.lookup r.item_id s.valuation_vector).isSome = true) :
    (ExTwo.step s r).utility = s.utility +
      (if r.winning_team = s.team_id then
         dget s.valuation_vector r.item_id 0 - r.price_paid else 0) := by
  unfold ExTwo.step ExTwo.update ExTwo.updateBudget
  by_cases hw : r.winning_team = s.team_id
  · cases hl : List.lookup r.item_id s.valuation_vector with
    | none => simp [hl] at hp; exact absurd (hp hw) (by simp)
    | some v => simp [hw, hl, exSt, dget]
  · simp [hw, exSt]

theorem ex2_frame (s : ExTwo.State) (r : Round)
    (h : r.winning_team ≠ s.team_id) :
    (ExTwo.step s r).budget = s.budget ∧
    (ExTwo.step s r).items_won = s.items_won ∧
    (ExTwo.step s r).utility = s.utility := by
  unfold ExTwo.step ExTwo.update ExTwo.updateBudget
  simp [h, exSt]

theorem ex2_ok (s : ExTwo.State) (r : Round) :
    exOk (ExTwo.update s r) = true ↔
      (r.winning_team = s.team_id →
        (List.lookup r.item_id s.valuation_vector).isSome = true) := by
  unfold ExTwo.update ExTwo.updateBudget
  by_cases hw : r.winning_team = s.team_id
  · cases hl : List.lookup r.item_id s.valuation_vector <;> simp [hw, hl, exOk]
  · simp [hw, exOk]

/-! ## Step lemmas for the budget-aware bidder (team_example_3) -/

theorem ex3_pres (s : ExThree.State) (r : Round) :
    (ExThree.step s r).team_id = s.team_id ∧
    (ExThree.step s r).initial_budget = s.initial_budget ∧
    (ExThree.step s r).valuation_vector = s.valuation_vector := by
  unfold ExThree.step ExThree.update ExThree.updateBudget
  by_cases hw : r.winning_team = s.team_id
  · cases hl : List.lookup r.item_id s.valuation_vector <;> simp [hw, hl, exSt]
  · simp [hw, exSt]

theorem ex3_budget_step (s : ExThree.State) (r : Round) :
    (ExThree.step s r).budget =
      s.budget - (if r.winning_team = s.team_id then r.price_paid else 0) := by
  unfold ExThree.step ExThree.update ExThree.updateBudget
  by_cases hw : r.winning_team = s.team_id
  · cases hl : List.lookup r.item_id s.valuation_vector <;> simp [hw, hl, exSt]
  · simp [hw, exSt]

theorem ex3_util_step (s : ExThree.State) (r : Round)
    (hp : r.winning_team = s.team_id →
      (List.lookup r.item_id s.valuation_vector).isSome = true) :
    (ExThree.step s r).utility = s.utility +
      (if r.winning_team = s.team_id then
         dget s.valuation_vector r.item_id 0 - r.price_paid else 0) := by
  unfold ExThree.step ExThree.update ExThree.updateBudget
  by_cases hw : r.winning_team = s.team_id
  · cases hl : List.lookup r.item_id s.valuation_vector with
    | none => simp [hl] at hp; exact absurd (hp hw) (by simp)
    | some v => simp [hw, hl, exSt, dget]
  · simp [hw, exSt]

theorem ex3_frame (s : ExThree.State) (r : Round)
    (h : r.winning_team ≠ s.team_id) :
    (ExThree.step s r).budget = s.budget ∧
    (ExThree.step s r).items_won = s.items_won ∧
    (ExThree.step s r).utility = s.utility := by
  unfold ExThree.step ExThree.update ExThree.updateBudget
  simp [h, exSt]

theorem ex3_ok (s : ExThree.State) (r : Round) :
    exOk (ExThree.update s r) = true ↔
      (r.winning_team = s.team_id →
        (List.lookup r.item_id s.valuation_vector).isSome = true) := by
  unfold ExThree.update ExThree.updateBudget
  by_cases hw : r.winning_team = s.team_id
  · cases hl : List.lookup r.item_id s.valuation_vector <;> simp [hw, hl, exOk]
  · simp [hw, exOk]

/-! ## Step lemmas for the strategic bidder (team_example_4) -/

theorem ex4_pres (s : ExFour.State) (r : Round) :
    (ExFour.step s r).team_id = s.team_id ∧
    (ExFour.step s r).initial_budget = s.initial_budget ∧
    (ExFour.step s r).valuation_vector = s.valuation_vector := by
  unfold ExFour.step ExFour.update ExFour.updateBudget
  by_cases hw : r.winning_team = s.team_id
  · cases hl : List.lookup r.item_id s.valuation_vector <;>
      simp [hw, hl, exSt] <;> (try split_ifs) <;> (try simp)
  · simp [hw, exSt] <;> (try split_ifs) <;> (try simp)

theorem ex4_budget_step (s : ExFour.State) (r : Round) :
    (ExFour.step s r).budget =
      s.budget - (if r.winning_team = s.team_id then r.price_paid else 0) := by
  unfold ExFour.step ExFour.update ExFour.updateBudget
  by_cases hw : r.winning_team = s.team_id
  · cases hl : List.lookup r.item_id s.valuation_vector <;>
      simp [hw, hl, exSt] <;> (try split_ifs) <;> (try simp)
  · simp [hw, exSt] <;> (try split_ifs) <;> (try simp)

theorem ex4_util_step (s : ExFour.State) (r : Round)
    (hp : r.winning_team = s.team_id →
      (List.lookup r.item_id s.valuation_vector).isSome = true) :
    (ExFour.step s r).utility = s.utility +
      (if r.winning_team = s.team_id then
         dget s.valuation_vector r.item_id 0 - r.price_paid else 0) := by
  unfold ExFour.step ExFour.update ExFour.updateBudget
  by_cases hw : r.winning_team = s.team_id
  · cases hl : List.lookup r.item_id s.valuation_vector with
    | none => simp [hl] at hp; exact absurd (hp hw) (by simp)
    | some v => simp [hw, hl, exSt, dget] <;> (try split_ifs) <;> (try simp)
  · simp [hw, exSt] <;> (try split_ifs) <;> (try simp)

theorem ex4_frame (s : ExFour.State) (r : Round)
    (h : r.winning_team ≠ s.team_id) :
    (ExFour.step s r).budget = s.budget ∧
    (ExFour.step s r).items_won = s.items_won ∧
    (ExFour.step s r).utility = s.utility := by
  unfold ExFour.step ExFour.update ExFour.updateBudget
  simp [h, exSt] <;> (try split_ifs) <;> (try simp)

theorem ex4_ok (s : ExFour.State) (r : Round) :
    exOk (ExFour.update s r) = true ↔
      (r.winning_team = s.team_id →
        (List.lookup r.item_id s.valuation_vector).isSome = true) := by
  unfold ExFour.update ExFour.updateBudget
  by_cases hw : r.winning_team = s.team_id
  · cases hl : List.lookup r.item_id s.valuation_vector <;> simp [hw, hl, exOk]
  · simp [hw, exOk]

/-! ## Step lemmas for the pacing bidder (team_ayelet) -/

theorem ay_rounds_eff (s : Ay.State) :
    (Ay.stageRounds s).team_id = s.team_id ∧
    (Ay.stageRounds s).budget = s.budget ∧
    (Ay.stageRounds s).initial_budget = s.initial_budget ∧
    (Ay.stageRounds s).valuation_vector = s.valuation_vector ∧
    (Ay.stageRounds s).utility = s.utility ∧
    (Ay.stageRounds s).items_won = s.items_won ∧
    (Ay.stageRounds s).lambda_shadow = s.lambda_shadow := by
  unfold Ay.stageRounds
  exact ⟨rfl, rfl, rfl, rfl, rfl, rfl, rfl⟩

theorem ay_ph_eff (s : Ay.State) (r : Round) :
    (Ay.stagePriceHist s r).team_id = s.team_id ∧
    (Ay.stagePriceHist s r).budget = s.budget ∧
    (Ay.stagePriceHist s r).initial_budget = s.initial_budget ∧
    (Ay.stagePriceHist s r).valuation_vector = s.valuation_vector ∧
    (Ay.stagePriceHist s r).utility = s.utility ∧
    (Ay.stagePriceHist s r).items_won = s.items_won ∧
    (Ay.stagePriceHist s r).lambda_shadow = s.lambda_shadow := by
  unfold Ay.stagePriceHist
  split_ifs <;> exact ⟨rfl, rfl, rfl, rfl, rfl, rfl, rfl⟩

theorem ay_oc_eff (s : Ay.State) (r : Round) :
    (Ay.stageOppCount s r).team_id = s.team_id ∧
    (Ay.stageOppCount s r).budget = s.budget ∧
    (Ay.stageOppCount s r).initial_budget = s.initial_budget ∧
    (Ay.stageOppCount s r).valuation_vector = s.valuation_vector ∧
    (Ay.stageOppCount s r).utility = s.utility ∧
    (Ay.stageOppCount s r).items_won = s.items_won ∧
    (Ay.stageOppCount s r).lambda_shadow = s.lambda_shadow := by
  unfold Ay.stageOppCount
  split_ifs <;> exact ⟨rfl, rfl, rfl, rfl, rfl, rfl, rfl⟩

theorem ay_pac_eff (s : Ay.State) :
    (Ay.stagePacing s).team_id = s.team_id ∧
    (Ay.stagePacing s).budget = s.budget ∧
    (Ay.stagePacing s).initial_budget = s.initial_budget ∧
    (Ay.stagePacing s).valuation_vector = s.valuation_vector ∧
    (Ay.stagePacing s).utility = s.utility ∧
    (Ay.stagePacing s).items_won = s.items_won := by
  unfold Ay.stagePacing
  exact ⟨rfl, rfl, rfl, rfl, rfl, rfl⟩

theorem ay_pac_lambda (s : Ay.State) : 0 ≤ (Ay.stagePacing s).lambda_shadow := by
  unfold Ay.stagePacing
  exact clamp0_nonneg _

theorem ay_learn_eff (t : Ay.State) (r : Round) :
    (Ay.learn t r).team_id = t.team_id ∧
    (Ay.learn t r).budget = t.budget ∧
    (Ay.learn t r).initial_budget = t.initial_budget ∧
    (Ay.learn t r).valuation_vector = t.valuation_vector ∧
    (Ay.learn t r).utility = t.utility ∧
    (Ay.learn t r).items_won = t.items_won := by
  unfold Ay.learn
  simp [ay_pac_eff, ay_oc_eff, ay_ph_eff, ay_rounds_eff]

theorem ay_learn_lambda (t : Ay.State) (r : Round) :
    0 ≤ (Ay.learn t r).lambda_shadow := by
  unfold Ay.learn
  exact ay_pac_lambda _

theorem ay_step_eq (s : Ay.State) (r : Round) :
    Ay.step s r = if exOk (Ay.settle s r) = true then
      Ay.learn (exSt (Ay.settle s r)) r else exSt (Ay.settle s r) := by
  unfold Ay.step Ay.update
  cases hs : Ay.settle s r <;> simp [exSt, exOk]

theorem ay_settle_pres (s : Ay.State) (r : Round) :
    (exSt (Ay.settle s r)).team_id = s.team_id ∧
    (exSt (Ay.settle s r)).initial_budget = s.initial_budget ∧
    (exSt (Ay.settle s r)).valuation_vector = s.valuation_vector ∧
    (exSt (Ay.settle s r)).lambda_shadow = s.lambda_shadow := by
  unfold Ay.settle Ay.updateBudget
  by_cases hw : r.winning_team = s.team_id
  · cases hl : List.lookup r.item_id s.valuation_vector <;> simp [hw, hl, exSt]
  · simp [hw, exSt]

theorem ay_settle_budget (s : Ay.State) (r : Round) :
    (exSt (Ay.settle s r)).budget =
      s.budget - (if r.winning_team = s.team_id then r.price_paid else 0) := by
  unfold Ay.settle Ay.updateBudget
  by_cases hw : r.winning_team = s.team_id
  · cases hl : List.lookup r.item_id s.valuation_vector <;> simp [hw, hl, exSt]
  · simp [hw, exSt]

theorem ay_settle_util (s : Ay.State) (r : Round)
    (hp : r.winning_team = s.team_id →
      (List.lookup r.item_id s.valuation_vector).isSome = true) :
    (exSt (Ay.settle s r)).utility = s.utility +
      (if r.winning_team = s.team_id then
         dget s.valuation_vector r.item_id 0 - r.price_paid else 0) := by
  unfold Ay.settle Ay.updateBudget
  by_cases hw : r.winning_team = s.team_id
  · cases hl : List.lookup r.item_id s.valuation_vector with
    | none => simp [hl] at hp; exact absurd (hp hw) (by simp)
    | some v => simp [hw, hl, exSt, dget]
  · simp [hw, exSt]

theorem ay_settle_frame (s : Ay.State) (r : Round)
    (h : r.winning_team ≠ s.team_id) :
    (exSt (Ay.settle s r)).budget = s.budget ∧
    (exSt (Ay.settle s r)).items_won = s.items_won ∧
    (exSt (Ay.settle s r)).utility = s.utility := by
  unfold Ay.settle Ay.updateBudget
  simp [h, exSt]

theorem ay_settle_ok (s : Ay.State) (r : Round) :
    exOk (Ay.settle s r) = true ↔
      (r.winning_team = s.team_id →
        (List.lookup r.item_id s.valuation_vector).isSome = true) := by
  unfold Ay.settle Ay.updateBudget
  by_cases hw : r.winning_team = s.team_id
  · cases hl : List.lookup r.item_id s.valuation_vector <;> simp [hw, hl, exOk]
  · simp [hw, exOk]

theorem ay_pres (s : Ay.State) (r : Round) :
    (Ay.step s r).team_id = s.team_id ∧
    (Ay.step s r).initial_budget = s.initial_budget ∧
    (Ay.step s r).valuation_vector = s.valuation_vector := by
  obtain ⟨l1, l2, l3, l4, l5, l6⟩ := ay_learn_eff (exSt (Ay.settle s r)) r
  obtain ⟨p1, p2, p3, p4⟩ := ay_settle_pres s r
  by_cases hok : exOk (Ay.settle s r) = true
  · rw [ay_step_eq, if_pos hok]
    exact ⟨by rw [l1, p1], by rw [l3, p2], by rw [l4, p3]⟩
  · rw [ay_step_eq, if_neg hok]
    exact ⟨p1, p2, p3⟩

theorem ay_budget_step (s : Ay.State) (r : Round) :
    (Ay.step s r).budget =
      s.budget - (if r.winning_team = s.team_id then r.price_paid else 0) := by
  obtain ⟨l1, l2, l3, l4, l5, l6⟩ := ay_learn_eff (exSt (Ay.settle s r)) r
  by_cases hok : exOk (Ay.settle s r) = true
  · rw [ay_step_eq, if_pos hok, l2, ay_settle_budget]
  · rw [ay_step_eq, if_neg hok]
    exact ay_settle_budget s r

theorem ay_util_step (s : Ay.State) (r : Round)
    (hp : r.winning_team = s.team_id →
      (List.lookup r.item_id s.valuation_vector).isSome = true) :
    (Ay.step s r).utility = s.utility +
      (if r.winning_team = s.team_id then
         dget s.valuation_vector r.item_id 0 - r.price_paid else 0) := by
  obtain ⟨l1, l2, l3, l4, l5, l6⟩ := ay_learn_eff (exSt (Ay.settle s r)) r
  by_cases hok : exOk (Ay.settle s r) = true
  · rw [ay_step_eq, if_pos hok, l5, ay_settle_util s r hp]
  · rw [ay_step_eq, if_neg hok]
    exact ay_settle_util s r hp

theorem ay_frame (s : Ay.State) (r : Round)
    (h : r.winning_team ≠ s.team_id) :
    (Ay.step s r).budget = s.budget ∧
    (Ay.step s r).items_won = s.items_won ∧
    (Ay.step s r).utility = s.utility := by
  obtain ⟨l1, l2, l3, l4, l5, l6⟩ := ay_learn_eff (exSt (Ay.settle s r)) r
  obtain ⟨f1, f2, f3⟩ := ay_settle_frame s r h
  by_cases hok : exOk (Ay.settle s r) = true
  · rw [ay_step_eq, if_pos hok]
    exact ⟨by rw [l2, f1], by rw [l6, f2], by rw [l5, f3]⟩
  · rw [ay_step_eq, if_neg hok]
    exact ⟨f1, f2, f3⟩

theorem ay_ok (s : Ay.State) (r : Round) :
    exOk (Ay.update s r) = true ↔
      (r.winning_team = s.team_id →
        (List.lookup r.item_id s.valuation_vector).isSome = true) := by
  rw [← ay_settle_ok]
  unfold Ay.update
  cases hs : Ay.settle s r <;> simp [exOk]

theorem ay_lambda_step (s : Ay.State) (r : Round) (h : 0 ≤ s.lambda_shadow) :
    0 ≤ (Ay.step s r).lambda_shadow := by
  by_cases hok : exOk (Ay.settle s r) = true
  · rw [ay_step_eq, if_pos hok]
    exact ay_learn_lambda _ _
  · rw [ay_step_eq, if_neg hok, (ay_settle_pres s r).2.2.2]
    exact h

/-! ## Step lemmas for the simple pacer (team_ayelet_simple) -/

theorem aysimple_rounds_eff (s : AySimple.State) :
    (AySimple.stageRounds s).team_id = s.team_id ∧
    (AySimple.stageRounds s).budget = s.budget ∧
    (AySimple.stageRounds s).initial_budget = s.initial_budget ∧
    (AySimple.stageRounds s).valuation_vector = s.valuation_vector ∧
    (AySimple.stageRounds s).utility = s.utility ∧
    (AySimple.stageRounds s).items_won = s.items_won := by
  unfold AySimple.stageRounds
  exact ⟨rfl, rfl, rfl, rfl, rfl, rfl⟩

theorem aysimple_fb_eff (s : AySimple.State) :
    (AySimple.stageFeedback s).team_id = s.team_id ∧
    (AySimple.stageFeedback s).budget = s.budget ∧
    (AySimple.stageFeedback s).initial_budget = s.initial_budget ∧
    (AySimple.stageFeedback s).valuation_vector = s.valuation_vector ∧
    (AySimple.stageFeedback s).utility = s.utility ∧
    (AySimple.stageFeedback s).items_won = s.items_won := by
  unfold AySimple.stageFeedback
  exact ⟨rfl, rfl, rfl, rfl, rfl, rfl⟩

theorem aysimple_learn_eff (t : AySimple.State) :
    (AySimple.learn t).team_id = t.team_id ∧
    (AySimple.learn t).budget = t.budget ∧
    (AySimple.learn t).initial_budget = t.initial_budget ∧
    (AySimple.learn t).valuation_vector = t.valuation_vector ∧
    (AySimple.learn t).utility = t.utility ∧
    (AySimple.learn t).items_won = t.items_won := by
  unfold AySimple.learn
  simp [aysimple_fb_eff, aysimple_rounds_eff]

theorem aysimple_step_eq (s : AySimple.State) (r : Round) :
    AySimple.step s r = if exOk (AySimple.settle s r) = true then
      AySimple.learn (exSt (AySimple.settle s r)) else exSt (AySimple.settle s r) := by
  unfold AySimple.step AySimple.update
  cases hs : AySimple.settle s r <;> simp [exSt, exOk]

theorem aysimple_settle_pres (s : AySimple.State) (r : Round) :
    (exSt (AySimple.settle s r)).team_id = s.team_id ∧
    (exSt (AySimple.settle s r)).initial_budget = s.initial_budget ∧
    (exSt (AySimple.settle s r)).valuation_vector = s.valuation_vector := by
  unfold AySimple.settle AySimple.updateBudget
  by_cases hw : r.winning_team = s.team_id
  · cases hl : List.lookup r.item_id s.valuation_vector <;> simp [hw, hl, exSt]
  · simp [hw, exSt]

theorem aysimple_settle_budget (s : AySimple.State) (r : Round) :
    (exSt (AySimple.settle s r)).budget =
      s.budget - (if r.winning_team = s.team_id then r.price_paid else 0) := by
  unfold AySimple.settle AySimple.updateBudget
  by_cases hw : r.winning_team = s.team_id
  · cases hl : List.lookup r.item_id s.valuation_vector <;> simp [hw, hl, exSt]
  · simp [hw, exSt]

theorem aysimple_settle_util (s : AySimple.State) (r : Round)
    (hp : r.winning_team = s.team_id →
      (List.lookup r.item_id s.valuation_vector).isSome = true) :
    (exSt (AySimple.settle s r)).utility = s.utility +
      (if r.winning_team = s.team_id then
         dget s.valuation_vector r.item_id 0 - r.price_paid else 0) := by
  unfold AySimple.settle AySimple.updateBudget
  by_cases hw : r.winning_team = s.team_id
  · cases hl : List.lookup r.item_id s.valuation_vector with
    | none => simp [hl] at hp; exact absurd (hp hw) (by simp)
    | some v => simp [hw, hl, exSt, dget]
  · simp [hw, exSt]

theorem aysimple_settle_frame (s : AySimple.State) (r : Round)
    (h : r.winning_team ≠ s.team_id) :
    (exSt (AySimple.settle s r)).budget = s.budget ∧
    (exSt (AySimple.settle s r)).items_won = s.items_won ∧
    (exSt (AySimple.settle s r)).utility = s.utility := by
  unfold AySimple.settle AySimple.updateBudget
  simp [h, exSt]

theorem aysimple_settle_ok (s : AySimple.State) (r : Round) :
    exOk (AySimple.settle s r) = true ↔
      (r.winning_team = s.team_id →
        (List.lookup r.item_id s.valuation_vector).isSome = true) := by
  unfold AySimple.settle AySimple.updateBudget
  by_cases hw : r.winning_team = s.team_id
  · cases hl : List.lookup r.item_id s.valuation_vector <;> simp [hw, hl, exOk]
  · simp [hw, exOk]

theorem aysimple_pres (s : AySimple.State) (r : Round) :
    (AySimple.step s r).team_id = s.team_id ∧
    (AySimple.step s r).initial_budget = s.initial_budget ∧
    (AySimple.step s r).valuation_vector = s.valuation_vector := by
  obtain ⟨l1, l2, l3, l4, l5, l6⟩ := aysimple_learn_eff (exSt (AySimple.settle s r))
  obtain ⟨p1, p2, p3⟩ := aysimple_settle_pres s r
  by_cases hok : exOk (AySimple.settle s r) = true
  · rw [aysimple_step_eq, if_pos hok]
    exact ⟨by rw [l1, p1], by rw [l3, p2], by rw [l4, p3]⟩
  · rw [aysimple_step_eq, if_neg hok]
    exact ⟨p1, p2, p3⟩

theorem aysimple_budget_step (s : AySimple.State) (r : Round) :
    (AySimple.step s r).budget =
      s.budget - (if r.winning_team = s.team_id then r.price_paid else 0) := by
  obtain ⟨l1, l2, l3, l4, l5, l6⟩ := aysimple_learn_eff (exSt (AySimple.settle s r))
  by_cases hok : exOk (AySimple.settle s r) = true
  · rw [aysimple_step_eq, if_pos hok, l2, aysimple_settle_budget]
  · rw [aysimple_step_eq, if_neg hok]
    exact aysimple_settle_budget s r

theorem aysimple_util_step (s : AySimple.State) (r : Round)
    (hp : r.winning_team = s.team_id →
      (List.lookup r.item_id s.valuation_vector).isSome = true) :
    (AySimple.step s r).utility = s.utility +
      (if r.winning_team = s.team_id then
         dget s.valuation_vector r.item_id 0 - r.price_paid else 0) := by
  obtain ⟨l1, l2, l3, l4, l5, l6⟩ := aysimple_learn_eff (exSt (AySimple.settle s r))
  by_cases hok : exOk (AySimple.settle s r) = true
  · rw [aysimple_step_eq, if_pos hok, l5, aysimple_settle_util s r hp]
  · rw [aysimple_step_eq, if_neg hok]
    exact aysimple_settle_util s r hp

theorem aysimple_frame (s : AySimple.State) (r : Round)
    (h : r.winning_team ≠ s.team_id) :
    (AySimple.step s r).budget = s.budget ∧
    (AySimple.step s r).items_won = s.items_won ∧
    (AySimple.step s r).utility = s.utility := by
  obtain ⟨l1, l2, l3, l4, l5, l6⟩ := aysimple_learn_eff (exSt (AySimple.settle s r))
  obtain ⟨f1, f2, f3⟩ := aysimple_settle_frame s r h
  by_cases hok : exOk (AySimple.settle s r) = true
  · rw [aysimple_step_eq, if_pos hok]
    exact ⟨by rw [l2, f1], by rw [l6, f2], by rw [l5, f3]⟩
  · rw [aysimple_step_eq, if_neg hok]
    exact ⟨f1, f2, f3⟩

theorem aysimple_ok (s : AySimple.State) (r : Round) :
    exOk (AySimple.update s r) = true ↔
      (r.winning_team = s.team_id →
        (List.lookup r.item_id s.valuation_vector).isSome = true) := by
  rw [← aysimple_settle_ok]
  unfold AySimple.update
  cases hs : AySimple.settle s r <;> simp [exOk]

/-! ## Step lemmas for the aggressive pacer (team_ayelet_aggresive) -/

theorem ayaggr_rounds_eff (s : AyAggr.State) :
    (AyAggr.stageRounds s).team_id = s.team_id ∧
    (AyAggr.stageRounds s).budget = s.budget ∧
    (AyAggr.stageRounds s).initial_budget = s.initial_budget ∧
    (AyAggr.stageRounds s).valuation_vector = s.valuation_vector ∧
    (AyAggr.stageRounds s).utility = s.utility ∧
    (AyAggr.stageRounds s).items_won = s.items_won ∧
    (AyAggr.stageRounds s).lambda_shadow = s.lambda_shadow ∧
    (AyAggr.stageRounds s).lambda_cap = s.lambda_cap := by
  unfold AyAggr.stageRounds
  exact ⟨rfl, rfl, rfl, rfl, rfl, rfl, rfl, rfl⟩

theorem ayaggr_ph_eff (s : AyAggr.State) (r : Round) :
    (AyAggr.stagePriceHist s r).team_id = s.team_id ∧
    (AyAggr.stagePriceHist s r).budget = s.budget ∧
    (AyAggr.stagePriceHist s r).initial_budget = s.initial_budget ∧
    (AyAggr.stagePriceHist s r).valuation_vector = s.valuation_vector ∧
    (AyAggr.stagePriceHist s r).utility = s.utility ∧
    (AyAggr.stagePriceHist s r).items_won = s.items_won ∧
    (AyAggr.stagePriceHist s r).lambda_shadow = s.lambda_shadow ∧
    (AyAggr.stagePriceHist s r).lambda_cap = s.lambda_cap := by
  unfold AyAggr.stagePriceHist
  split_ifs <;> exact ⟨rfl, rfl, rfl, rfl, rfl, rfl, rfl, rfl⟩

theorem ayaggr_oc_eff (s : AyAggr.State) (r : Round) :
    (AyAggr.stageOppCount s r).team_id = s.team_id ∧
    (AyAggr.stageOppCount s r).budget = s.budget ∧
    (AyAggr.stageOppCount s r).initial_budget = s.initial_budget ∧
    (AyAggr.stageOppCount s r).valuation_vector = s.valuation_vector ∧
    (AyAggr.stageOppCount s r).utility = s.utility ∧
    (AyAggr.stageOppCount s r).items_won = s.items_won ∧
    (AyAggr.stageOppCount s r).lambda_shadow = s.lambda_shadow ∧
    (AyAggr.stageOppCount s r).lambda_cap = s.lambda_cap := by
  unfold AyAggr.stageOppCount
  split_ifs <;> exact ⟨rfl, rfl, rfl, rfl, rfl, rfl, rfl, rfl⟩

theorem ayaggr_pac_eff (s : AyAggr.State) :
    (AyAggr.stagePacing s).team_id = s.team_id ∧
    (AyAggr.stagePacing s).budget = s.budget ∧
    (AyAggr.stagePacing s).initial_budget = s.initial_budget ∧
    (AyAggr.stagePacing s).valuation_vector = s.valuation_vector ∧
    (AyAggr.stagePacing s).utility = s.utility ∧
    (AyAggr.stagePacing s).items_won = s.items_won ∧
    (AyAggr.stagePacing s).lambda_cap = s.lambda_cap := by
  unfold AyAggr.stagePacing
  exact ⟨rfl, rfl, rfl, rfl, rfl, rfl, rfl⟩

theorem ayaggr_pac_lambda (s : AyAggr.State) (hc : 0 ≤ s.lambda_cap) :
    0 ≤ (AyAggr.stagePacing s).lambda_shadow ∧
    (AyAggr.stagePacing s).lambda_shadow ≤ s.lambda_cap := by
  unfold AyAggr.stagePacing
  exact ⟨(clamp0cap_range _ _ hc).1, (clamp0cap_range _ _ hc).2⟩

theorem ayaggr_learn_eff (t : AyAggr.State) (r : Round) :
    (AyAggr.learn t r).team_id = t.team_id ∧
    (AyAggr.learn t r).budget = t.budget ∧
    (AyAggr.learn t r).initial_budget = t.initial_budget ∧
    (AyAggr.learn t r).valuation_vector = t.valuation_vector ∧
    (AyAggr.learn t r).utility = t.utility ∧
    (AyAggr.learn t r).items_won = t.items_won ∧
    (AyAggr.learn t r).lambda_cap = t.lambda_cap := by
  unfold AyAggr.learn
  simp [ayaggr_pac_eff, ayaggr_oc_eff, ayaggr_ph_eff, ayaggr_rounds_eff]

theorem ayaggr_learn_lambda (t : AyAggr.State) (r : Round) (hc : 0 ≤ t.lambda_cap) :
    0 ≤ (AyAggr.learn t r).lambda_shadow ∧
    (AyAggr.learn t r).lambda_shadow ≤ t.lambda_cap := by
  unfold AyAggr.learn
  have h1 := ayaggr_oc_eff (AyAggr.stagePriceHist (AyAggr.stageRounds t) r) r
  have h2 := ayaggr_ph_eff (AyAggr.stageRounds t) r
  have h3 := ayaggr_rounds_eff t
  have hcap : (AyAggr.stageOppCount (AyAggr.stagePriceHist (AyAggr.stageRounds t) r) r).lambda_cap = t.lambda_cap := by
    rw [h1.2.2.2.2.2.2.2, h2.2.2.2.2.2.2.2, h3.2.2.2.2.2.2.2]
  have := ayaggr_pac_lambda (AyAggr.stageOppCount (AyAggr.stagePriceHist (AyAggr.stageRounds t) r) r) (by rw [hcap]; exact hc)
  rw [hcap] at this
  exact this

theorem ayaggr_step_eq (s : AyAggr.State) (r : Round) :
    AyAggr.step s r = if exOk (AyAggr.settle s r) = true then
      AyAggr.learn (exSt (AyAggr.settle s r)) r else exSt (AyAggr.settle s r) := by
  unfold AyAggr.step AyAggr.update
  cases hs : AyAggr.settle s r <;> simp [exSt, exOk]

theorem ayaggr_settle_pres (s : AyAggr.State) (r : Round) :
    (exSt (AyAggr.settle s r)).team_id = s.team_id ∧
    (exSt (AyAggr.settle s r)).initial_budget = s.initial_budget ∧
    (exSt (AyAggr.settle s r)).valuation_vector = s.valuation_vector ∧
    (exSt (AyAggr.settle s r)).lambda_shadow = s.lambda_shadow ∧
    (exSt (AyAggr.settle s r)).lambda_cap = s.lambda_cap := by
  unfold AyAggr.settle AyAggr.updateBudget
  by_cases hw : r.winning_team = s.team_id
  · cases hl : List.lookup r.item_id s.valuation_vector <;> simp [hw, hl, exSt]
  · simp [hw, exSt]

theorem ayaggr_settle_budget (s : AyAggr.State) (r : Round) :
    (exSt (AyAggr.settle s r)).budget =
      s.budget - (if r.winning_team = s.team_id then r.price_paid else 0) := by
  unfold AyAggr.settle AyAggr.updateBudget
  by_cases hw : r.winning_team = s.team_id
  · cases hl : List.lookup r.item_id s.valuation_vector <;> simp [hw, hl, exSt]
  · simp [hw, exSt]

theorem ayaggr_settle_util (s : AyAggr.State) (r : Round)
    (hp : r.winning_team = s.team_id →
      (List.lookup r.item_id s.valuation_vector).isSome = true) :
    (exSt (AyAggr.settle s r)).utility = s.utility +
      (if r.winning_team = s.team_id then
         dget s.valuation_vector r.item_id 0 - r.price_paid else 0) := by
  unfold AyAggr.settle AyAggr.updateBudget
  by_cases hw : r.winning_team = s.team_id
  · cases hl : List.lookup r.item_id s.valuation_vector with
    | none => simp [hl] at hp; exact absurd (hp hw) (by simp)
    | some v => simp [hw, hl, exSt, dget]
  · simp [hw, exSt]

theorem ayaggr_settle_frame (s : AyAggr.State) (r : Round)
    (h : r.winning_team ≠ s.team_id) :
    (exSt (AyAggr.settle s r)).budget = s.budget ∧
    (exSt (AyAggr.settle s r)).items_won = s.items_won ∧
    (exSt (AyAggr.settle s r)).utility = s.utility := by
  unfold AyAggr.settle AyAggr.updateBudget
  simp [h, exSt]

theorem ayaggr_settle_ok (s : AyAggr.State) (r : Round) :
    exOk (AyAggr.settle s r) = true ↔
      (r.winning_team = s.team_id →
        (List.lookup r.item_id s.valuation_vector).isSome = true) := by
  unfold AyAggr.settle AyAggr.updateBudget
  by_cases hw : r.winning_team = s.team_id
  · cases hl : List.lookup r.item_id s.valuation_vector <;> simp [hw, hl, exOk]
  · simp [hw, exOk]

theorem ayaggr_pres (s : AyAggr.State) (r : Round) :
    (AyAggr.step s r).team_id = s.team_id ∧
    (AyAggr.step s r).initial_budget = s.initial_budget ∧
    (AyAggr.step s r).valuation_vector = s.valuation_vector := by
  obtain ⟨l1, l2, l3, l4, l5, l6, l7⟩ := ayaggr_learn_eff (exSt (AyAggr.settle s r)) r
  obtain ⟨p1, p2, p3, p4, p5⟩ := ayaggr_settle_pres s r
  by_cases hok : exOk (AyAggr.settle s r) = true
  · rw [ayaggr_step_eq, if_pos hok]
    exact ⟨by rw [l1, p1], by rw [l3, p2], by rw [l4, p3]⟩
  · rw [ayaggr_step_eq, if_neg hok]
    exact ⟨p1, p2, p3⟩

theorem ayaggr_budget_step (s : AyAggr.State) (r : Round) :
    (AyAggr.step s r).budget =
      s.budget - (if r.winning_team = s.team_id then r.price_paid else 0) := by
  obtain ⟨l1, l2, l3, l4, l5, l6, l7⟩ := ayaggr_learn_eff (exSt (AyAggr.settle s r)) r
  by_cases hok : exOk (AyAggr.settle s r) = true
  · rw [ayaggr_step_eq, if_pos hok, l2, ayaggr_settle_budget]
  · rw [ayaggr_step_eq, if_neg hok]
    exact ayaggr_settle_budget s r

theorem ayaggr_util_step (s : AyAggr.State) (r : Round)
    (hp : r.winning_team = s.team_id →
      (List.lookup r.item_id s.valuation_vector).isSome = true) :
    (AyAggr.step s r).utility = s.utility +
      (if r.winning_team = s.team_id then
         dget s.valuation_vector r.item_id 0 - r.price_paid else 0) := by
  obtain ⟨l1, l2, l3, l4, l5, l6, l7⟩ := ayaggr_learn_eff (exSt (AyAggr.settle s r)) r
  by_cases hok : exOk (AyAggr.settle s r) = true
  · rw [ayaggr_step_eq, if_pos hok, l5, ayaggr_settle_util s r hp]
  · rw [ayaggr_step_eq, if_neg hok]
    exact ayaggr_settle_util s r hp

theorem ayaggr_frame (s : AyAggr.State) (r : Round)
    (h : r.winning_team ≠ s.team_id) :
    (AyAggr.step s r).budget = s.budget ∧
    (AyAggr.step s r).items_won = s.items_won ∧
    (AyAggr.step s r).utility = s.utility := by
  obtain ⟨l1, l2, l3, l4, l5, l6, l7⟩ := ayaggr_learn_eff (exSt (AyAggr.settle s r)) r
  obtain ⟨f1, f2, f3⟩ := ayaggr_settle_frame s r h
  by_cases hok : exOk (AyAggr.settle s r) = true
  · rw [ayaggr_step_eq, if_pos hok]
    exact ⟨by rw [l2, f1], by rw [l6, f2], by rw [l5, f3]⟩
  · rw [ayaggr_step_eq, if_neg hok]
    exact ⟨f1, f2, f3⟩

theorem ayaggr_ok (s : AyAggr.State) (r : Round) :
    exOk (AyAggr.update s r) = true ↔
      (r.winning_team = s.team_id →
        (List.lookup r.item_id s.valuation_vector).isSome = true) := by
  rw [← ayaggr_settle_ok]
  unfold AyAggr.update
  cases hs : AyAggr.settle s r <;> simp [exOk]

theorem ayaggr_lambda_step (s : AyAggr.State) (r : Round)
    (h : 0 ≤ s.lambda_shadow ∧ s.lambda_shadow ≤ s.lambda_cap ∧ s.lambda_cap = 6) :
    0 ≤ (AyAggr.step s r).lambda_shadow ∧
    (AyAggr.step s r).lambda_shadow ≤ (AyAggr.step s r).lambda_cap ∧
    (AyAggr.step s r).lambda_cap = 6 := by
  obtain ⟨h1, h2, h3⟩ := h
  obtain ⟨p1, p2, p3, p4, p5⟩ := ayaggr_settle_pres s r
  by_cases hok : exOk (AyAggr.settle s r) = true
  · rw [ayaggr_step_eq, if_pos hok]
    have hc : 0 ≤ (exSt (AyAggr.settle s r)).lambda_cap := by
      rw [p5, h3]; norm_num
    obtain ⟨q1, q2⟩ := ayaggr_learn_lambda (exSt (AyAggr.settle s r)) r hc
    have hcap := (ayaggr_learn_eff (exSt (AyAggr.settle s r)) r).2.2.2.2.2.2
    refine ⟨q1, ?_, ?_⟩
    · rw [hcap]; exact q2
    · rw [hcap, p5, h3]
  · rw [ayaggr_step_eq, if_neg hok, p4, p5, h3]
    exact ⟨h1, by rw [← h3]; exact h2, rfl⟩

/-! ## Step lemmas for team_RAY -/

theorem ray_rounds_eff (s : RAY.State) :
    (RAY.stageRounds s).team_id = s.team_id ∧
    (RAY.stageRounds s).budget = s.budget ∧
    (RAY.stageRounds s).initial_budget = s.initial_budget ∧
    (RAY.stageRounds s).valuation_vector = s.valuation_vector ∧
    (RAY.stageRounds s).utility = s.utility ∧
    (RAY.stageRounds s).items_won = s.items_won := by
  unfold RAY.stageRounds
  exact ⟨rfl, rfl, rfl, rfl, rfl, rfl⟩

theorem ray_ob_eff (s : RAY.State) (r : Round) :
    (RAY.stageOppBudgets s r).team_id = s.team_id ∧
    (RAY.stageOppBudgets s r).budget = s.budget ∧
    (RAY.stageOppBudgets s r).initial_budget = s.initial_budget ∧
    (RAY.stageOppBudgets s r).valuation_vector = s.valuation_vector ∧
    (RAY.stageOppBudgets s r).utility = s.utility ∧
    (RAY.stageOppBudgets s r).items_won = s.items_won := by
  unfold RAY.stageOppBudgets
  split_ifs <;> exact ⟨rfl, rfl, rfl, rfl, rfl, rfl⟩

theorem ray_rem_eff (s : RAY.State) (v : ℚ) :
    (RAY.stageRemaining s v).team_id = s.team_id ∧
    (RAY.stageRemaining s v).budget = s.budget ∧
    (RAY.stageRemaining s v).initial_budget = s.initial_budget ∧
    (RAY.stageRemaining s v).valuation_vector = s.valuation_vector ∧
    (RAY.stageRemaining s v).utility = s.utility ∧
    (RAY.stageRemaining s v).items_won = s.items_won := by
  unfold RAY.stageRemaining
  split_ifs <;> exact ⟨rfl, rfl, rfl, rfl, rfl, rfl⟩

theorem ray_high_eff (s : RAY.State) (r : Round) :
    (RAY.stageHigh s r).team_id = s.team_id ∧
    (RAY.stageHigh s r).budget = s.budget ∧
    (RAY.stageHigh s r).initial_budget = s.initial_budget ∧
    (RAY.stageHigh s r).valuation_vector = s.valuation_vector ∧
    (RAY.stageHigh s r).utility = s.utility ∧
    (RAY.stageHigh s r).items_won = s.items_won := by
  unfold RAY.stageHigh
  split_ifs <;> exact ⟨rfl, rfl, rfl, rfl, rfl, rfl⟩

theorem ray_mkt_eff (s : RAY.State) (v : ℚ) (r : Round) :
    (RAY.stageMarket s v r).team_id = s.team_id ∧
    (RAY.stageMarket s v r).budget = s.budget ∧
    (RAY.stageMarket s v r).initial_budget = s.initial_budget ∧
    (RAY.stageMarket s v r).valuation_vector = s.valuation_vector ∧
    (RAY.stageMarket s v r).utility = s.utility ∧
    (RAY.stageMarket s v r).items_won = s.items_won := by
  unfold RAY.stageMarket
  split_ifs <;>
    simp [apply_ite RAY.State.team_id, apply_ite RAY.State.budget,
      apply_ite RAY.State.initial_budget, apply_ite RAY.State.valuation_vector,
      apply_ite RAY.State.utility, apply_ite RAY.State.items_won]

theorem ray_learnA_eff (s : RAY.State) (r : Round) :
    (RAY.learnA s r).team_id = s.team_id ∧
    (RAY.learnA s r).budget = s.budget ∧
    (RAY.learnA s r).initial_budget = s.initial_budget ∧
    (RAY.learnA s r).valuation_vector = s.valuation_vector ∧
    (RAY.learnA s r).utility = s.utility ∧
    (RAY.learnA s r).items_won = s.items_won := by
  unfold RAY.learnA
  simp [ray_ob_eff, ray_rounds_eff]

theorem ray_learnB_eff (s : RAY.State) (v : ℚ) (r : Round) :
    (RAY.learnB s v r).team_id = s.team_id ∧
    (RAY.learnB s v r).budget = s.budget ∧
    (RAY.learnB s v r).initial_budget = s.initial_budget ∧
    (RAY.learnB s v r).valuation_vector = s.valuation_vector ∧
    (RAY.learnB s v r).utility = s.utility ∧
    (RAY.learnB s v r).items_won = s.items_won := by
  unfold RAY.learnB
  simp [ray_mkt_eff, ray_high_eff, ray_rem_eff]

theorem ray_after_eff (s : RAY.State) (r : Round) :
    (exSt (RAY.afterUtility s r)).team_id = s.team_id ∧
    (exSt (RAY.afterUtility s r)).budget = s.budget ∧
    (exSt (RAY.afterUtility s r)).initial_budget = s.initial_budget ∧
    (exSt (RAY.afterUtility s r)).valuation_vector = s.valuation_vector ∧
    (exSt (RAY.afterUtility s r)).utility = s.utility ∧
    (exSt (RAY.afterUtility s r)).items_won = s.items_won := by
  unfold RAY.afterUtility
  simp only []
  rw [(ray_learnA_eff s r).2.2.2.1]
  cases hl : List.lookup r.item_id s.valuation_vector with
  | none => simp [hl, exSt, ray_learnA_eff]
  | some v => simp [hl, exSt, ray_learnB_eff, ray_learnA_eff]

theorem ray_after_ok (s : RAY.State) (r : Round) :
    exOk (RAY.afterUtility s r) =
      (List.lookup r.item_id s.valuation_vector).isSome := by
  unfold RAY.afterUtility
  simp only []
  rw [(ray_learnA_eff s r).2.2.2.1]
  cases hl : List.lookup r.item_id s.valuation_vector <;> simp [hl, exOk]

theorem ray_pres (s : RAY.State) (r : Round) :
    (RAY.step s r).team_id = s.team_id ∧
    (RAY.step s r).initial_budget = s.initial_budget ∧
    (RAY.step s r).valuation_vector = s.valuation_vector := by
  unfold RAY.step RAY.update RAY.updateBudget
  by_cases hw : r.winning_team = s.team_id
  · cases hl : List.lookup r.item_id s.valuation_vector <;>
      simp [hw, hl, exSt_error, exSt_ok, ray_after_eff]
  · simp [hw, exSt_error, exSt_ok, ray_after_eff]

theorem ray_budget_step (s : RAY.State) (r : Round) :
    (RAY.step s r).budget =
      s.budget - (if r.winning_team = s.team_id then r.price_paid else 0) := by
  unfold RAY.step RAY.update RAY.updateBudget
  by_cases hw : r.winning_team = s.team_id
  · cases hl : List.lookup r.item_id s.valuation_vector <;>
      simp [hw, hl, exSt_error, exSt_ok, ray_after_eff]
  · simp [hw, exSt_error, exSt_ok, ray_after_eff]

theorem ray_util_step (s : RAY.State) (r : Round)
    (hp : r.winning_team = s.team_id →
      (List.lookup r.item_id s.valuation_vector).isSome = true) :
    (RAY.step s r).utility = s.utility +
      (if r.winning_team = s.team_id then
         dget s.valuation_vector r.item_id 0 - r.price_paid else 0) := by
  unfold RAY.step RAY.update RAY.updateBudget
  by_cases hw : r.winning_team = s.team_id
  · cases hl : List.lookup r.item_id s.valuation_vector with
    | none => simp [hl] at hp; exact absurd (hp hw) (by simp)
    | some v => simp [hw, hl, exSt_error, exSt_ok, ray_after_eff, dget]
  · simp [hw, exSt_error, exSt_ok, ray_after_eff]

theorem ray_frame (s : RAY.State) (r : Round)
    (h : r.winning_team ≠ s.team_id) :
    (RAY.step s r).budget = s.budget ∧
    (RAY.step s r).items_won = s.items_won ∧
    (RAY.step s r).utility = s.utility := by
  unfold RAY.step RAY.update RAY.updateBudget
  simp [h, exSt_error, exSt_ok, ray_after_eff]

theorem ray_ok (s : RAY.State) (r : Round) :
    exOk (RAY.update s r) = (List.lookup r.item_id s.valuation_vector).isSome := by
  unfold RAY.update RAY.updateBudget
  by_cases hw : r.winning_team = s.team_id
  · cases hl : List.lookup r.item_id s.valuation_vector with
    | none => simp [hw, hl, exOk]
    | some v =>
        simp only [hw, if_true, ite_true, hl]
        rw [ray_after_ok]
        all_goals simp [hl]
  · simp only [hw, if_false, ite_false]
    rw [ray_after_ok]
    all_goals simp [hw]

/-! ## Step lemmas for team_yuvi_v1 -/

theorem y1_ub_pres (s : YuviOne.State) (r : Round) :
    (YuviOne.updateBudget s r).team_id = s.team_id ∧
    (YuviOne.updateBudget s r).initial_budget = s.initial_budget ∧
    (YuviOne.updateBudget s r).valuation_vector = s.valuation_vector ∧
    (YuviOne.updateBudget s r).utility = s.utility := by
  unfold YuviOne.updateBudget
  split_ifs <;> exact ⟨rfl, rfl, rfl, rfl⟩

theorem y1_ub_budget (s : YuviOne.State) (r : Round) :
    (YuviOne.updateBudget s r).budget =
      s.budget - (if r.winning_team = s.team_id then r.price_paid else 0) := by
  unfold YuviOne.updateBudget
  split_ifs <;> simp

theorem y1_ub_frame (s : YuviOne.State) (r : Round)
    (h : r.winning_team ≠ s.team_id) :
    (YuviOne.updateBudget s r).budget = s.budget ∧
    (YuviOne.updateBudget s r).items_won = s.items_won := by
  unfold YuviOne.updateBudget
  simp [h]

theorem y1_rounds_eff (s : YuviOne.State) :
    (YuviOne.stageRounds s).team_id = s.team_id ∧
    (YuviOne.stageRounds s).budget = s.budget ∧
    (YuviOne.stageRounds s).initial_budget = s.initial_budget ∧
    (YuviOne.stageRounds s).valuation_vector = s.valuation_vector ∧
    (YuviOne.stageRounds s).utility = s.utility ∧
    (YuviOne.stageRounds s).items_won = s.items_won := by
  unfold YuviOne.stageRounds
  exact ⟨rfl, rfl, rfl, rfl, rfl, rfl⟩

theorem y1_hist_eff (s : YuviOne.State) (r : Round) :
    (YuviOne.stageHist s r).team_id = s.team_id ∧
    (YuviOne.stageHist s r).budget = s.budget ∧
    (YuviOne.stageHist s r).initial_budget = s.initial_budget ∧
    (YuviOne.stageHist s r).valuation_vector = s.valuation_vector ∧
    (YuviOne.stageHist s r).utility = s.utility ∧
    (YuviOne.stageHist s r).items_won = s.items_won := by
  unfold YuviOne.stageHist
  exact ⟨rfl, rfl, rfl, rfl, rfl, rfl⟩

theorem y1_comp_eff (s : YuviOne.State) (r : Round) :
    (YuviOne.stageComp s r).team_id = s.team_id ∧
    (YuviOne.stageComp s r).budget = s.budget ∧
    (YuviOne.stageComp s r).initial_budget = s.initial_budget ∧
    (YuviOne.stageComp s r).valuation_vector = s.valuation_vector ∧
    (YuviOne.stageComp s r).utility = s.utility ∧
    (YuviOne.stageComp s r).items_won = s.items_won := by
  unfold YuviOne.stageComp
  split_ifs <;> exact ⟨rfl, rfl, rfl, rfl, rfl, rfl⟩

theorem y1_opp_eff (s : YuviOne.State) (r : Round) :
    (YuviOne.stageOpp s r).team_id = s.team_id ∧
    (YuviOne.stageOpp s r).budget = s.budget ∧
    (YuviOne.stageOpp s r).initial_budget = s.initial_budget ∧
    (YuviOne.stageOpp s r).valuation_vector = s.valuation_vector ∧
    (YuviOne.stageOpp s r).utility = s.utility ∧
    (YuviOne.stageOpp s r).items_won = s.items_won := by
  unfold YuviOne.stageOpp
  split_ifs <;> exact ⟨rfl, rfl, rfl, rfl, rfl, rfl⟩

theorem y1_bayes_eff (s : YuviOne.State) (r : Round) :
    (YuviOne.stageBayes s r).team_id = s.team_id ∧
    (YuviOne.stageBayes s r).budget = s.budget ∧
    (YuviOne.stageBayes s r).initial_budget = s.initial_budget ∧
    (YuviOne.stageBayes s r).valuation_vector = s.valuation_vector ∧
    (YuviOne.stageBayes s r).utility = s.utility ∧
    (YuviOne.stageBayes s r).items_won = s.items_won := by
  unfold YuviOne.stageBayes
  exact ⟨rfl, rfl, rfl, rfl, rfl, rfl⟩

theorem y1_learn_eff (t : YuviOne.State) (r : Round) :
    (YuviOne.learn t r).team_id = t.team_id ∧
    (YuviOne.learn t r).budget = t.budget ∧
    (YuviOne.learn t r).initial_budget = t.initial_budget ∧
    (YuviOne.learn t r).valuation_vector = t.valuation_vector ∧
    (YuviOne.learn t r).utility = t.utility ∧
    (YuviOne.learn t r).items_won = t.items_won := by
  unfold YuviOne.learn
  simp [y1_bayes_eff, y1_opp_eff, y1_comp_eff, y1_hist_eff, y1_rounds_eff]

theorem y1_step_eq (s : YuviOne.State) (r : Round) :
    YuviOne.step s r = YuviOne.learn (YuviOne.updateBudget s r) r := rfl

theorem y1_pres (s : YuviOne.State) (r : Round) :
    (YuviOne.step s r).team_id = s.team_id ∧
    (YuviOne.step s r).initial_budget = s.initial_budget ∧
    (YuviOne.step s r).valuation_vector = s.valuation_vector := by
  obtain ⟨l1, l2, l3, l4, l5, l6⟩ := y1_learn_eff (YuviOne.updateBudget s r) r
  obtain ⟨p1, p2, p3, p4⟩ := y1_ub_pres s r
  rw [y1_step_eq]
  exact ⟨by rw [l1, p1], by rw [l3, p2], by rw [l4, p3]⟩

theorem y1_budget_step (s : YuviOne.State) (r : Round) :
    (YuviOne.step s r).budget =
      s.budget - (if r.winning_team = s.team_id then r.price_paid else 0) := by
  obtain ⟨l1, l2, l3, l4, l5, l6⟩ := y1_learn_eff (YuviOne.updateBudget s r) r
  rw [y1_step_eq, l2, y1_ub_budget]

theorem y1_util_const (s : YuviOne.State) (r : Round) :
    (YuviOne.step s r).utility = s.utility := by
  obtain ⟨l1, l2, l3, l4, l5, l6⟩ := y1_learn_eff (YuviOne.updateBudget s r) r
  rw [y1_step_eq, l5, (y1_ub_pres s r).2.2.2]

theorem y1_frame (s : YuviOne.State) (r : Round)
    (h : r.winning_team ≠ s.team_id) :
    (YuviOne.step s r).budget = s.budget ∧
    (YuviOne.step s r).items_won = s.items_won ∧
    (YuviOne.step s r).utility = s.utility := by
  obtain ⟨l1, l2, l3, l4, l5, l6⟩ := y1_learn_eff (YuviOne.updateBudget s r) r
  obtain ⟨f1, f2⟩ := y1_ub_frame s r h
  exact ⟨by rw [y1_step_eq, l2, f1], by rw [y1_step_eq, l6, f2], y1_util_const s r⟩

theorem y1_ok (s : YuviOne.State) (r : Round) :
    exOk (YuviOne.update s r) = true := rfl

/-! ## Step lemmas for team_yuvi_v2 -/

theorem y2_ub_pres (s : YuviTwo.State) (r : Round) :
    (YuviTwo.updateBudget s r).team_id = s.team_id ∧
    (YuviTwo.updateBudget s r).initial_budget = s.initial_budget ∧
    (YuviTwo.updateBudget s r).valuation_vector = s.valuation_vector ∧
    (YuviTwo.updateBudget s r).utility = s.utility := by
  unfold YuviTwo.updateBudget
  split_ifs <;> exact ⟨rfl, rfl, rfl, rfl⟩

theorem y2_ub_budget (s : YuviTwo.State) (r : Round) :
    (YuviTwo.updateBudget s r).budget =
      s.budget - (if r.winning_team = s.team_id then r.price_paid else 0) := by
  unfold YuviTwo.updateBudget
  split_ifs <;> simp

theorem y2_ub_frame (s : YuviTwo.State) (r : Round)
    (h : r.winning_team ≠ s.team_id) :
    (YuviTwo.updateBudget s r).budget = s.budget ∧
    (YuviTwo.updateBudget s r).items_won = s.items_won := by
  unfold YuviTwo.updateBudget
  simp [h]

theorem y2_rounds_eff (s : YuviTwo.State) :
    (YuviTwo.stageRounds s).team_id = s.team_id ∧
    (YuviTwo.stageRounds s).budget = s.budget ∧
    (YuviTwo.stageRounds s).initial_budget = s.initial_budget ∧
    (YuviTwo.stageRounds s).valuation_vector = s.valuation_vector ∧
    (YuviTwo.stageRounds s).utility = s.utility ∧
    (YuviTwo.stageRounds s).items_won = s.items_won := by
  unfold YuviTwo.stageRounds
  exact ⟨rfl, rfl, rfl, rfl, rfl, rfl⟩

theorem y2_cats_eff (s : YuviTwo.State) (r : Round) :
    (YuviTwo.stageCats s r).team_id = s.team_id ∧
    (YuviTwo.stageCats s r).budget = s.budget ∧
    (YuviTwo.stageCats s r).initial_budget = s.initial_budget ∧
    (YuviTwo.stageCats s r).valuation_vector = s.valuation_vector ∧
    (YuviTwo.stageCats s r).utility = s.utility ∧
    (YuviTwo.stageCats s r).items_won = s.items_won := by
  unfold YuviTwo.stageCats
  simp [apply_ite YuviTwo.State.team_id, apply_ite YuviTwo.State.budget,
      apply_ite YuviTwo.State.initial_budget,
      apply_ite YuviTwo.State.valuation_vector,
      apply_ite YuviTwo.State.utility, apply_ite YuviTwo.State.items_won]

theorem y2_hist_eff (s : YuviTwo.State) (r : Round) :
    (YuviTwo.stageHist s r).team_id = s.team_id ∧
    (YuviTwo.stageHist s r).budget = s.budget ∧
    (YuviTwo.stageHist s r).initial_budget = s.initial_budget ∧
    (YuviTwo.stageHist s r).valuation_vector = s.valuation_vector ∧
    (YuviTwo.stageHist s r).utility = s.utility ∧
    (YuviTwo.stageHist s r).items_won = s.items_won := by
  unfold YuviTwo.stageHist
  exact ⟨rfl, rfl, rfl, rfl, rfl, rfl⟩

theorem y2_opp_eff (s : YuviTwo.State) (r : Round) :
    (YuviTwo.stageOpp s r).team_id = s.team_id ∧
    (YuviTwo.stageOpp s r).budget = s.budget ∧
    (YuviTwo.stageOpp s r).initial_budget = s.initial_budget ∧
    (YuviTwo.stageOpp s r).valuation_vector = s.valuation_vector ∧
    (YuviTwo.stageOpp s r).utility = s.utility ∧
    (YuviTwo.stageOpp s r).items_won = s.items_won := by
  unfold YuviTwo.stageOpp
  split_ifs <;> exact ⟨rfl, rfl, rfl, rfl, rfl, rfl⟩

theorem y2_bayes_eff (s : YuviTwo.State) (r : Round) :
    (YuviTwo.stageBayes s r).team_id = s.team_id ∧
    (YuviTwo.stageBayes s r).budget = s.budget ∧
    (YuviTwo.stageBayes s r).initial_budget = s.initial_budget ∧
    (YuviTwo.stageBayes s r).valuation_vector = s.valuation_vector ∧
    (YuviTwo.stageBayes s r).utility = s.utility ∧
    (YuviTwo.stageBayes s r).items_won = s.items_won := by
  unfold YuviTwo.stageBayes
  exact ⟨rfl, rfl, rfl, rfl, rfl, rfl⟩

theorem y2_learn_eff (t : YuviTwo.State) (r : Round) :
    (YuviTwo.learn t r).team_id = t.team_id ∧
    (YuviTwo.learn t r).budget = t.budget ∧
    (YuviTwo.learn t r).initial_budget = t.initial_budget ∧
    (YuviTwo.learn t r).valuation_vector = t.valuation_vector ∧
    (YuviTwo.learn t r).utility = t.utility ∧
    (YuviTwo.learn t r).items_won = t.items_won := by
  unfold YuviTwo.learn
  simp [y2_bayes_eff, y2_opp_eff, y2_hist_eff, y2_cats_eff, y2_rounds_eff]

theorem y2_step_eq (s : YuviTwo.State) (r : Round) :
    YuviTwo.step s r = YuviTwo.learn (YuviTwo.updateBudget s r) r := rfl

theorem y2_pres (s : YuviTwo.State) (r : Round) :
    (YuviTwo.step s r).team_id = s.team_id ∧
    (YuviTwo.step s r).initial_budget = s.initial_budget ∧
    (YuviTwo.step s r).valuation_vector = s.valuation_vector := by
  obtain ⟨l1, l2, l3, l4, l5, l6⟩ := y2_learn_eff (YuviTwo.updateBudget s r) r
  obtain ⟨p1, p2, p3, p4⟩ := y2_ub_pres s r
  rw [y2_step_eq]
  exact ⟨by rw [l1, p1], by rw [l3, p2], by rw [l4, p3]⟩

theorem y2_budget_step (s : YuviTwo.State) (r : Round) :
    (YuviTwo.step s r).budget =
      s.budget - (if r.winning_team = s.team_id then r.price_paid else 0) := by
  obtain ⟨l1, l2, l3, l4, l5, l6⟩ := y2_learn_eff (YuviTwo.updateBudget s r) r
  rw [y2_step_eq, l2, y2_ub_budget]

theorem y2_util_const (s : YuviTwo.State) (r : Round) :
    (YuviTwo.step s r).utility = s.utility := by
  obtain ⟨l1, l2, l3, l4, l5, l6⟩ := y2_learn_eff (YuviTwo.updateBudget s r) r
  rw [y2_step_eq, l5, (y2_ub_pres s r).2.2.2]

theorem y2_frame (s : YuviTwo.State) (r : Round)
    (h : r.winning_team ≠ s.team_id) :
    (YuviTwo.step s r).budget = s.budget ∧
    (YuviTwo.step s r).items_won = s.items_won ∧
    (YuviTwo.step s r).utility = s.utility := by
  obtain ⟨l1, l2, l3, l4, l5, l6⟩ := y2_learn_eff (YuviTwo.updateBudget s r) r
  obtain ⟨f1, f2⟩ := y2_ub_frame s r h
  exact ⟨by rw [y2_step_eq, l2, f1], by rw [y2_step_eq, l6, f2], y2_util_const s r⟩

theorem y2_ok (s : YuviTwo.State) (r : Round) :
    exOk (YuviTwo.update s r) = true := rfl

/-! ## Step lemmas for team_yuvi_v3 -/

theorem y3_ub_pres (s : YuviThree.State) (r : Round) :
    (YuviThree.updateBudget s r).team_id = s.team_id ∧
    (YuviThree.updateBudget s r).initial_budget = s.initial_budget ∧
    (YuviThree.updateBudget s r).valuation_vector = s.valuation_vector := by
  unfold YuviThree.updateBudget
  split_ifs <;> exact ⟨rfl, rfl, rfl⟩

theorem y3_ub_budget (s : YuviThree.State) (r : Round) :
    (YuviThree.updateBudget s r).budget =
      s.budget - (if r.winning_team = s.team_id then r.price_paid else 0) := by
  unfold YuviThree.updateBudget
  split_ifs <;> simp

theorem y3_ub_frame (s : YuviThree.State) (r : Round)
    (h : r.winning_team ≠ s.team_id) :
    (YuviThree.updateBudget s r).budget = s.budget ∧
    (YuviThree.updateBudget s r).items_won = s.items_won := by
  unfold YuviThree.updateBudget
  simp [h]

theorem y3_rounds_eff (s : YuviThree.State) :
    (YuviThree.stageRounds s).team_id = s.team_id ∧
    (YuviThree.stageRounds s).budget = s.budget ∧
    (YuviThree.stageRounds s).initial_budget = s.initial_budget ∧
    (YuviThree.stageRounds s).valuation_vector = s.valuation_vector ∧
    (YuviThree.stageRounds s).items_won = s.items_won := by
  unfold YuviThree.stageRounds
  exact ⟨rfl, rfl, rfl, rfl, rfl⟩

theorem y3_hist_eff (s : YuviThree.State) (r : Round) :
    (YuviThree.stageHist s r).team_id = s.team_id ∧
    (YuviThree.stageHist s r).budget = s.budget ∧
    (YuviThree.stageHist s r).initial_budget = s.initial_budget ∧
    (YuviThree.stageHist s r).valuation_vector = s.valuation_vector ∧
    (YuviThree.stageHist s r).items_won = s.items_won := by
  unfold YuviThree.stageHist
  exact ⟨rfl, rfl, rfl, rfl, rfl⟩

theorem y3_comp_eff (s : YuviThree.State) (r : Round) :
    (YuviThree.stageComp s r).team_id = s.team_id ∧
    (YuviThree.stageComp s r).budget = s.budget ∧
    (YuviThree.stageComp s r).initial_budget = s.initial_budget ∧
    (YuviThree.stageComp s r).valuation_vector = s.valuation_vector ∧
    (YuviThree.stageComp s r).items_won = s.items_won := by
  unfold YuviThree.stageComp
  split_ifs <;>
    simp [apply_ite YuviThree.State.team_id, apply_ite YuviThree.State.budget,
      apply_ite YuviThree.State.initial_budget,
      apply_ite YuviThree.State.valuation_vector,
      apply_ite YuviThree.State.items_won]

theorem y3_opp_eff (s : YuviThree.State) (r : Round) :
    (YuviThree.stageOpp s r).team_id = s.team_id ∧
    (YuviThree.stageOpp s r).budget = s.budget ∧
    (YuviThree.stageOpp s r).initial_budget = s.initial_budget ∧
    (YuviThree.stageOpp s r).valuation_vector = s.valuation_vector ∧
    (YuviThree.stageOpp s r).items_won = s.items_won := by
  unfold YuviThree.stageOpp
  split_ifs <;> exact ⟨rfl, rfl, rfl, rfl, rfl⟩

theorem y3_learn_eff (t : YuviThree.State) (r : Round) :
    (YuviThree.learn t r).team_id = t.team_id ∧
    (YuviThree.learn t r).budget = t.budget ∧
    (YuviThree.learn t r).initial_budget = t.initial_budget ∧
    (YuviThree.learn t r).valuation_vector = t.valuation_vector ∧
    (YuviThree.learn t r).items_won = t.items_won := by
  unfold YuviThree.learn
  simp [y3_opp_eff, y3_comp_eff, y3_hist_eff, y3_rounds_eff]

theorem y3_step_eq (s : YuviThree.State) (r : Round) :
    YuviThree.step s r = YuviThree.learn (YuviThree.updateBudget s r) r := rfl

theorem y3_pres (s : YuviThree.State) (r : Round) :
    (YuviThree.step s r).team_id = s.team_id ∧
    (YuviThree.step s r).initial_budget = s.initial_budget ∧
    (YuviThree.step s r).valuation_vector = s.valuation_vector := by
  obtain ⟨l1, l2, l3, l4, l5⟩ := y3_learn_eff (YuviThree.updateBudget s r) r
  obtain ⟨p1, p2, p3⟩ := y3_ub_pres s r
  rw [y3_step_eq]
  exact ⟨by rw [l1, p1], by rw [l3, p2], by rw [l4, p3]⟩

theorem y3_budget_step (s : YuviThree.State) (r : Round) :
    (YuviThree.step s r).budget =
      s.budget - (if r.winning_team = s.team_id then r.price_paid else 0) := by
  obtain ⟨l1, l2, l3, l4, l5⟩ := y3_learn_eff (YuviThree.updateBudget s r) r
  rw [y3_step_eq, l2, y3_ub_budget]

theorem y3_frame (s : YuviThree.State) (r : Round)
    (h : r.winning_team ≠ s.team_id) :
    (YuviThree.step s r).budget = s.budget ∧
    (YuviThree.step s r).items_won = s.items_won := by
  obtain ⟨l1, l2, l3, l4, l5⟩ := y3_learn_eff (YuviThree.updateBudget s r) r
  obtain ⟨f1, f2⟩ := y3_ub_frame s r h
  exact ⟨by rw [y3_step_eq, l2, f1], by rw [y3_step_eq, l5, f2]⟩

theorem y3_ok (s : YuviThree.State) (r : Round) :
    exOk (YuviThree.update s r) = true := rfl

/-! ## Step lemmas for team_yuvi_v4 -/

theorem y4_ub_pres (s : YuviFour.State) (r : Round) :
    (YuviFour.updateBudget s r).team_id = s.team_id ∧
    (YuviFour.updateBudget s r).initial_budget = s.initial_budget ∧
    (YuviFour.updateBudget s r).valuation_vector = s.valuation_vector := by
  unfold YuviFour.updateBudget
  split_ifs <;> exact ⟨rfl, rfl, rfl⟩

theorem y4_ub_budget (s : YuviFour.State) (r : Round) :
    (YuviFour.updateBudget s r).budget =
      s.budget - (if r.winning_team = s.team_id then r.price_paid else 0) := by
  unfold YuviFour.updateBudget
  split_ifs <;> simp

theorem y4_ub_frame (s : YuviFour.State) (r : Round)
    (h : r.winning_team ≠ s.team_id) :
    (YuviFour.updateBudget s r).budget = s.budget ∧
    (YuviFour.updateBudget s r).items_won = s.items_won := by
  unfold YuviFour.updateBudget
  simp [h]

theorem y4_rounds_eff (s : YuviFour.State) :
    (YuviFour.stageRounds s).team_id = s.team_id ∧
    (YuviFour.stageRounds s).budget = s.budget ∧
    (YuviFour.stageRounds s).initial_budget = s.initial_budget ∧
    (YuviFour.stageRounds s).valuation_vector = s.valuation_vector ∧
    (YuviFour.stageRounds s).items_won = s.items_won := by
  unfold YuviFour.stageRounds
  exact ⟨rfl, rfl, rfl, rfl, rfl⟩

theorem y4_hist_eff (s : YuviFour.State) (r : Round) :
    (YuviFour.stageHist s r).team_id = s.team_id ∧
    (YuviFour.stageHist s r).budget = s.budget ∧
    (YuviFour.stageHist s r).initial_budget = s.initial_budget ∧
    (YuviFour.stageHist s r).valuation_vector = s.valuation_vector ∧
    (YuviFour.stageHist s r).items_won = s.items_won := by
  unfold YuviFour.stageHist
  exact ⟨rfl, rfl, rfl, rfl, rfl⟩

theorem y4_opp_eff (s : YuviFour.State) (r : Round) :
    (YuviFour.stageOpp s r).team_id = s.team_id ∧
    (YuviFour.stageOpp s r).budget = s.budget ∧
    (YuviFour.stageOpp s r).initial_budget = s.initial_budget ∧
    (YuviFour.stageOpp s r).valuation_vector = s.valuation_vector ∧
    (YuviFour.stageOpp s r).items_won = s.items_won := by
  unfold YuviFour.stageOpp
  split_ifs <;> exact ⟨rfl, rfl, rfl, rfl, rfl⟩

theorem y4_learn_eff (t : YuviFour.State) (r : Round) :
    (YuviFour.learn t r).team_id = t.team_id ∧
    (YuviFour.learn t r).budget = t.budget ∧
    (YuviFour.learn t r).initial_budget = t.initial_budget ∧
    (YuviFour.learn t r).valuation_vector = t.valuation_vector ∧
    (YuviFour.learn t r).items_won = t.items_won := by
  unfold YuviFour.learn
  simp [y4_opp_eff, y4_hist_eff, y4_rounds_eff]

theorem y4_step_eq (s : YuviFour.State) (r : Round) :
    YuviFour.step s r = YuviFour.learn (YuviFour.updateBudget s r) r := rfl

theorem y4_pres (s : YuviFour.State) (r : Round) :
    (YuviFour.step s r).team_id = s.team_id ∧
    (YuviFour.step s r).initial_budget = s.initial_budget ∧
    (YuviFour.step s r).valuation_vector = s.valuation_vector := by
  obtain ⟨l1, l2, l3, l4, l5⟩ := y4_learn_eff (YuviFour.updateBudget s r) r
  obtain ⟨p1, p2, p3⟩ := y4_ub_pres s r
  rw [y4_step_eq]
  exact ⟨by rw [l1, p1], by rw [l3, p2], by rw [l4, p3]⟩

theorem y4_budget_step (s : YuviFour.State) (r : Round) :
    (YuviFour.step s r).budget =
      s.budget - (if r.winning_team = s.team_id then r.price_paid else 0) := by
  obtain ⟨l1, l2, l3, l4, l5⟩ := y4_learn_eff (YuviFour.updateBudget s r) r
  rw [y4_step_eq, l2, y4_ub_budget]

theorem y4_frame (s : YuviFour.State) (r : Round)
    (h : r.winning_team ≠ s.team_id) :
    (YuviFour.step s r).budget = s.budget ∧
    (YuviFour.step s r).items_won = s.items_won := by
  obtain ⟨l1, l2, l3, l4, l5⟩ := y4_learn_eff (YuviFour.updateBudget s r) r
  obtain ⟨f1, f2⟩ := y4_ub_frame s r h
  exact ⟨by rw [y4_step_eq, l2, f1], by rw [y4_step_eq, l5, f2]⟩

theorem y4_ok (s : YuviFour.State) (r : Round) :
    exOk (YuviFour.update s r) = true := rfl

/-! ## Range of each bidding function -/

theorem clampAy (b x y : ℚ) (hb : 0 ≤ b) :
    0 ≤ min (if b < (if x < 0 then 0 else x) then b
             else (if x < 0 then 0 else x)) (max 0 y) ∧
    min (if b < (if x < 0 then 0 else x) then b
         else (if x < 0 then 0 else x)) (max 0 y) ≤ b := by
  constructor
  · refine le_min ?_ (le_max_left 0 y)
    split_ifs <;> linarith
  · refine (min_le_left _ _).trans ?_
    split_ifs <;> linarith

theorem clampSimple (b x : ℚ) (hb : 0 ≤ b) :
    0 ≤ (if b < (if x < 0 then 0 else x) then b else (if x < 0 then 0 else x)) ∧
    (if b < (if x < 0 then 0 else x) then b else (if x < 0 then 0 else x)) ≤ b := by
  constructor <;> split_ifs <;> linarith

theorem ex5_bid_range (s : ExFive.State) (item_id : String)
    (hb : 0 ≤ s.budget) (hv : ∀ p ∈ s.valuation_vector, 0 ≤ p.2) :
    0 ≤ ExFive.bid s item_id ∧ ExFive.bid s item_id ≤ s.budget := by
  unfold ExFive.bid
  exact ⟨le_min (dget_nonneg item_id hv) hb, min_le_right _ _⟩

theorem ex2_bid_range (s : ExTwo.State) (item_id : String) (fraction : ℚ)
    (hb : 0 ≤ s.budget) (hv : ∀ p ∈ s.valuation_vector, 0 ≤ p.2)
    (hf : 0 ≤ fraction) :
    0 ≤ ExTwo.bid s item_id fraction ∧ ExTwo.bid s item_id fraction ≤ s.budget := by
  unfold ExTwo.bid
  exact ⟨le_min (mul_nonneg (dget_nonneg item_id hv) hf) hb, min_le_right _ _⟩

theorem ex3_bid_range (s : ExThree.State) (item_id : String)
    (hb : 0 ≤ s.budget) :
    0 ≤ ExThree.bid s item_id ∧ ExThree.bid s item_id ≤ s.budget := by
  unfold ExThree.bid
  simp only []
  split_ifs
  · exact ⟨le_refl 0, hb⟩
  · exact ⟨le_max_left 0 _,
      max_le hb ((min_le_right _ _).trans (min_le_left _ _))⟩

set_option maxHeartbeats 1600000 in
theorem ex4_bid_range (s : ExFour.State) (item_id : String)
    (hb : 0 ≤ s.budget) :
    0 ≤ ExFour.bid s item_id ∧ ExFour.bid s item_id ≤ s.budget := by
  unfold ExFour.bid
  simp only []
  by_cases h1 : s.budget ≤ 0
  · rw [if_pos h1]
    exact ⟨le_refl 0, hb⟩
  · rw [if_neg h1]
    by_cases h2 : (15 : ℤ) - s.rounds_completed = 0
    · rw [if_pos h2]
      exact ⟨le_refl 0, hb⟩
    · rw [if_neg h2]
      refine ⟨le_max_left 0 _, max_le hb ?_⟩
      split_ifs <;>
        first
          | exact (min_le_left _ _).trans (min_le_right _ _)
          | exact min_le_right _ _

theorem ay_bid_range (s : Ay.State) (item_id : String) (hb : 0 ≤ s.budget) :
    0 ≤ Ay.bid s item_id ∧ Ay.bid s item_id ≤ s.budget := by
  unfold Ay.bid
  by_cases h1 : dget s.valuation_vector item_id 0 ≤ 0 ∨ s.budget ≤ 0
  · rw [if_pos h1]
    exact ⟨le_refl 0, hb⟩
  · rw [if_neg h1]
    by_cases h2 : s.total_rounds - s.rounds_completed ≤ 0
    · rw [if_pos h2]
      exact ⟨le_refl 0, hb⟩
    · rw [if_neg h2]
      exact clampAy s.budget _ _ hb

theorem aysimple_bid_range (s : AySimple.State) (item_id : String)
    (hb : 0 ≤ s.budget) :
    0 ≤ AySimple.bid s item_id ∧ AySimple.bid s item_id ≤ s.budget := by
  unfold AySimple.bid
  by_cases h1 : dget s.valuation_vector item_id 0 ≤ 0 ∨ s.budget ≤ 0
  · rw [if_pos h1]
    exact ⟨le_refl 0, hb⟩
  · rw [if_neg h1]
    by_cases h2 : s.total_rounds - s.rounds_completed ≤ 0
    · rw [if_pos h2]
      exact ⟨le_refl 0, hb⟩
    · rw [if_neg h2]
      exact clampSimple s.budget _ hb

theorem ayaggr_bid_range (s : AyAggr.State) (item_id : String)
    (hb : 0 ≤ s.budget) :
    0 ≤ AyAggr.bid s item_id ∧ AyAggr.bid s item_id ≤ s.budget := by
  unfold AyAggr.bid
  by_cases h1 : dget s.valuation_vector item_id 0 ≤ 0 ∨ s.budget ≤ 0
  · rw [if_pos h1]
    exact ⟨le_refl 0, hb⟩
  · rw [if_neg h1]
    by_cases h2 : s.total_rounds - s.rounds_completed ≤ 0
    · rw [if_pos h2]
      exact ⟨le_refl 0, hb⟩
    · rw [if_neg h2]
      exact clampAy s.budget _ _ hb

theorem ray_bid_range (s : RAY.State) (item_id : String)
    (hb : 0 ≤ s.budget) (hv : ∀ p ∈ s.valuation_vector, 0 ≤ p.2) :
    0 ≤ RAY.bid s item_id ∧
    RAY.bid s item_id ≤ max s.budget (dget s.valuation_vector item_id 0) := by
  unfold RAY.bid
  simp only []
  split_ifs
  · exact ⟨le_refl 0, hb.trans (le_max_left _ _)⟩
  · exact ⟨le_refl 0, hb.trans (le_max_left _ _)⟩
  · exact ⟨dget_nonneg item_id hv, le_max_right _ _⟩
  · exact ⟨le_max_left 0 _,
      max_le (hb.trans (le_max_left _ _))
        ((min_le_right _ _).trans (le_max_left _ _))⟩

theorem y1_bid_range (s : YuviOne.State) (item_id : String)
    (hb : 0 ≤ s.budget) :
    0 ≤ YuviOne.bid s item_id ∧ YuviOne.bid s item_id ≤ s.budget := by
  unfold YuviOne.bid YuviOne.calculateBid
  simp only []
  split_ifs <;>
    first
      | exact ⟨le_refl 0, hb⟩
      | exact clamp_range s.budget _ _ hb

theorem y2_bid_range (s : YuviTwo.State) (item_id : String)
    (hb : 0 ≤ s.budget) :
    0 ≤ YuviTwo.bid s item_id ∧ YuviTwo.bid s item_id ≤ s.budget := by
  unfold YuviTwo.bid YuviTwo.calculateBid
  simp only []
  split_ifs <;>
    first
      | exact ⟨le_refl 0, hb⟩
      | exact clamp_range s.budget _ _ hb

theorem y3_bid_range (s : YuviThree.State) (item_id : String)
    (hb : 0 ≤ s.budget) :
    0 ≤ YuviThree.bid s item_id ∧ YuviThree.bid s item_id ≤ s.budget := by
  unfold YuviThree.bid YuviThree.calculateUltimateBid
  simp only []
  split_ifs <;>
    first
      | exact ⟨le_refl 0, hb⟩
      | exact clamp_range s.budget _ _ hb

theorem y4_bid_range (s : YuviFour.State) (item_id : String)
    (hb : 0 ≤ s.budget) :
    0 ≤ YuviFour.bid s item_id ∧ YuviFour.bid s item_id ≤ s.budget := by
  unfold YuviFour.bid YuviFour.dominatorBid
  simp only []
  split_ifs <;>
    first
      | exact ⟨le_refl 0, hb⟩
      | exact clamp_range s.budget _ _ hb

/-! ## Lemmas about the spec-modelled resolver -/

theorem argmax_mem : ∀ (rest : List (String × ℚ)) (b : String × ℚ),
    rest.foldl (fun acc x => if acc.2 < x.2 then x else acc) b = b ∨
    rest.foldl (fun acc x => if acc.2 < x.2 then x else acc) b ∈ rest := by
  intro rest
  induction rest with
  | nil => intro b; left; rfl
  | cons a t ih =>
      intro b
      rw [List.foldl_cons]
      rcases ih (if b.2 < a.2 then a else b) with h | h
      · rw [h]
        split_ifs
        · right
          exact List.mem_cons_self a t
        · left
          rfl
      · right
        exact List.mem_cons_of_mem _ h

theorem argmax_ge_init : ∀ (rest : List (String × ℚ)) (b : String × ℚ),
    b.2 ≤ (rest.foldl (fun acc x => if acc.2 < x.2 then x else acc) b).2 := by
  intro rest
  induction rest with
  | nil => intro b; exact le_refl _
  | cons a t ih =>
      intro b
      rw [List.foldl_cons]
      refine le_trans ?_ (ih (if b.2 < a.2 then a else b))
      split_ifs with h
      · exact le_of_lt h
      · exact le_refl _

theorem argmax_ge_mem : ∀ (rest : List (String × ℚ)) (b x : String × ℚ),
    x ∈ rest →
    x.2 ≤ (rest.foldl (fun acc x => if acc.2 < x.2 then x else acc) b).2 := by
  intro rest
  induction rest with
  | nil => intro b x h; simp at h
  | cons a t ih =>
      intro b x h
      rw [List.foldl_cons]
      rcases List.mem_cons.1 h with h2 | h2
      · subst h2
        refine le_trans ?_ (argmax_ge_init t (if b.2 < x.2 then x else b))
        split_ifs with h3
        · exact le_refl _
        · exact le_of_not_lt h3
      · exact ih (if b.2 < a.2 then a else b) x h2

/-- Structure of a winning resolution: the winner comes from the positive
bids, beats every positive bid, and the price is either its own bid (no
other positive bid) or the maximum over the other positive bids. -/
theorem resolve_some_spec (bids : List (String × ℚ)) (wid : String) (p : ℚ)
    (h : resolve bids = (some wid, p)) :
    ∃ b rest, bids.filter (fun x => 0 < x.2) = b :: rest ∧
      wid = (rest.foldl (fun acc x => if acc.2 < x.2 then x else acc) b).1 ∧
      (rest.foldl (fun acc x => if acc.2 < x.2 then x else acc) b) ∈ b :: rest ∧
      (∀ x ∈ b :: rest,
        x.2 ≤ (rest.foldl (fun acc x => if acc.2 < x.2 then x else acc) b).2) ∧
      (((b :: rest).erase
          (rest.foldl (fun acc x => if acc.2 < x.2 then x else acc) b) = [] ∧
        p = (rest.foldl (fun acc x => if acc.2 < x.2 then x else acc) b).2) ∨
       ((b :: rest).erase
          (rest.foldl (fun acc x => if acc.2 < x.2 then x else acc) b) ≠ [] ∧
        p = pymax (((b :: rest).erase
          (rest.foldl (fun acc x => if acc.2 < x.2 then x else acc) b)).map Prod.snd))) := by
  unfold resolve at h
  simp only [] at h
  cases hpos : bids.filter (fun x => 0 < x.2) with
  | nil => rw [hpos] at h; simp at h
  | cons b rest =>
      rw [hpos] at h
      dsimp only [] at h
      refine ⟨b, rest, rfl, ?_⟩
      by_cases he : (b :: rest).erase
          (rest.foldl (fun acc x => if acc.2 < x.2 then x else acc) b) = []
      · rw [if_pos he] at h
        obtain ⟨h1, h2⟩ := Prod.mk.injEq .. ▸ h
        refine ⟨by simpa using h1.symm, ?_, ?_, Or.inl ⟨he, h2.symm⟩⟩
        · rcases argmax_mem rest b with hm | hm
          · rw [hm]; exact List.mem_cons_self b rest
          · exact List.mem_cons_of_mem _ hm
        · intro x hx
          rcases List.mem_cons.1 hx with h3 | h3
          · subst h3; exact argmax_ge_init rest x
          · exact argmax_ge_mem rest b x h3
      · rw [if_neg he] at h
        obtain ⟨h1, h2⟩ := Prod.mk.injEq .. ▸ h
        refine ⟨by simpa using h1.symm, ?_, ?_, Or.inr ⟨he, h2.symm⟩⟩
        · rcases argmax_mem rest b with hm | hm
          · rw [hm]; exact List.mem_cons_self b rest
          · exact List.mem_cons_of_mem _ hm
        · intro x hx
          rcases List.mem_cons.1 hx with h3 | h3
          · subst h3; exact argmax_ge_init rest x
          · exact argmax_ge_mem rest b x h3

/-! ## The claims -/

/-- C1, amended.  For every agent class except team_RAY, for every item_id,
if the remaining budget is non-negative and every value in the valuation
vector is non-negative (and, for the random bidder, the uniform draw lies
in [0, 1]), the value returned by bidding_function satisfies
0 ≤ bid ≤ budget.  For team_RAY the bid is non-negative and bounded by
max budget valuation only: its early return of my_valuation (valuation
below 3 with more than 3 rounds remaining) skips the budget cap. -/
theorem C1_bid_range :
    (∀ (s : ExFive.State) (item_id : String), 0 ≤ s.budget →
      (∀ p ∈ s.valuation_vector, 0 ≤ p.2) →
      0 ≤ ExFive.bid s item_id ∧ ExFive.bid s item_id ≤ s.budget) ∧
    (∀ (s : ExTwo.State) (item_id : String) (fraction : ℚ), 0 ≤ s.budget →
      (∀ p ∈ s.valuation_vector, 0 ≤ p.2) → 0 ≤ fraction → fraction ≤ 1 →
      0 ≤ ExTwo.bid s item_id fraction ∧
        ExTwo.bid s item_id fraction ≤ s.budget) ∧
    (∀ (s : ExThree.State) (item_id : String), 0 ≤ s.budget →
      (∀ p ∈ s.valuation_vector, 0 ≤ p.2) →
      0 ≤ ExThree.bid s item_id ∧ ExThree.bid s item_id ≤ s.budget) ∧
    (∀ (s : ExFour.State) (item_id : String), 0 ≤ s.budget →
      (∀ p ∈ s.valuation_vector, 0 ≤ p.2) →
      0 ≤ ExFour.bid s item_id ∧ ExFour.bid s item_id ≤ s.budget) ∧
    (∀ (s : Ay.State) (item_id : String), 0 ≤ s.budget →
      (∀ p ∈ s.valuation_vector, 0 ≤ p.2) →
      0 ≤ Ay.bid s item_id ∧ Ay.bid s item_id ≤ s.budget) ∧
    (∀ (s : AySimple.State) (item_id : String), 0 ≤ s.budget →
      (∀ p ∈ s.valuation_vector, 0 ≤ p.2) →
      0 ≤ AySimple.bid s item_id ∧ AySimple.bid s item_id ≤ s.budget) ∧
    (∀ (s : AyAggr.State) (item_id : String), 0 ≤ s.budget →
      (∀ p ∈ s.valuation_vector, 0 ≤ p.2) →
      0 ≤ AyAggr.bid s item_id ∧ AyAggr.bid s item_id ≤ s.budget) ∧
    (∀ (s : YuviOne.State) (item_id : String), 0 ≤ s.budget →
      (∀ p ∈ s.valuation_vector, 0 ≤ p.2) →
      0 ≤ YuviOne.bid s item_id ∧ YuviOne.bid s item_id ≤ s.budget) ∧
    (∀ (s : YuviTwo.State) (item_id : String), 0 ≤ s.budget →
      (∀ p ∈ s.valuation_vector, 0 ≤ p.2) →
      0 ≤ YuviTwo.bid s item_id ∧ YuviTwo.bid s item_id ≤ s.budget) ∧
    (∀ (s : YuviThree.State) (item_id : String), 0 ≤ s.budget →
      (∀ p ∈ s.valuation_vector, 0 ≤ p.2) →
      0 ≤ YuviThree.bid s item_id ∧ YuviThree.bid s item_id ≤ s.budget) ∧
    (∀ (s : YuviFour.State) (item_id : String), 0 ≤ s.budget →
      (∀ p ∈ s.valuation_vector, 0 ≤ p.2) →
      0 ≤ YuviFour.bid s item_id ∧ YuviFour.bid s item_id ≤ s.budget) ∧
    (∀ (s : RAY.State) (item_id : String), 0 ≤ s.budget →
      (∀ p ∈ s.valuation_vector, 0 ≤ p.2) →
      0 ≤ RAY.bid s item_id ∧
        RAY.bid s item_id ≤ max s.budget (dget s.valuation_vector item_id 0)) :=
  ⟨fun s i hb hv => ex5_bid_range s i hb hv,
   fun s i f hb hv hf _ => ex2_bid_range s i f hb hv hf,
   fun s i hb _ => ex3_bid_range s i hb,
   fun s i hb _ => ex4_bid_range s i hb,
   fun s i hb _ => ay_bid_range s i hb,
   fun s i hb _ => aysimple_bid_range s i hb,
   fun s i hb _ => ayaggr_bid_range s i hb,
   fun s i hb _ => y1_bid_range s i hb,
   fun s i hb _ => y2_bid_range s i hb,
   fun s i hb _ => y3_bid_range s i hb,
   fun s i hb _ => y4_bid_range s i hb,
   fun s i hb hv => ray_bid_range s i hb hv⟩

/-- C1, counterexample.  A team_RAY agent with budget 1 and valuation 2 for
the item bids 2, above its remaining budget: the early low-value return of
bidding_function skips the budget cap. -/
theorem C1_counterexample :
    sRayCx.budget = 1 ∧ sRayCx.valuation_vector = [(itemA, 2)] ∧
    RAY.bid sRayCx itemA = 2 ∧ sRayCx.budget < RAY.bid sRayCx itemA := by
  refine ⟨rfl, rfl, ?_, ?_⟩ <;> decide

/-- C1, witness at concrete states with budget 60 and valuation 8. -/
theorem C1_witness :
    (0 ≤ ExFive.bid sEx5 itemA ∧ ExFive.bid sEx5 itemA ≤ sEx5.budget) ∧
    (0 ≤ ExTwo.bid sEx2 itemA 0.5 ∧ ExTwo.bid sEx2 itemA 0.5 ≤ sEx2.budget) ∧
    (0 ≤ ExThree.bid sEx3 itemA ∧ ExThree.bid sEx3 itemA ≤ sEx3.budget) ∧
    (0 ≤ ExFour.bid sEx4 itemA ∧ ExFour.bid sEx4 itemA ≤ sEx4.budget) ∧
    (0 ≤ Ay.bid sAy itemA ∧ Ay.bid sAy itemA ≤ sAy.budget) ∧
    (0 ≤ AySimple.bid sAySimple itemA ∧
      AySimple.bid sAySimple itemA ≤ sAySimple.budget) ∧
    (0 ≤ AyAggr.bid sAyAggr itemA ∧ AyAggr.bid sAyAggr itemA ≤ sAyAggr.budget) ∧
    (0 ≤ YuviOne.bid sY1 itemA ∧ YuviOne.bid sY1 itemA ≤ sY1.budget) ∧
    (0 ≤ YuviTwo.bid sY2 itemA ∧ YuviTwo.bid sY2 itemA ≤ sY2.budget) ∧
    (0 ≤ YuviThree.bid sY3 itemA ∧ YuviThree.bid sY3 itemA ≤ sY3.budget) ∧
    (0 ≤ YuviFour.bid sY4 itemA ∧ YuviFour.bid sY4 itemA ≤ sY4.budget) ∧
    (0 ≤ RAY.bid sRay itemA ∧
      RAY.bid sRay itemA ≤ max sRay.budget (dget sRay.valuation_vector itemA 0)) :=
  ⟨C1_bid_range.1 sEx5 itemA (by decide) (by decide),
   C1_bid_range.2.1 sEx2 itemA 0.5 (by decide) (by decide) (by norm_num) (by norm_num),
   C1_bid_range.2.2.1 sEx3 itemA (by decide) (by decide),
   C1_bid_range.2.2.2.1 sEx4 itemA (by decide) (by decide),
   C1_bid_range.2.2.2.2.1 sAy itemA (by decide) (by decide),
   C1_bid_range.2.2.2.2.2.1 sAySimple itemA (by decide) (by decide),
   C1_bid_range.2.2.2.2.2.2.1 sAyAggr itemA (by decide) (by decide),
   C1_bid_range.2.2.2.2.2.2.2.1 sY1 itemA (by decide) (by decide),
   C1_bid_range.2.2.2.2.2.2.2.2.1 sY2 itemA (by decide) (by decide),
   C1_bid_range.2.2.2.2.2.2.2.2.2.1 sY3 itemA (by decide) (by decide),
   C1_bid_range.2.2.2.2.2.2.2.2.2.2.1 sY4 itemA (by decide) (by decide),
   C1_bid_range.2.2.2.2.2.2.2.2.2.2.2 sRay itemA (by decide) (by decide)⟩

/-- C2, amended.  For every agent, after any finite sequence of
update_after_each_round calls with non-negative price_paid arguments and
with budget initially equal to initial_budget, the budget field equals
initial_budget minus the sum of price_paid over exactly the calls whose
winning_team equals the agent team_id.  The budget stays non-negative
provided additionally that the initial budget is non-negative and every
won round is charged at most the budget held when it is settled (the
engine guarantee); without that feasibility hypothesis the budget can go
negative, since no agent clamps the subtraction. -/
theorem C2_budget_ledger :
    (∀ (s : ExFive.State) (rs : List Round), s.budget = s.initial_budget →
      0 ≤ s.budget → (∀ r ∈ rs, 0 ≤ r.price_paid) →
      (rs.foldl ExFive.step s).budget = s.initial_budget - wonSum s.team_id rs ∧
      (FeasibleFrom ExFive.step (fun t => t.budget) (fun t => t.team_id) s rs →
        0 ≤ (rs.foldl ExFive.step s).budget)) ∧
    (∀ (s : ExTwo.State) (rs : List Round), s.budget = s.initial_budget →
      0 ≤ s.budget → (∀ r ∈ rs, 0 ≤ r.price_paid) →
      (rs.foldl ExTwo.step s).budget = s.initial_budget - wonSum s.team_id rs ∧
      (FeasibleFrom ExTwo.step (fun t => t.budget) (fun t => t.team_id) s rs →
        0 ≤ (rs.foldl ExTwo.step s).budget)) ∧
    (∀ (s : ExThree.State) (rs : List Round), s.budget = s.initial_budget →
      0 ≤ s.budget → (∀ r ∈ rs, 0 ≤ r.price_paid) →
      (rs.foldl ExThree.step s).budget = s.initial_budget - wonSum s.team_id rs ∧
      (FeasibleFrom ExThree.step (fun t => t.budget) (fun t => t.team_id) s rs →
        0 ≤ (rs.foldl ExThree.step s).budget)) ∧
    (∀ (s : ExFour.State) (rs : List Round), s.budget = s.initial_budget →
      0 ≤ s.budget → (∀ r ∈ rs, 0 ≤ r.price_paid) →
      (rs.foldl ExFour.step s).budget = s.initial_budget - wonSum s.team_id rs ∧
      (FeasibleFrom ExFour.step (fun t => t.budget) (fun t => t.team_id) s rs →
        0 ≤ (rs.foldl ExFour.step s).budget)) ∧
    (∀ (s : Ay.State) (rs : List Round), s.budget = s.initial_budget →
      0 ≤ s.budget → (∀ r ∈ rs, 0 ≤ r.price_paid) →
      (rs.foldl Ay.step s).budget = s.initial_budget - wonSum s.team_id rs ∧
      (FeasibleFrom Ay.step (fun t => t.budget) (fun t => t.team_id) s rs →
        0 ≤ (rs.foldl Ay.step s).budget)) ∧
    (∀ (s : AySimple.State) (rs : List Round), s.budget = s.initial_budget →
      0 ≤ s.budget → (∀ r ∈ rs, 0 ≤ r.price_paid) →
      (rs.foldl AySimple.step s).budget = s.initial_budget - wonSum s.team_id rs ∧
      (FeasibleFrom AySimple.step (fun t => t.budget) (fun t => t.team_id) s rs →
        0 ≤ (rs.foldl AySimple.step s).budget)) ∧
    (∀ (s : AyAggr.State) (rs : List Round), s.budget = s.initial_budget →
      0 ≤ s.budget → (∀ r ∈ rs, 0 ≤ r.price_paid) →
      (rs.foldl AyAggr.step s).budget = s.initial_budget - wonSum s.team_id rs ∧
      (FeasibleFrom AyAggr.step (fun t => t.budget) (fun t => t.team_id) s rs →
        0 ≤ (rs.foldl AyAggr.step s).budget)) ∧
    (∀ (s : YuviOne.State) (rs : List Round), s.budget = s.initial_budget →
      0 ≤ s.budget → (∀ r ∈ rs, 0 ≤ r.price_paid) →
      (rs.foldl YuviOne.step s).budget = s.initial_budget - wonSum s.team_id rs ∧
      (FeasibleFrom YuviOne.step (fun t => t.budget) (fun t => t.team_id) s rs →
        0 ≤ (rs.foldl YuviOne.step s).budget)) ∧
    (∀ (s : YuviTwo.State) (rs : List Round), s.budget = s.initial_budget →
      0 ≤ s.budget → (∀ r ∈ rs, 0 ≤ r.price_paid) →
      (rs.foldl YuviTwo.step s).budget = s.initial_budget - wonSum s.team_id rs ∧
      (FeasibleFrom YuviTwo.step (fun t => t.budget) (fun t => t.team_id) s rs →
        0 ≤ (rs.foldl YuviTwo.step s).budget)) ∧
    (∀ (s : YuviThree.State) (rs : List Round), s.budget = s.initial_budget →
      0 ≤ s.budget → (∀ r ∈ rs, 0 ≤ r.price_paid) →
      (rs.foldl YuviThree.step s).budget = s.initial_budget - wonSum s.team_id rs ∧
      (FeasibleFrom YuviThree.step (fun t => t.budget) (fun t => t.team_id) s rs →
        0 ≤ (rs.foldl YuviThree.step s).budget)) ∧
    (∀ (s : YuviFour.State) (rs : List Round), s.budget = s.initial_budget →
      0 ≤ s.budget → (∀ r ∈ rs, 0 ≤ r.price_paid) →
      (rs.foldl YuviFour.step s).budget = s.initial_budget - wonSum s.team_id rs ∧
      (FeasibleFrom YuviFour.step (fun t => t.budget) (fun t => t.team_id) s rs →
        0 ≤ (rs.foldl YuviFour.step s).budget)) ∧
    (∀ (s : RAY.State) (rs : List Round), s.budget = s.initial_budget →
      0 ≤ s.budget → (∀ r ∈ rs, 0 ≤ r.price_paid) →
      (rs.foldl RAY.step s).budget = s.initial_budget - wonSum s.team_id rs ∧
      (FeasibleFrom RAY.step (fun t => t.budget) (fun t => t.team_id) s rs →
        0 ≤ (rs.foldl RAY.step s).budget)) := by
  refine ⟨fun s rs h0 hb _ => ⟨?_, ?_⟩, fun s rs h0 hb _ => ⟨?_, ?_⟩,
    fun s rs h0 hb _ => ⟨?_, ?_⟩, fun s rs h0 hb _ => ⟨?_, ?_⟩,
    fun s rs h0 hb _ => ⟨?_, ?_⟩, fun s rs h0 hb _ => ⟨?_, ?_⟩,
    fun s rs h0 hb _ => ⟨?_, ?_⟩, fun s rs h0 hb _ => ⟨?_, ?_⟩,
    fun s rs h0 hb _ => ⟨?_, ?_⟩, fun s rs h0 hb _ => ⟨?_, ?_⟩,
    fun s rs h0 hb _ => ⟨?_, ?_⟩, fun s rs h0 hb _ => ⟨?_, ?_⟩⟩
  · rw [fold_budget ExFive.step (fun t => t.budget) (fun t => t.team_id)
      (fun s r => (ex5_pres s r).1) (fun s r => ex5_budget_step s r) rs s, h0]
  · exact fold_budget_nonneg ExFive.step (fun t => t.budget) (fun t => t.team_id)
      (fun s r => (ex5_pres s r).1) (fun s r => ex5_budget_step s r) rs s hb
  · rw [fold_budget ExTwo.step (fun t => t.budget) (fun t => t.team_id)
      (fun s r => (ex2_pres s r).1) (fun s r => ex2_budget_step s r) rs s, h0]
  · exact fold_budget_nonneg ExTwo.step (fun t => t.budget) (fun t => t.team_id)
      (fun s r => (ex2_pres s r).1) (fun s r => ex2_budget_step s r) rs s hb
  · rw [fold_budget ExThree.step (fun t => t.budget) (fun t => t.team_id)
      (fun s r => (ex3_pres s r).1) (fun s r => ex3_budget_step s r) rs s, h0]
  · exact fold_budget_nonneg ExThree.step (fun t => t.budget) (fun t => t.team_id)
      (fun s r => (ex3_pres s r).1) (fun s r => ex3_budget_step s r) rs s hb
  · rw [fold_budget ExFour.step (fun t => t.budget) (fun t => t.team_id)
      (fun s r => (ex4_pres s r).1) (fun s r => ex4_budget_step s r) rs s, h0]
  · exact fold_budget_nonneg ExFour.step (fun t => t.budget) (fun t => t.team_id)
      (fun s r => (ex4_pres s r).1) (fun s r => ex4_budget_step s r) rs s hb
  · rw [fold_budget Ay.step (fun t => t.budget) (fun t => t.team_id)
      (fun s r => (ay_pres s r).1) (fun s r => ay_budget_step s r) rs s, h0]
  · exact fold_budget_nonneg Ay.step (fun t => t.budget) (fun t => t.team_id)
      (fun s r => (ay_pres s r).1) (fun s r => ay_budget_step s r) rs s hb
  · rw [fold_budget AySimple.step (fun t => t.budget) (fun t => t.team_id)
      (fun s r => (aysimple_pres s r).1) (fun s r => aysimple_budget_step s r) rs s, h0]
  · exact fold_budget_nonneg AySimple.step (fun t => t.budget) (fun t => t.team_id)
      (fun s r => (aysimple_pres s r).1) (fun s r => aysimple_budget_step s r) rs s hb
  · rw [fold_budget AyAggr.step (fun t => t.budget) (fun t => t.team_id)
      (fun s r => (ayaggr_pres s r).1) (fun s r => ayaggr_budget_step s r) rs s, h0]
  · exact fold_budget_nonneg AyAggr.step (fun t => t.budget) (fun t => t.team_id)
      (fun s r => (ayaggr_pres s r).1) (fun s r => ayaggr_budget_step s r) rs s hb
  · rw [fold_budget YuviOne.step (fun t => t.budget) (fun t => t.team_id)
      (fun s r => (y1_pres s r).1) (fun s r => y1_budget_step s r) rs s, h0]
  · exact fold_budget_nonneg YuviOne.step (fun t => t.budget) (fun t => t.team_id)
      (fun s r => (y1_pres s r).1) (fun s r => y1_budget_step s r) rs s hb
  · rw [fold_budget YuviTwo.step (fun t => t.budget) (fun t => t.team_id)
      (fun s r => (y2_pres s r).1) (fun s r => y2_budget_step s r) rs s, h0]
  · exact fold_budget_nonneg YuviTwo.step (fun t => t.budget) (fun t => t.team_id)
      (fun s r => (y2_pres s r).1) (fun s r => y2_budget_step s r) rs s hb
  · rw [fold_budget YuviThree.step (fun t => t.budget) (fun t => t.team_id)
      (fun s r => (y3_pres s r).1) (fun s r => y3_budget_step s r) rs s, h0]
  · exact fold_budget_nonneg YuviThree.step (fun t => t.budget) (fun t => t.team_id)
      (fun s r => (y3_pres s r).1) (fun s r => y3_budget_step s r) rs s hb
  · rw [fold_budget YuviFour.step (fun t => t.budget) (fun t => t.team_id)
      (fun s r => (y4_pres s r).1) (fun s r => y4_budget_step s r) rs s, h0]
  · exact fold_budget_nonneg YuviFour.step (fun t => t.budget) (fun t => t.team_id)
      (fun s r => (y4_pres s r).1) (fun s r => y4_budget_step s r) rs s hb
  · rw [fold_budget RAY.step (fun t => t.budget) (fun t => t.team_id)
      (fun s r => (ray_pres s r).1) (fun s r => ray_budget_step s r) rs s, h0]
  · exact fold_budget_nonneg RAY.step (fun t => t.budget) (fun t => t.team_id)
      (fun s r => (ray_pres s r).1) (fun s r => ray_budget_step s r) rs s hb

/-- C2, counterexample.  With only the non-negativity of price_paid
assumed, one round won at price 100 drives the truthful-bidder budget from
60 to -40: no agent clamps the subtraction, so the non-negativity part of
the claim needs the engine-side feasibility guarantee. -/
theorem C2_counterexample :
    sEx5.budget = sEx5.initial_budget ∧ 0 ≤ rBig.price_paid ∧
    ([rBig].foldl ExFive.step sEx5).budget < 0 := by
  refine ⟨rfl, by decide, ?_⟩
  show (ExFive.step sEx5 rBig).budget < 0
  rw [ex5_budget_step]
  norm_num [sEx5, ExFive.init, rBig, teamA]

/-- C2, witness: one round won at price 3 leaves the truthful bidder with
budget 57 = 60 - 3, and the budget stays non-negative. -/
theorem C2_witness :
    ([rWin].foldl ExFive.step sEx5).budget =
      sEx5.initial_budget - wonSum sEx5.team_id [rWin] ∧
    0 ≤ ([rWin].foldl ExFive.step sEx5).budget := by
  have h := C2_budget_ledger.1 sEx5 [rWin] rfl (by decide) (by decide)
  exact ⟨h.1, h.2 ⟨fun _ => by decide, trivial⟩⟩

/-- C3, amended.  The eight agents that credit utility (the truthful,
random, budget-aware and strategic examples, team_RAY and the three
ayelet variants) satisfy the claim: after any sequence of rounds whose won
items are present in the valuation vector, the utility field has grown by
the sum over won rounds of valuation minus price.  The claim fails for the
yuvi family: team_yuvi_v1 and team_yuvi_v2 set utility to 0 in the
constructor and never update it, and team_yuvi_v3 and team_yuvi_v4 have no
utility attribute at all. -/
theorem C3_utility_ledger :
    (∀ (s : ExFive.State) (rs : List Round),
      (∀ r ∈ rs, r.winning_team = s.team_id →
        (List.lookup r.item_id s.valuation_vector).isSome = true) →
      (rs.foldl ExFive.step s).utility =
        s.utility + utilSum s.team_id s.valuation_vector rs) ∧
    (∀ (s : ExTwo.State) (rs : List Round),
      (∀ r ∈ rs, r.winning_team = s.team_id →
        (List.lookup r.item_id s.valuation_vector).isSome = true) →
      (rs.foldl ExTwo.step s).utility =
        s.utility + utilSum s.team_id s.valuation_vector rs) ∧
    (∀ (s : ExThree.State) (rs : List Round),
      (∀ r ∈ rs, r.winning_team = s.team_id →
        (List.lookup r.item_id s.valuation_vector).isSome = true) →
      (rs.foldl ExThree.step s).utility =
        s.utility + utilSum s.team_id s.valuation_vector rs) ∧
    (∀ (s : ExFour.State) (rs : List Round),
      (∀ r ∈ rs, r.winning_team = s.team_id →
        (List.lookup r.item_id s.valuation_vector).isSome = true) →
      (rs.foldl ExFour.step s).utility =
        s.utility + utilSum s.team_id s.valuation_vector rs) ∧
    (∀ (s : Ay.State) (rs : List Round),
      (∀ r ∈ rs, r.winning_team = s.team_id →
        (List.lookup r.item_id s.valuation_vector).isSome = true) →
      (rs.foldl Ay.step s).utility =
        s.utility + utilSum s.team_id s.valuation_vector rs) ∧
    (∀ (s : AySimple.State) (rs : List Round),
      (∀ r ∈ rs, r.winning_team = s.team_id →
        (List.lookup r.item_id s.valuation_vector).isSome = true) →
      (rs.foldl AySimple.step s).utility =
        s.utility + utilSum s.team_id s.valuation_vector rs) ∧
    (∀ (s : AyAggr.State) (rs : List Round),
      (∀ r ∈ rs, r.winning_team = s.team_id →
        (List.lookup r.item_id s.valuation_vector).isSome = true) →
      (rs.foldl AyAggr.step s).utility =
        s.utility + utilSum s.team_id s.valuation_vector rs) ∧
    (∀ (s : RAY.State) (rs : List Round),
      (∀ r ∈ rs, r.winning_team = s.team_id →
        (List.lookup r.item_id s.valuation_vector).isSome = true) →
      (rs.foldl RAY.step s).utility =
        s.utility + utilSum s.team_id s.valuation_vector rs) ∧
    (∀ (s : YuviOne.State) (rs : List Round),
      (rs.foldl YuviOne.step s).utility = s.utility) ∧
    (∀ (s : YuviTwo.State) (rs : List Round),
      (rs.foldl YuviTwo.step s).utility = s.utility) := by
  refine ⟨?_, ?_, ?_, ?_, ?_, ?_, ?_, ?_, ?_, ?_⟩
  · intro s rs hall
    exact fold_util ExFive.step (fun t => t.utility) (fun t => t.team_id)
      (fun t => t.valuation_vector) (fun s r => (ex5_pres s r).1)
      (fun s r => (ex5_pres s r).2.2) (fun s r hp => ex5_util_step s r hp) rs s hall
  · intro s rs hall
    exact fold_util ExTwo.step (fun t => t.utility) (fun t => t.team_id)
      (fun t => t.valuation_vector) (fun s r => (ex2_pres s r).1)
      (fun s r => (ex2_pres s r).2.2) (fun s r hp => ex2_util_step s r hp) rs s hall
  · intro s rs hall
    exact fold_util ExThree.step (fun t => t.utility) (fun t => t.team_id)
      (fun t => t.valuation_vector) (fun s r => (ex3_pres s r).1)
      (fun s r => (ex3_pres s r).2.2) (fun s r hp => ex3_util_step s r hp) rs s hall
  · intro s rs hall
    exact fold_util ExFour.step (fun t => t.utility) (fun t => t.team_id)
      (fun t => t.valuation_vector) (fun s r => (ex4_pres s r).1)
      (fun s r => (ex4_pres s r).2.2) (fun s r hp => ex4_util_step s r hp) rs s hall
  · intro s rs hall
    exact fold_util Ay.step (fun t => t.utility) (fun t => t.team_id)
      (fun t => t.valuation_vector) (fun s r => (ay_pres s r).1)
      (fun s r => (ay_pres s r).2.2) (fun s r hp => ay_util_step s r hp) rs s hall
  · intro s rs hall
    exact fold_util AySimple.step (fun t => t.utility) (fun t => t.team_id)
      (fun t => t.valuation_vector) (fun s r => (aysimple_pres s r).1)
      (fun s r => (aysimple_pres s r).2.2)
      (fun s r hp => aysimple_util_step s r hp) rs s hall
  · intro s rs hall
    exact fold_util AyAggr.step (fun t => t.utility) (fun t => t.team_id)
      (fun t => t.valuation_vector) (fun s r => (ayaggr_pres s r).1)
      (fun s r => (ayaggr_pres s r).2.2)
      (fun s r hp => ayaggr_util_step s r hp) rs s hall
  · intro s rs hall
    exact fold_util RAY.step (fun t => t.utility) (fun t => t.team_id)
      (fun t => t.valuation_vector) (fun s r => (ray_pres s r).1)
      (fun s r => (ray_pres s r).2.2) (fun s r hp => ray_util_step s r hp) rs s hall
  · intro s rs
    exact fold_pres YuviOne.step (fun t => t.utility)
      (fun s r => y1_util_const s r) rs s
  · intro s rs
    exact fold_pres YuviTwo.step (fun t => t.utility)
      (fun s r => y2_util_const s r) rs s

/-- C3, counterexample.  A team_yuvi_v1 agent that wins its valued item
(valuation 8) at price 3 should, by the claim, hold utility 5; its utility
field stays 0 because update_after_each_round never touches it. -/
theorem C3_counterexample :
    ([rWin].foldl YuviOne.step sY1).utility = 0 ∧
    utilSum sY1.team_id sY1.valuation_vector [rWin] = 5 ∧
    ([rWin].foldl YuviOne.step sY1).utility ≠
      sY1.utility + utilSum sY1.team_id sY1.valuation_vector [rWin] := by
  have h1 : ([rWin].foldl YuviOne.step sY1).utility = 0 :=
    (fold_pres YuviOne.step (fun t => t.utility)
      (fun s r => y1_util_const s r) [rWin] sY1).trans rfl
  have h2 : utilSum sY1.team_id sY1.valuation_vector [rWin] = 5 := by
    norm_num [utilSum, sY1, rWin, dget, vvA, itemA, teamA, List.lookup]
  refine ⟨h1, h2, ?_⟩
  rw [h1, h2]
  norm_num [sY1]

/-- C3, witness: the truthful bidder that wins its valued item (valuation
8) at price 3 ends with utility 5. -/
theorem C3_witness :
    ([rWin].foldl ExFive.step sEx5).utility =
      sEx5.utility + utilSum sEx5.team_id sEx5.valuation_vector [rWin] :=
  C3_utility_ledger.1 sEx5 [rWin] (by decide)

/-- C4.  Modelled from the spec: the Auction Resolver of section 4.3 is
absent from src, so the claim is checked against the resolver modelled from
the spec text.  (1) If no bid is strictly positive there is no winner and
the price is 0.  (2) A declared winner placed a strictly positive bid that
is maximal among all positive bids.  (3) If exactly one bid is strictly
positive, that bidder wins and pays its own bid.  (4) With at least two
positive bids, the price is the maximum bid among the positive bids other
than (one occurrence of) the winning one, the second-highest positive bid.
(5) On the spec example bids A 10, B 7, C 3, A wins and pays 7. -/
theorem C4_resolver :
    (∀ bids : List (String × ℚ), (∀ x ∈ bids, x.2 ≤ 0) →
      resolve bids = (none, 0)) ∧
    (∀ (bids : List (String × ℚ)) (wid : String) (p : ℚ),
      resolve bids = (some wid, p) →
      ∃ q, (wid, q) ∈ bids ∧ 0 < q ∧ ∀ x ∈ bids, 0 < x.2 → x.2 ≤ q) ∧
    (∀ (bids : List (String × ℚ)) (b : String × ℚ),
      bids.filter (fun x => 0 < x.2) = [b] →
      resolve bids = (some b.1, b.2)) ∧
    (∀ (bids : List (String × ℚ)) (wid : String) (p : ℚ),
      resolve bids = (some wid, p) →
      2 ≤ (bids.filter (fun x => 0 < x.2)).length →
      ∃ w, w ∈ bids.filter (fun x => 0 < x.2) ∧ wid = w.1 ∧
        p ∈ ((bids.filter (fun x => 0 < x.2)).erase w).map Prod.snd ∧
        ∀ y ∈ ((bids.filter (fun x => 0 < x.2)).erase w).map Prod.snd,
          y ≤ p) ∧
    resolve [(teamA, 10), (teamB, 7), (teamC, 3)] = (some teamA, 7) := by
  refine ⟨?_, ?_, ?_, ?_, by decide⟩
  · intro bids hall
    have hfil : bids.filter (fun x => 0 < x.2) = [] :=
      List.filter_eq_nil_iff.mpr
        (fun a ha => by simpa using not_lt.2 (hall a ha))
    unfold resolve
    simp only []
    rw [hfil]
  · intro bids wid p h
    obtain ⟨b, rest, hfil, hw, hmem, hub, _⟩ := resolve_some_spec bids wid p h
    refine ⟨(rest.foldl (fun acc x => if acc.2 < x.2 then x else acc) b).2,
      ?_, ?_, ?_⟩
    · rw [hw]
      exact List.mem_of_mem_filter (hfil ▸ hmem)
    · have := List.of_mem_filter (hfil ▸ hmem)
      simpa using this
    · intro x hx hpos
      exact hub x (hfil ▸ List.mem_filter.mpr ⟨hx, by simpa using hpos⟩)
  · intro bids b hfil
    unfold resolve
    simp only []
    rw [hfil]
    simp [List.erase_cons_head]
  · intro bids wid p h hlen
    obtain ⟨b, rest, hfil, hw, hmem, _, hpr⟩ := resolve_some_spec bids wid p h
    refine ⟨rest.foldl (fun acc x => if acc.2 < x.2 then x else acc) b,
      hfil ▸ hmem, hw, ?_⟩
    have hne : (bids.filter (fun x => 0 < x.2)).erase
        (rest.foldl (fun acc x => if acc.2 < x.2 then x else acc) b) ≠ [] := by
      intro hcon
      have hlenc := List.length_erase_of_mem (hfil ▸ hmem)
      rw [hcon] at hlenc
      rw [hfil] at hlen
      rw [hfil] at hlenc
      simp only [List.length_nil] at hlenc
      omega
    rcases hpr with ⟨he, _⟩ | ⟨_, hp⟩
    · exact absurd (hfil ▸ he) hne
    · have hmapne : ((bids.filter (fun x => 0 < x.2)).erase
          (rest.foldl (fun acc x => if acc.2 < x.2 then x else acc) b)).map
            Prod.snd ≠ [] := by
        intro hcon
        exact hne (List.map_eq_nil_iff.mp hcon)
      constructor
      · rw [hp, hfil]
        exact pymax_mem (by rw [← hfil]; exact hmapne)
      · intro y hy
        rw [hp]
        exact pymax_ub (by rw [← hfil]; exact hfil ▸ hy)

/-- C4, witness: no winner on all-zero bids; with bids A 10 and B 7 the
winner A bid positively and maximally, and the price 7 is the best bid
among the remaining positive ones; a single positive bid of 8 wins at its
own price 8. -/
theorem C4_witness :
    resolve [(teamA, 0), (teamB, 0)] = (none, 0) ∧
    (∃ q, (teamA, q) ∈ ([(teamA, 10), (teamB, 7)] : List (String × ℚ)) ∧
      0 < q ∧ ∀ x ∈ ([(teamA, 10), (teamB, 7)] : List (String × ℚ)),
        0 < x.2 → x.2 ≤ q) ∧
    resolve [(teamB, 0), (teamC, 8)] = (some teamC, 8) ∧
    (∃ w, w ∈ ([(teamA, 10), (teamB, 7)] : List (String × ℚ)).filter
        (fun x => 0 < x.2) ∧ teamA = w.1 ∧
      (7 : ℚ) ∈ ((([(teamA, 10), (teamB, 7)] : List (String × ℚ)).filter
        (fun x => 0 < x.2)).erase w).map Prod.snd ∧
      ∀ y ∈ ((([(teamA, 10), (teamB, 7)] : List (String × ℚ)).filter
        (fun x => 0 < x.2)).erase w).map Prod.snd, y ≤ 7) :=
  ⟨C4_resolver.1 [(teamA, 0), (teamB, 0)] (by decide),
   C4_resolver.2.1 [(teamA, 10), (teamB, 7)] teamA 7 (by decide),
   C4_resolver.2.2.1 [(teamB, 0), (teamC, 8)] (teamC, 8) (by decide),
   C4_resolver.2.2.2.1 [(teamA, 10), (teamB, 7)] teamA 7 (by decide)
     (by decide)⟩

/-- C5, amended.  The bidding functions do treat an item_id absent from
valuation_vector as valuation 0 and return a zero bid (for the truthful
and random bidders this needs a non-negative budget, since they return
min valuation budget with no floor at 0).  update_after_each_round does
not complete normally for every combination of arguments: the truthful,
random, budget-aware and strategic examples and the three ayelet variants
raise KeyError exactly when winning_team equals the team_id and the item
is absent (valuation_vector[item_id] on the winner path); team_RAY raises
KeyError whenever the item is absent, winner or not; only the four yuvi
agents always complete normally. -/
theorem C5_missing_item :
    (∀ (s : ExFive.State) (item : String), 0 ≤ s.budget →
      List.lookup item s.valuation_vector = none → ExFive.bid s item = 0) ∧
    (∀ (s : ExTwo.State) (item : String) (f : ℚ), 0 ≤ s.budget →
      List.lookup item s.valuation_vector = none → ExTwo.bid s item f = 0) ∧
    (∀ (s : ExThree.State) (item : String),
      List.lookup item s.valuation_vector = none → ExThree.bid s item = 0) ∧
    (∀ (s : ExFour.State) (item : String),
      List.lookup item s.valuation_vector = none → ExFour.bid s item = 0) ∧
    (∀ (s : Ay.State) (item : String),
      List.lookup item s.valuation_vector = none → Ay.bid s item = 0) ∧
    (∀ (s : AySimple.State) (item : String),
      List.lookup item s.valuation_vector = none → AySimple.bid s item = 0) ∧
    (∀ (s : AyAggr.State) (item : String),
      List.lookup item s.valuation_vector = none → AyAggr.bid s item = 0) ∧
    (∀ (s : RAY.State) (item : String),
      List.lookup item s.valuation_vector = none → RAY.bid s item = 0) ∧
    (∀ (s : YuviOne.State) (item : String),
      List.lookup item s.valuation_vector = none → YuviOne.bid s item = 0) ∧
    (∀ (s : YuviTwo.State) (item : String),
      List.lookup item s.valuation_vector = none → YuviTwo.bid s item = 0) ∧
    (∀ (s : YuviThree.State) (item : String),
      List.lookup item s.valuation_vector = none → YuviThree.bid s item = 0) ∧
    (∀ (s : YuviFour.State) (item : String),
      List.lookup item s.valuation_vector = none → YuviFour.bid s item = 0) ∧
    (∀ (s : ExFive.State) (r : Round), exOk (ExFive.update s r) = true ↔
      (r.winning_team = s.team_id →
        (List.lookup r.item_id s.valuation_vector).isSome = true)) ∧
    (∀ (s : ExTwo.State) (r : Round), exOk (ExTwo.update s r) = true ↔
      (r.winning_team = s.team_id →
        (List.lookup r.item_id s.valuation_vector).isSome = true)) ∧
    (∀ (s : ExThree.State) (r : Round), exOk (ExThree.update s r) = true ↔
      (r.winning_team = s.team_id →
        (List.lookup r.item_id s.valuation_vector).isSome = true)) ∧
    (∀ (s : ExFour.State) (r : Round), exOk (ExFour.update s r) = true ↔
      (r.winning_team = s.team_id →
        (List.lookup r.item_id s.valuation_vector).isSome = true)) ∧
    (∀ (s : Ay.State) (r : Round), exOk (Ay.update s r) = true ↔
      (r.winning_team = s.team_id →
        (List.lookup r.item_id s.valuation_vector).isSome = true)) ∧
    (∀ (s : AySimple.State) (r : Round), exOk (AySimple.update s r) = true ↔
      (r.winning_team = s.team_id →
        (List.lookup r.item_id s.valuation_vector).isSome = true)) ∧
    (∀ (s : AyAggr.State) (r : Round), exOk (AyAggr.update s r) = true ↔
      (r.winning_team = s.team_id →
        (List.lookup r.item_id s.valuation_vector).isSome = true)) ∧
    (∀ (s : RAY.State) (r : Round),
      exOk (RAY.update s r) = (List.lookup r.item_id s.valuation_vector).isSome) ∧
    (∀ (s : YuviOne.State) (r : Round), exOk (YuviOne.update s r) = true) ∧
    (∀ (s : YuviTwo.State) (r : Round), exOk (YuviTwo.update s r) = true) ∧
    (∀ (s : YuviThree.State) (r : Round), exOk (YuviThree.update s r) = true) ∧
    (∀ (s : YuviFour.State) (r : Round), exOk (YuviFour.update s r) = true) := by
  refine ⟨?_, ?_, ?_, ?_, ?_, ?_, ?_, ?_, ?_, ?_, ?_, ?_,
    ex5_ok, ex2_ok, ex3_ok, ex4_ok, ay_ok, aysimple_ok, ayaggr_ok, ray_ok,
    y1_ok, y2_ok, y3_ok, y4_ok⟩
  · intro s item hb h
    unfold ExFive.bid
    simp only []
    rw [show dget s.valuation_vector item 0 = 0 from by simp [dget, h]]
    exact min_eq_left hb
  · intro s item f hb h
    unfold ExTwo.bid
    simp only []
    rw [show dget s.valuation_vector item 0 = 0 from by simp [dget, h]]
    rw [zero_mul]
    exact min_eq_left hb
  · intro s item h
    unfold ExThree.bid
    simp only []
    rw [show dget s.valuation_vector item 0 = 0 from by simp [dget, h]]
    split_ifs
    · rfl
    · rw [zero_mul, min_eq_right (min_le_right s.budget 0),
        max_eq_left (min_le_right s.budget 0)]
  · intro s item h
    unfold ExFour.bid
    simp only []
    rw [show dget s.valuation_vector item 0 = 0 from by simp [dget, h]]
    by_cases h1 : s.budget ≤ 0
    · rw [if_pos h1]
    · rw [if_neg h1]
      have hb : (0 : ℚ) ≤ s.budget := le_of_not_le h1
      have hbh : (0 : ℚ) ≤ s.budget * 0.5 :=
        mul_nonneg hb (by norm_num)
      split_ifs <;>
        simp [zero_mul, min_eq_left hb, min_eq_left hbh]
  · intro s item h
    unfold Ay.bid
    simp only []
    rw [show dget s.valuation_vector item 0 = 0 from by simp [dget, h]]
    rw [if_pos (Or.inl le_rfl)]
  · intro s item h
    unfold AySimple.bid
    simp only []
    rw [show dget s.valuation_vector item 0 = 0 from by simp [dget, h]]
    rw [if_pos (Or.inl le_rfl)]
  · intro s item h
    unfold AyAggr.bid
    simp only []
    rw [show dget s.valuation_vector item 0 = 0 from by simp [dget, h]]
    rw [if_pos (Or.inl le_rfl)]
  · intro s item h
    unfold RAY.bid
    simp only []
    rw [show dget s.valuation_vector item 0 = 0 from by simp [dget, h]]
    rw [if_pos (Or.inl le_rfl)]
  · intro s item h
    unfold YuviOne.bid
    simp only []
    rw [show dget s.valuation_vector item 0 = 0 from by simp [dget, h]]
    rw [if_pos le_rfl]
  · intro s item h
    unfold YuviTwo.bid
    simp only []
    rw [show dget s.valuation_vector item 0 = 0 from by simp [dget, h]]
    rw [if_pos (Or.inl le_rfl)]
  · intro s item h
    unfold YuviThree.bid
    simp only []
    rw [show dget s.valuation_vector item 0 = 0 from by simp [dget, h]]
    rw [if_pos (Or.inl le_rfl)]
  · intro s item h
    unfold YuviFour.bid
    simp only []
    rw [show dget s.valuation_vector item 0 = 0 from by simp [dget, h]]
    rw [if_pos (Or.inl le_rfl)]

/-- C5, counterexample.  update_after_each_round does not always complete
normally on a missing item: the truthful bidder raises KeyError when it is
the winner of a round for an item outside its valuation vector, and
team_RAY raises even as a loser of such a round. -/
theorem C5_counterexample :
    exOk (ExFive.update sEx5 rMissing) = false ∧
    exOk (RAY.update sRay rMissLose) = false := by
  refine ⟨?_, ?_⟩ <;> decide

/-- C5, witness: every agent bids 0 on the item absent from its valuation
vector. -/
theorem C5_witness :
    ExFive.bid sEx5 itemB = 0 ∧ ExTwo.bid sEx2 itemB 1 = 0 ∧
    ExThree.bid sEx3 itemB = 0 ∧ ExFour.bid sEx4 itemB = 0 ∧
    Ay.bid sAy itemB = 0 ∧ AySimple.bid sAySimple itemB = 0 ∧
    AyAggr.bid sAyAggr itemB = 0 ∧ RAY.bid sRay itemB = 0 ∧
    YuviOne.bid sY1 itemB = 0 ∧ YuviTwo.bid sY2 itemB = 0 ∧
    YuviThree.bid sY3 itemB = 0 ∧ YuviFour.bid sY4 itemB = 0 :=
  ⟨C5_missing_item.1 sEx5 itemB (by decide) (by decide),
   C5_missing_item.2.1 sEx2 itemB 1 (by decide) (by decide),
   C5_missing_item.2.2.1 sEx3 itemB (by decide),
   C5_missing_item.2.2.2.1 sEx4 itemB (by decide),
   C5_missing_item.2.2.2.2.1 sAy itemB (by decide),
   C5_missing_item.2.2.2.2.2.1 sAySimple itemB (by decide),
   C5_missing_item.2.2.2.2.2.2.1 sAyAggr itemB (by decide),
   C5_missing_item.2.2.2.2.2.2.2.1 sRay itemB (by decide),
   C5_missing_item.2.2.2.2.2.2.2.2.1 sY1 itemB (by decide),
   C5_missing_item.2.2.2.2.2.2.2.2.2.1 sY2 itemB (by decide),
   C5_missing_item.2.2.2.2.2.2.2.2.2.2.1 sY3 itemB (by decide),
   C5_missing_item.2.2.2.2.2.2.2.2.2.2.2.1 sY4 itemB (by decide)⟩

/-- C6.  For every agent, a call to update_after_each_round whose
winning_team differs from the agent team_id (including the empty no-winner
sentinel) leaves budget, items_won and cumulative utility unchanged; for
team_yuvi_v3 and team_yuvi_v4, which have no utility attribute, budget and
items_won are unchanged.  This holds even when the call raises (team_RAY
raises KeyError on a missing item also as a loser): the fields are not
touched before the raise. -/
theorem C6_loser_frame :
    (∀ (s : ExFive.State) (r : Round), r.winning_team ≠ s.team_id →
      (ExFive.step s r).budget = s.budget ∧
      (ExFive.step s r).items_won = s.items_won ∧
      (ExFive.step s r).utility = s.utility) ∧
    (∀ (s : ExTwo.State) (r : Round), r.winning_team ≠ s.team_id →
      (ExTwo.step s r).budget = s.budget ∧
      (ExTwo.step s r).items_won = s.items_won ∧
      (ExTwo.step s r).utility = s.utility) ∧
    (∀ (s : ExThree.State) (r : Round), r.winning_team ≠ s.team_id →
      (ExThree.step s r).budget = s.budget ∧
      (ExThree.step s r).items_won = s.items_won ∧
      (ExThree.step s r).utility = s.utility) ∧
    (∀ (s : ExFour.State) (r : Round), r.winning_team ≠ s.team_id →
      (ExFour.step s r).budget = s.budget ∧
      (ExFour.step s r).items_won = s.items_won ∧
      (ExFour.step s r).utility = s.utility) ∧
    (∀ (s : Ay.State) (r : Round), r.winning_team ≠ s.team_id →
      (Ay.step s r).budget = s.budget ∧
      (Ay.step s r).items_won = s.items_won ∧
      (Ay.step s r).utility = s.utility) ∧
    (∀ (s : AySimple.State) (r : Round), r.winning_team ≠ s.team_id →
      (AySimple.step s r).budget = s.budget ∧
      (AySimple.step s r).items_won = s.items_won ∧
      (AySimple.step s r).utility = s.utility) ∧
    (∀ (s : AyAggr.State) (r : Round), r.winning_team ≠ s.team_id →
      (AyAggr.step s r).budget = s.budget ∧
      (AyAggr.step s r).items_won = s.items_won ∧
      (AyAggr.step s r).utility = s.utility) ∧
    (∀ (s : RAY.State) (r : Round), r.winning_team ≠ s.team_id →
      (RAY.step s r).budget = s.budget ∧
      (RAY.step s r).items_won = s.items_won ∧
      (RAY.step s r).utility = s.utility) ∧
    (∀ (s : YuviOne.State) (r : Round), r.winning_team ≠ s.team_id →
      (YuviOne.step s r).budget = s.budget ∧
      (YuviOne.step s r).items_won = s.items_won ∧
      (YuviOne.step s r).utility = s.utility) ∧
    (∀ (s : YuviTwo.State) (r : Round), r.winning_team ≠ s.team_id →
      (YuviTwo.step s r).budget = s.budget ∧
      (YuviTwo.step s r).items_won = s.items_won ∧
      (YuviTwo.step s r).utility = s.utility) ∧
    (∀ (s : YuviThree.State) (r : Round), r.winning_team ≠ s.team_id →
      (YuviThree.step s r).budget = s.budget ∧
      (YuviThree.step s r).items_won = s.items_won) ∧
    (∀ (s : YuviFour.State) (r : Round), r.winning_team ≠ s.team_id →
      (YuviFour.step s r).budget = s.budget ∧
      (YuviFour.step s r).items_won = s.items_won) :=
  ⟨ex5_frame, ex2_frame, ex3_frame, ex4_frame, ay_frame, aysimple_frame,
   ayaggr_frame, ray_frame, y1_frame, y2_frame, y3_frame, y4_frame⟩

/-- C6, witness: the truthful bidder is untouched by a round won by the
other team, and team_RAY is untouched by a no-winner round. -/
theorem C6_witness :
    ((ExFive.step sEx5 rLose).budget = sEx5.budget ∧
     (ExFive.step sEx5 rLose).items_won = sEx5.items_won ∧
     (ExFive.step sEx5 rLose).utility = sEx5.utility) ∧
    ((RAY.step sRay rNone).budget = sRay.budget ∧
     (RAY.step sRay rNone).items_won = sRay.items_won ∧
     (RAY.step sRay rNone).utility = sRay.utility) :=
  ⟨C6_loser_frame.1 sEx5 rLose (by decide),
   C6_loser_frame.2.2.2.2.2.2.2.1 sRay rNone (by decide)⟩

/-- C7, amended.  Eleven of the twelve agents compute their bid as a pure
function of the agent state and the item_id, so two runs from identical
constructor arguments over the identical sequence of round outcomes yield
identical bid sequences (the four yuvi agents also record each bid in
my_bids between the bid and the outcome, as their sources do).  The claim
fails for the random bidder team_example_2, whose bidding_function draws
random.uniform(0, 1) seeded from system entropy in the constructor, so the
draw (modelled as an extra input) is not fixed by state and item_id. -/
theorem C7_determinism :
    (∀ (s1 s2 : ExFive.State) (rs : List Round), s1 = s2 →
      runBids ExFive.bid (fun s _ _ => s) ExFive.step s1 rs =
      runBids ExFive.bid (fun s _ _ => s) ExFive.step s2 rs) ∧
    (∀ (s1 s2 : ExThree.State) (rs : List Round), s1 = s2 →
      runBids ExThree.bid (fun s _ _ => s) ExThree.step s1 rs =
      runBids ExThree.bid (fun s _ _ => s) ExThree.step s2 rs) ∧
    (∀ (s1 s2 : ExFour.State) (rs : List Round), s1 = s2 →
      runBids ExFour.bid (fun s _ _ => s) ExFour.step s1 rs =
      runBids ExFour.bid (fun s _ _ => s) ExFour.step s2 rs) ∧
    (∀ (s1 s2 : Ay.State) (rs : List Round), s1 = s2 →
      runBids Ay.bid (fun s _ _ => s) Ay.step s1 rs =
      runBids Ay.bid (fun s _ _ => s) Ay.step s2 rs) ∧
    (∀ (s1 s2 : AySimple.State) (rs : List Round), s1 = s2 →
      runBids AySimple.bid (fun s _ _ => s) AySimple.step s1 rs =
      runBids AySimple.bid (fun s _ _ => s) AySimple.step s2 rs) ∧
    (∀ (s1 s2 : AyAggr.State) (rs : List Round), s1 = s2 →
      runBids AyAggr.bid (fun s _ _ => s) AyAggr.step s1 rs =
      runBids AyAggr.bid (fun s _ _ => s) AyAggr.step s2 rs) ∧
    (∀ (s1 s2 : RAY.State) (rs : List Round), s1 = s2 →
      runBids RAY.bid (fun s _ _ => s) RAY.step s1 rs =
      runBids RAY.bid (fun s _ _ => s) RAY.step s2 rs) ∧
    (∀ (s1 s2 : YuviOne.State) (rs : List Round), s1 = s2 →
      runBids YuviOne.bid YuviOne.recordBid YuviOne.step s1 rs =
      runBids YuviOne.bid YuviOne.recordBid YuviOne.step s2 rs) ∧
    (∀ (s1 s2 : YuviTwo.State) (rs : List Round), s1 = s2 →
      runBids YuviTwo.bid YuviTwo.recordBid YuviTwo.step s1 rs =
      runBids YuviTwo.bid YuviTwo.recordBid YuviTwo.step s2 rs) ∧
    (∀ (s1 s2 : YuviThree.State) (rs : List Round), s1 = s2 →
      runBids YuviThree.bid YuviThree.recordBid YuviThree.step s1 rs =
      runBids YuviThree.bid YuviThree.recordBid YuviThree.step s2 rs) ∧
    (∀ (s1 s2 : YuviFour.State) (rs : List Round), s1 = s2 →
      runBids YuviFour.bid YuviFour.recordBid YuviFour.step s1 rs =
      runBids YuviFour.bid YuviFour.recordBid YuviFour.step s2 rs) := by
  refine ⟨?_, ?_, ?_, ?_, ?_, ?_, ?_, ?_, ?_, ?_, ?_⟩ <;>
    (intro s1 s2 rs h; rw [h])

/-- C7, counterexample.  The random bidder in the same state, asked for the
same item, bids 0 when the uniform draw is 0 and 8 when the draw is 1: its
bid is not a function of state and item_id alone. -/
theorem C7_counterexample :
    ExTwo.bid sEx2 itemA 0 = 0 ∧ ExTwo.bid sEx2 itemA 1 = 8 ∧
    ExTwo.bid sEx2 itemA 0 ≠ ExTwo.bid sEx2 itemA 1 := by
  have h0 : ExTwo.bid sEx2 itemA 0 = 0 := by
    norm_num [ExTwo.bid, sEx2, ExTwo.init, dget, vvA, itemA, teamA,
      List.lookup]
  have h1 : ExTwo.bid sEx2 itemA 1 = 8 := by
    norm_num [ExTwo.bid, sEx2, ExTwo.init, dget, vvA, itemA, teamA,
      List.lookup]
  refine ⟨h0, h1, ?_⟩
  rw [h0, h1]
  norm_num

/-- C7, witness: the truthful bidder produces the same bid sequence on two
identical runs over one lost round. -/
theorem C7_witness :
    runBids ExFive.bid (fun s _ _ => s) ExFive.step sEx5 [rLose] =
    runBids ExFive.bid (fun s _ _ => s) ExFive.step sEx5 [rLose] :=
  C7_determinism.1 sEx5 sEx5 [rLose] rfl

/-- C8.  The team_example_5 bidding_function returns exactly
min(valuation, budget), the valuation read as 0 when the item is absent
from valuation_vector, and in particular the bid never exceeds the
valuation. -/
theorem C8_truthful_baseline :
    ∀ (s : ExFive.State) (item : String),
      ExFive.bid s item = min (dget s.valuation_vector item 0) s.budget ∧
      ExFive.bid s item ≤ dget s.valuation_vector item 0 :=
  fun _ _ => ⟨rfl, min_le_left _ _⟩

/-- C9.  In team_ayelet and team_ayelet_aggresive, _avg_and_median_price
returns (0, 0) on an empty price_history; otherwise the first component is
the arithmetic mean of price_history and the second is the median: there
is a sorted permutation of price_history whose middle element (odd
length), or average of the two middle elements (even length), equals it. -/
theorem C9_avg_median :
    (∀ s : Ay.State, s.price_history = [] →
      Ay.avgAndMedianPrice s = (0, 0)) ∧
    (∀ s : Ay.State, s.price_history ≠ [] →
      (Ay.avgAndMedianPrice s).1 =
        s.price_history.sum / (s.price_history.length : ℚ) ∧
      ∃ ys : List ℚ, List.Perm ys s.price_history ∧
        ys.Sorted (· ≤ ·) ∧
        (Ay.avgAndMedianPrice s).2 =
          (if ys.length % 2 = 1 then ys.getD (ys.length / 2) 0
           else 0.5 * (ys.getD (ys.length / 2 - 1) 0 +
             ys.getD (ys.length / 2) 0))) ∧
    (∀ s : AyAggr.State, s.price_history = [] →
      AyAggr.avgAndMedianPrice s = (0, 0)) ∧
    (∀ s : AyAggr.State, s.price_history ≠ [] →
      (AyAggr.avgAndMedianPrice s).1 =
        s.price_history.sum / (s.price_history.length : ℚ) ∧
      ∃ ys : List ℚ, List.Perm ys s.price_history ∧
        ys.Sorted (· ≤ ·) ∧
        (AyAggr.avgAndMedianPrice s).2 =
          (if ys.length % 2 = 1 then ys.getD (ys.length / 2) 0
           else 0.5 * (ys.getD (ys.length / 2 - 1) 0 +
             ys.getD (ys.length / 2) 0))) := by
  refine ⟨?_, ?_, ?_, ?_⟩
  · intro s h
    unfold Ay.avgAndMedianPrice
    rw [if_pos h]
  · intro s h
    refine ⟨?_, pysorted s.price_history,
      List.perm_insertionSort _ _, List.sorted_insertionSort _ _, ?_⟩
    · unfold Ay.avgAndMedianPrice
      rw [if_neg h]
    · unfold Ay.avgAndMedianPrice
      rw [if_neg h]
  · intro s h
    unfold AyAggr.avgAndMedianPrice
    rw [if_pos h]
  · intro s h
    refine ⟨?_, pysorted s.price_history,
      List.perm_insertionSort _ _, List.sorted_insertionSort _ _, ?_⟩
    · unfold AyAggr.avgAndMedianPrice
      rw [if_neg h]
    · unfold AyAggr.avgAndMedianPrice
      rw [if_neg h]

/-- C9, witness: on price history [3, 1, 2] (odd length) the team_ayelet
helper returns mean 2 and median 2, and on [3, 1, 2, 4] (even length) the
team_ayelet_aggresive helper returns mean 5/2 and median 5/2. -/
theorem C9_witness :
    ((Ay.avgAndMedianPrice sAyPH).1 =
        sAyPH.price_history.sum / (sAyPH.price_history.length : ℚ) ∧
      ∃ ys : List ℚ, List.Perm ys sAyPH.price_history ∧
        ys.Sorted (· ≤ ·) ∧
        (Ay.avgAndMedianPrice sAyPH).2 =
          (if ys.length % 2 = 1 then ys.getD (ys.length / 2) 0
           else 0.5 * (ys.getD (ys.length / 2 - 1) 0 +
             ys.getD (ys.length / 2) 0))) ∧
    ((AyAggr.avgAndMedianPrice sAgPH).1 =
        sAgPH.price_history.sum / (sAgPH.price_history.length : ℚ) ∧
      ∃ ys : List ℚ, List.Perm ys sAgPH.price_history ∧
        ys.Sorted (· ≤ ·) ∧
        (AyAggr.avgAndMedianPrice sAgPH).2 =
          (if ys.length % 2 = 1 then ys.getD (ys.length / 2) 0
           else 0.5 * (ys.getD (ys.length / 2 - 1) 0 +
             ys.getD (ys.length / 2) 0))) :=
  ⟨C9_avg_median.2.1 sAyPH (by decide),
   C9_avg_median.2.2.2 sAgPH (by decide)⟩

/-- C10.  In team_ayelet and team_ayelet_aggresive the pacing shadow price
lambda_shadow starts at 0 and stays non-negative under any sequence of
update_after_each_round calls; in team_ayelet_aggresive it moreover never
exceeds lambda_cap = 6, so the base-bid divisor 1 + lambda_shadow always
lies in [1, 7]. -/
theorem C10_lambda_pacing :
    (∀ (team : String) (vv : List (String × ℚ)) (budget : ℚ)
      (opps : List String),
      (Ay.init team vv budget opps).lambda_shadow = 0) ∧
    (∀ (rs : List Round) (team : String) (vv : List (String × ℚ))
      (budget : ℚ) (opps : List String),
      0 ≤ (rs.foldl Ay.step (Ay.init team vv budget opps)).lambda_shadow) ∧
    (∀ (team : String) (vv : List (String × ℚ)) (budget : ℚ)
      (opps : List String),
      (AyAggr.init team vv budget opps).lambda_shadow = 0) ∧
    (∀ (rs : List Round) (team : String) (vv : List (String × ℚ))
      (budget : ℚ) (opps : List String),
      0 ≤ (rs.foldl AyAggr.step
        (AyAggr.init team vv budget opps)).lambda_shadow ∧
      (rs.foldl AyAggr.step
        (AyAggr.init team vv budget opps)).lambda_shadow ≤ 6 ∧
      1 ≤ 1 + (rs.foldl AyAggr.step
        (AyAggr.init team vv budget opps)).lambda_shadow ∧
      1 + (rs.foldl AyAggr.step
        (AyAggr.init team vv budget opps)).lambda_shadow ≤ 7) := by
  refine ⟨fun _ _ _ _ => rfl, ?_, fun _ _ _ _ => rfl, ?_⟩
  · intro rs team vv budget opps
    exact fold_inv Ay.step (fun t => 0 ≤ t.lambda_shadow)
      (fun s r h => ay_lambda_step s r h) rs (Ay.init team vv budget opps)
      le_rfl
  · intro rs team vv budget opps
    have h := fold_inv AyAggr.step
      (fun t => 0 ≤ t.lambda_shadow ∧ t.lambda_shadow ≤ t.lambda_cap ∧
        t.lambda_cap = 6)
      (fun s r hp => ayaggr_lambda_step s r hp) rs
      (AyAggr.init team vv budget opps)
      ⟨le_rfl, by norm_num [AyAggr.init], by norm_num [AyAggr.init]⟩
    obtain ⟨h1, h2, h3⟩ := h
    rw [h3] at h2
    exact ⟨h1, h2, by linarith, by linarith⟩

end AGT
